import Mathlib

/-!
# GE RDF9 HDF5 wrapper (`src/IO/GEHDF5Wrapper.cxx`)

A shallow embedding of `stir::GE::RDF_HDF5::GEHDF5Wrapper`.

* The HDF5 container is a finite list of `(path, object)` pairs.
* Member functions are state transformers over the `Wrapper` record.  A thrown
  exception (`stir::error` or an exception of the HDF5 library) is the
  `Except.error` result; members written before the throw keep their new value,
  exactly as in C++.
* A typed read succeeds on a dataset of that type and throws on any other object.
* `float`/`double` values are idealised as rationals (no rounding, no NaN; a
  division by zero gives 0 where the machine gives an infinity or a NaN).
* `int` arithmetic is reduced to 32 bits in two's complement.
* Every access to the container (opening a dataset, testing a link) is recorded
  in the `probes` list, every `warning(...)` call in the `warnings` list.
* `get_scanner_from_HDF5` is embedded as its consecutive blocks of source lines,
  composed in the order of the source.
-/

namespace STIR.GE.RDF_HDF5

/-! ## The container -/

/-- An object stored under a path of the HDF5 file. -/
inductive H5Object where
  | group
  | uint32 (v : Nat)
  | int32 (v : Int)
  | float32 (v : ℚ)
  | str (s : String)
  | array (dims : List Nat) (data : List ℚ)
deriving DecidableEq

/-- The `H5::H5File` member: `id_open` is `getId() != -1`. -/
structure H5File where
  id_open : Bool
  objects : List (String × H5Object)
deriving DecidableEq

/-- The object linked at `path`, if any. -/
def H5File.lookup (f : H5File) (path : String) : Option H5Object :=
  f.objects.lookup path

/-- The type `stir::Succeeded`. -/
inductive Succeeded where
  | yes
  | no
deriving DecidableEq

/-- What a call can throw: `stir::error(msg)`, or an exception of the HDF5
library raised for the given path (missing object, or object of another type). -/
inductive Err where
  | stir (msg : String)
  | h5 (path : String)
deriving DecidableEq

deriving instance DecidableEq for Except

/-- The `warning(...)` calls of the wrapper. -/
inductive Warning where
  | effective_ring_radius
  | timing_resolution
  | size_of_timing_pos
  | max_num_timing_poss
  | default_bin_size_not_set
  | default_num_arccorrected_bins_not_set
  | energy_resolution_not_set
  | read_as_non_TOF
deriving DecidableEq

/-! ## Floating-point values -/

/-- The position of the leading binary digit of `n`, 0 for `n < 2`; the first argument
bounds the number of halvings. -/
def log2_fuel : Nat → Nat → Nat
  | 0, _ => 0
  | fuel + 1, n => if n < 2 then 0 else log2_fuel fuel (n / 2) + 1

/-- The exponent `e` with `2 ^ e ≤ a < 2 ^ (e + 1)` of a positive rational `a`. -/
def log2_floor (a : ℚ) : Int :=
  if (2 : ℚ) ^ ((log2_fuel a.num.natAbs a.num.natAbs : Int) - (log2_fuel a.den a.den : Int)) ≤ a then
    (log2_fuel a.num.natAbs a.num.natAbs : Int) - (log2_fuel a.den a.den : Int)
  else
    (log2_fuel a.num.natAbs a.num.natAbs : Int) - (log2_fuel a.den a.den : Int) - 1

/-- Rounding to the nearest integer, a tie going to the even one. -/
def round_half_even (q : ℚ) : Int :=
  if q - ⌊q⌋ < 1 / 2 then ⌊q⌋
  else if q - ⌊q⌋ > 1 / 2 then ⌊q⌋ + 1
  else if ⌊q⌋ % 2 = 0 then ⌊q⌋ else ⌊q⌋ + 1

/-- Rounding to the nearest binary floating-point number with `prec` significant bits and
least normal exponent `emin` (IEEE 754 round to nearest, ties to even, with gradual
underflow), the exponent not bounded from above. -/
def round_binary (prec : Nat) (emin : Int) (x : ℚ) : ℚ :=
  if x = 0 then 0
  else
    (round_half_even (x / (2 : ℚ) ^ (max (log2_floor |x|) emin - (prec - 1 : Nat)))) *
      (2 : ℚ) ^ (max (log2_floor |x|) emin - (prec - 1 : Nat))

/-- A value of the type `float` (IEEE 754 binary32): a finite number, an infinity or a NaN.
The sign of a zero is not represented; a zero divisor is taken as `+0`, which is what
the conversion of the `int` 0 gives. -/
inductive Float32 where
  | finite (q : ℚ)
  | pos_inf
  | neg_inf
  | nan
deriving DecidableEq

/-- The `float` nearest to `x`: 24 significant bits, least normal exponent -126, and an
infinity when the rounded magnitude reaches `2 ^ 128`. -/
def Float32.ofRat (x : ℚ) : Float32 :=
  if 2 ^ 128 ≤ round_binary 24 (-126) x then Float32.pos_inf
  else if round_binary 24 (-126) x ≤ -2 ^ 128 then Float32.neg_inf
  else Float32.finite (round_binary 24 (-126) x)

/-- The conversion of an `int` to `float`. -/
def Float32.ofInt (n : Int) : Float32 :=
  Float32.ofRat n

/-- The literal `.1F`. -/
def Float32.tenth : Float32 :=
  Float32.ofRat (1 / 10)

/-- Negation. -/
def Float32.neg : Float32 → Float32
  | Float32.finite a => Float32.finite (-a)
  | Float32.pos_inf => Float32.neg_inf
  | Float32.neg_inf => Float32.pos_inf
  | Float32.nan => Float32.nan

/-- The sum of two `float` values, rounded. -/
def Float32.add : Float32 → Float32 → Float32
  | Float32.finite a, Float32.finite b => Float32.ofRat (a + b)
  | Float32.nan, _ => Float32.nan
  | _, Float32.nan => Float32.nan
  | Float32.pos_inf, Float32.neg_inf => Float32.nan
  | Float32.neg_inf, Float32.pos_inf => Float32.nan
  | Float32.pos_inf, _ => Float32.pos_inf
  | _, Float32.pos_inf => Float32.pos_inf
  | Float32.neg_inf, _ => Float32.neg_inf
  | _, Float32.neg_inf => Float32.neg_inf

/-- The difference of two `float` values, rounded. -/
def Float32.sub (a b : Float32) : Float32 :=
  Float32.add a (Float32.neg b)

/-- The product of two `float` values, rounded. -/
def Float32.mul : Float32 → Float32 → Float32
  | Float32.finite a, Float32.finite b => Float32.ofRat (a * b)
  | Float32.nan, _ => Float32.nan
  | _, Float32.nan => Float32.nan
  | Float32.pos_inf, Float32.finite b =>
    if b = 0 then Float32.nan else if 0 < b then Float32.pos_inf else Float32.neg_inf
  | Float32.neg_inf, Float32.finite b =>
    if b = 0 then Float32.nan else if 0 < b then Float32.neg_inf else Float32.pos_inf
  | Float32.finite a, Float32.pos_inf =>
    if a = 0 then Float32.nan else if 0 < a then Float32.pos_inf else Float32.neg_inf
  | Float32.finite a, Float32.neg_inf =>
    if a = 0 then Float32.nan else if 0 < a then Float32.neg_inf else Float32.pos_inf
  | Float32.pos_inf, Float32.pos_inf => Float32.pos_inf
  | Float32.neg_inf, Float32.neg_inf => Float32.pos_inf
  | Float32.pos_inf, Float32.neg_inf => Float32.neg_inf
  | Float32.neg_inf, Float32.pos_inf => Float32.neg_inf

/-- The quotient of two `float` values, rounded; a finite value divided by zero is an
infinity of its sign, and a NaN when it is zero itself. -/
def Float32.div : Float32 → Float32 → Float32
  | Float32.finite a, Float32.finite b =>
    if b = 0 then
      if a = 0 then Float32.nan else if 0 < a then Float32.pos_inf else Float32.neg_inf
    else Float32.ofRat (a / b)
  | Float32.nan, _ => Float32.nan
  | _, Float32.nan => Float32.nan
  | Float32.finite _, Float32.pos_inf => Float32.finite 0
  | Float32.finite _, Float32.neg_inf => Float32.finite 0
  | Float32.pos_inf, Float32.finite b => if b < 0 then Float32.neg_inf else Float32.pos_inf
  | Float32.neg_inf, Float32.finite b => if b < 0 then Float32.pos_inf else Float32.neg_inf
  | Float32.pos_inf, Float32.pos_inf => Float32.nan
  | Float32.pos_inf, Float32.neg_inf => Float32.nan
  | Float32.neg_inf, Float32.pos_inf => Float32.nan
  | Float32.neg_inf, Float32.neg_inf => Float32.nan

/-- The function `fabs`. -/
def Float32.abs : Float32 → Float32
  | Float32.finite a => Float32.finite |a|
  | Float32.pos_inf => Float32.pos_inf
  | Float32.neg_inf => Float32.pos_inf
  | Float32.nan => Float32.nan

/-- The comparison `a < b`: false when either side is a NaN. -/
def Float32.blt : Float32 → Float32 → Bool
  | Float32.finite a, Float32.finite b => decide (a < b)
  | Float32.nan, _ => false
  | _, Float32.nan => false
  | Float32.neg_inf, Float32.neg_inf => false
  | Float32.neg_inf, _ => true
  | _, Float32.neg_inf => false
  | Float32.pos_inf, _ => false
  | _, Float32.pos_inf => true

/-- The comparison `a <= b`: false when either side is a NaN. -/
def Float32.ble : Float32 → Float32 → Bool
  | Float32.finite a, Float32.finite b => decide (a ≤ b)
  | Float32.nan, _ => false
  | _, Float32.nan => false
  | Float32.neg_inf, _ => true
  | _, Float32.pos_inf => true
  | Float32.pos_inf, _ => false
  | _, Float32.neg_inf => false

instance : Add Float32 := ⟨Float32.add⟩
instance : Sub Float32 := ⟨Float32.sub⟩
instance : Mul Float32 := ⟨Float32.mul⟩
instance : Div Float32 := ⟨Float32.div⟩
instance : LT Float32 := ⟨fun a b => Float32.blt a b = true⟩
instance : LE Float32 := ⟨fun a b => Float32.ble a b = true⟩

instance (a b : Float32) : Decidable (a < b) :=
  inferInstanceAs (Decidable (Float32.blt a b = true))

instance (a b : Float32) : Decidable (a ≤ b) :=
  inferInstanceAs (Decidable (Float32.ble a b = true))

/-! ## Collaborators declared outside the sources -/

/-- Modelled from the spec: the scanner model (class `Scanner`, whose code is not
among the sources), reduced to the fields that `get_scanner_from_HDF5` reads or
sets through its getters and setters.  Each `set_x` stores the field `x` and each
`get_x` returns it. -/
structure Scanner where
  name : String
  num_rings : Int
  num_detectors_per_ring : Int
  max_num_non_arccorrected_bins : Int
  default_num_arccorrected_bins : Int
  ring_spacing : Float32
  intrinsic_azimuthal_tilt : Float32
  num_axial_blocks_per_bucket : Int
  num_transaxial_blocks_per_bucket : Int
  num_axial_crystals_per_block : Int
  num_transaxial_crystals_per_block : Int
  num_detector_layers : Int
  reference_energy : Float32
  energy_resolution : Float32
  inner_ring_radius : Float32
  average_depth_of_interaction : Float32
  timing_resolution : Float32
  size_of_timing_pos : Float32
  max_num_timing_poss : Int
  default_bin_size : Float32
deriving DecidableEq

/-- Modelled from the spec: `Scanner::get_effective_ring_radius`, the inner ring
radius plus the average depth of interaction, a sum of two `float` values. -/
def Scanner.get_effective_ring_radius (s : Scanner) : Float32 :=
  s.inner_ring_radius + s.average_depth_of_interaction

/-- Modelled from the spec: `PatientPosition::OrientationValue`, declared in
`stir/PatientPosition.h`. -/
inductive OrientationValue where
  | head_in
  | feet_in
  | other_orientation
  | unknown_orientation
deriving DecidableEq

/-- Modelled from the spec: `PatientPosition::RotationValue`, declared in
`stir/PatientPosition.h`. -/
inductive RotationValue where
  | supine
  | prone
  | right
  | left
  | other_rotation
  | unknown_rotation
deriving DecidableEq

/-- The two members of `PatientPosition`. -/
structure PatientPosition where
  orientation : OrientationValue
  rotation : RotationValue
deriving DecidableEq

/-- Modelled from the spec: a radionuclide record (class `Radionuclide`): name,
reference energy, positron fraction and half-life. -/
structure Radionuclide where
  name : String
  energy : ℚ
  branching_ratio : ℚ
  half_life : ℚ
deriving DecidableEq

/-- Modelled from the spec: the members of `ExamInfo` written by
`initialise_exam_info`. -/
structure ExamInfo where
  patient_position : PatientPosition
  high_energy_thres : ℚ
  low_energy_thres : ℚ
  start_time_in_secs_since_1970 : ℚ
  time_frame_definitions : List (ℚ × ℚ)
  radionuclide : Radionuclide
deriving DecidableEq

/-- Modelled from the spec: the projection geometry, as the arguments handed to
`ProjDataInfo::construct_proj_data_info` and the two bed positions set afterwards. -/
structure ProjDataInfo where
  scanner_sptr : Scanner
  span : Int
  max_delta : Int
  num_views : Int
  num_tangential_poss : Int
  arc_corrected : Bool
  tof_mash_factor : Int
  bed_position_horizontal : ℚ
  bed_position_vertical : ℚ
deriving DecidableEq

/-- Constants and services that the wrapper takes from headers and classes outside
the sources: the constant `m_max_dataset_dims` and the enumerators of
`AcqPatientEntries` and `AcqPatientPositions` (`GEHDF5Wrapper.h`), the scanner
catalog `Scanner::get_scanner_from_name` (`none` is the null pointer),
`RadionuclideDB::get_radionuclide`, the default-constructed `ExamInfo`, and the
files on disk (`none` for a name that is not an HDF5 file). -/
structure Env where
  m_max_dataset_dims : Nat
  ACQ_HEAD_FIRST : Nat
  ACQ_FEET_FIRST : Nat
  ACQ_SUPINE : Nat
  ACQ_PRONE : Nat
  ACQ_LEFT_DECUB : Nat
  ACQ_RIGHT_DECUB : Nat
  get_scanner_from_name : String → Option Scanner
  get_radionuclide : String → Radionuclide
  new_ExamInfo : ExamInfo
  disk : String → Option (List (String × H5Object))

/-- The value of the constant `_PI` (the `double` nearest to π). -/
def _PI : ℚ := 884279719003555 / 281474976710656

/-- The argument `intrinsic_tilt * _PI / 180` of `set_intrinsic_azimuthal_tilt`: the product
and the quotient are computed in `double` (53 significant bits, least normal exponent
-1022) and the result is converted to the `float` parameter. -/
def Float32.times_PI_over_180 : Float32 → Float32
  | Float32.finite q =>
    Float32.ofRat (round_binary 53 (-1022) (round_binary 53 (-1022) (q * _PI) / 180))
  | Float32.pos_inf => Float32.pos_inf
  | Float32.neg_inf => Float32.neg_inf
  | Float32.nan => Float32.nan

/-- The `int` holding the 32 bits of an unsigned value (a dataset read with
memory type `NATIVE_UINT32` into an `int` variable). -/
def uint32_as_int (n : Nat) : Int :=
  if n % 2 ^ 32 < 2 ^ 31 then (n % 2 ^ 32 : Nat) else ((n % 2 ^ 32 : Nat) : Int) - 2 ^ 32

/-- The result of `int` arithmetic, reduced to 32 bits in two's complement. -/
def wrap_int32 (x : Int) : Int :=
  (x + 2 ^ 31) % 2 ^ 32 - 2 ^ 31

/-- Extents of the dataspace of an open dataset: those of an array, none for a
scalar. -/
def H5Object.getSimpleExtentDims (o : H5Object) : List Nat :=
  match o with
  | H5Object.array dims _ => dims
  | _ => []

/-! ## The wrapper state -/

/-- Data members of `GEHDF5Wrapper` used by the embedded functions, and the two
observation lists `probes` and `warnings`. -/
structure Wrapper where
  file : H5File
  exam_info_sptr : Option ExamInfo
  proj_data_info_sptr : Option ProjDataInfo
  is_list : Bool
  is_sino : Bool
  is_geo : Bool
  is_norm : Bool
  rdf_ver : Nat
  geo_dims : Nat
  m_address : String
  m_size_of_record_signature : Nat
  m_max_size_of_record : Nat
  m_num_singles_samples : Nat
  m_dataset_sptr : Option H5Object
  m_dataset_list_Ndims : Nat
  m_list_size : Nat
  m_NX_SUB : Nat
  m_NY_SUB : Nat
  m_NZ_SUB : Nat
  probes : List String
  warnings : List Warning
deriving DecidableEq

/-- A wrapper holding the file `f`, all other members at the given flag values
or zero, nothing observed yet. -/
def Wrapper.fresh (f : H5File) (l s g n : Bool) : Wrapper :=
  { file := f, exam_info_sptr := none, proj_data_info_sptr := none, is_list := l, is_sino := s, is_geo := g, is_norm := n,
    rdf_ver := 0, geo_dims := 0, m_address := "",
    m_size_of_record_signature := 0, m_max_size_of_record := 0,
    m_num_singles_samples := 0, m_dataset_sptr := none,
    m_dataset_list_Ndims := 0, m_list_size := 0,
    m_NX_SUB := 0, m_NY_SUB := 0, m_NZ_SUB := 0,
    probes := [], warnings := [] }

/-- A member function returning `α`: the result or the exception thrown, and the
wrapper afterwards. -/
def M (α : Type) : Type := Wrapper → Except Err α × Wrapper

/-- Return without touching the wrapper. -/
@[simp]
def M.pure {α : Type} (a : α) : M α := fun w => (Except.ok a, w)

/-- Sequencing: an exception of the first part ends the call, keeping the
wrapper as the first part left it. -/
@[simp]
def M.bind {α β : Type} (m : M α) (k : α → M β) : M β := fun w =>
  match m w with
  | (Except.ok a, w1) => k a w1
  | (Except.error e, w1) => (Except.error e, w1)

instance : Monad M where
  pure := M.pure
  bind := M.bind

/-- Throw. -/
@[simp]
def throwErr {α : Type} (e : Err) : M α := fun w => (Except.error e, w)

/-- The call `error(msg)`. -/
@[simp]
def error {α : Type} (msg : String) : M α := throwErr (Err.stir msg)

/-- The call `warning(...)`. -/
@[simp]
def warning (x : Warning) : M Unit := fun w =>
  (Except.ok (), { w with warnings := w.warnings ++ [x] })

/-- Read the wrapper. -/
@[simp]
def getW : M Wrapper := fun w => (Except.ok w, w)

/-- Update the wrapper. -/
@[simp]
def modifyW (f : Wrapper → Wrapper) : M Unit := fun w => (Except.ok (), f w)

/-- Record an access to the container. -/
@[simp]
def probe (path : String) : M Unit :=
  modifyW fun w => { w with probes := w.probes ++ [path] }

/-- The guard `if (file.getId() == -1) error("File is not open. Aborting")`. -/
@[simp]
def check_open : M Unit := do
  if !(← getW).file.id_open then error "File is not open. Aborting"

/-- The call `file.openDataSet(path)`: the dataset at `path`; throws when the
path is absent or names a group. -/
@[simp]
def openDataSet (path : String) : M H5Object := do
  probe path
  let w ← getW
  match w.file.lookup path with
  | none => throwErr (Err.h5 path)
  | some H5Object.group => throwErr (Err.h5 path)
  | some o => pure o

/-- The call `H5Lexists(file.getId(), path, H5P_DEFAULT) > 0`. -/
@[simp]
def H5Lexists (path : String) : M Bool := do
  probe path
  let w ← getW
  pure (w.file.lookup path).isSome

/-- Reading an open dataset with memory type `NATIVE_UINT32`. -/
@[simp]
def read_NATIVE_UINT32 (path : String) (o : H5Object) : M Nat :=
  match o with
  | H5Object.uint32 v => pure (v % 2 ^ 32)
  | _ => throwErr (Err.h5 path)

/-- Reading an open dataset with memory type `NATIVE_INT32`. -/
@[simp]
def read_NATIVE_INT32 (path : String) (o : H5Object) : M Int :=
  match o with
  | H5Object.int32 v => pure (wrap_int32 v)
  | _ => throwErr (Err.h5 path)

/-- Reading an open dataset with memory type `NATIVE_FLOAT`: the number recorded.  Where the
`float` variable that receives it enters `float` arithmetic, the caller rounds it with
`Float32.ofRat`. -/
@[simp]
def read_NATIVE_FLOAT (path : String) (o : H5Object) : M ℚ :=
  match o with
  | H5Object.float32 v => pure v
  | _ => throwErr (Err.h5 path)

/-- Reading an open string dataset. -/
@[simp]
def read_StrType (path : String) (o : H5Object) : M String :=
  match o with
  | H5Object.str s => pure s
  | _ => throwErr (Err.h5 path)

/-- The member function `GEHDF5Wrapper::read_dataset_uint32`. -/
@[simp]
def read_dataset_uint32 (dataset_name : String) : M Nat := do
  let dataset ← openDataSet dataset_name
  read_NATIVE_UINT32 dataset_name dataset

/-- The member function `GEHDF5Wrapper::read_dataset_int32`. -/
@[simp]
def read_dataset_int32 (dataset_name : String) : M Int := do
  let dataset ← openDataSet dataset_name
  read_NATIVE_INT32 dataset_name dataset

/-- The static function `read_float`. -/
@[simp]
def read_float (dataset : String) : M ℚ := do
  let ds ← openDataSet dataset
  read_NATIVE_FLOAT dataset ds

/-- The static function `read_string`. -/
@[simp]
def read_string (dataset : String) : M String := do
  let ds ← openDataSet dataset
  read_StrType dataset ds

/-! ## Signature, classification predicates, `check_file` -/

/-- The member function `GEHDF5Wrapper::check_GE_signature(H5::H5File&)`. -/
def check_GE_signature : M Bool := do
  check_open
  let read_str_manufacturer ← read_string "/HeaderData/ExamData/manufacturer"
  if read_str_manufacturer = "GE MEDICAL SYSTEMS" then
    pure true
  else
    pure false

/-- The member function `GEHDF5Wrapper::is_list_file`. -/
def is_list_file : M Bool := do
  if (← getW).is_list then
    pure true
  else
    check_open
    let dataset ← openDataSet "/HeaderData/RDFConfiguration/isListFile"
    let is_list_file ← read_NATIVE_UINT32 "/HeaderData/RDFConfiguration/isListFile" dataset
    pure (is_list_file != 0)

/-- The member function `GEHDF5Wrapper::is_sino_file`. -/
def is_sino_file : M Bool := do
  if (← getW).is_sino then
    pure true
  else
    check_open
    H5Lexists "/SegmentData/Segment2"

/-- The member function `GEHDF5Wrapper::is_geo_file`. -/
def is_geo_file : M Bool := do
  if (← getW).is_geo || (← getW).is_norm then
    pure true
  else
    check_open
    H5Lexists "/SegmentData/Segment4/3D_Norm_Correction/slice1"

/-- The member function `GEHDF5Wrapper::is_norm_file`. -/
def is_norm_file : M Bool := do
  if (← getW).is_norm then
    pure true
  else
    check_open
    H5Lexists "/3DCrystalEfficiency/crystalEfficiency"

/-- The member function `GEHDF5Wrapper::check_geo_type`. -/
def check_geo_type : M Nat := do
  if !(← getW).is_geo then error "Not a geo file. Aborting"
  check_open
  let str_geo_size ← openDataSet "/HeaderData/Sorter/Segment4/dimension3Size"
  let geo_type ← read_NATIVE_UINT32 "/HeaderData/Sorter/Segment4/dimension3Size" str_geo_size
  if geo_type > 1 then
    pure 3
  else
    pure 2

/-- The member function `GEHDF5Wrapper::check_file`. -/
def check_file : M Succeeded := do
  check_open
  if !(← check_GE_signature) then error "File is HDF5 but not GE data. Aborting"
  modifyW fun w => { w with is_list := false }
  modifyW fun w => { w with is_norm := false }
  modifyW fun w => { w with is_geo := false }
  modifyW fun w => { w with is_sino := false }
  let str_file_version ← openDataSet "/HeaderData/RDFConfiguration/fileVersion/majorVersion"
  let v ← read_NATIVE_UINT32 "/HeaderData/RDFConfiguration/fileVersion/majorVersion" str_file_version
  modifyW fun w => { w with rdf_ver := v }
  if (← getW).rdf_ver != 9 then error "Only RDF version 9 supported. Aborting"
  if (← is_list_file) then
    modifyW fun w => { w with is_list := true }
    if (← getW).rdf_ver == 9 then
      let str_file_version ← openDataSet "/HeaderData/ListHeader/isListCompressed"
      let is_compressed ← read_NATIVE_UINT32 "/HeaderData/ListHeader/isListCompressed" str_file_version
      if is_compressed != 0 then
        error "The RDF9 Listmode file is compressed, we won't be able to read it. Please uncompress it and retry. Aborting"
    pure Succeeded.yes
  else if (← is_sino_file) then
    modifyW fun w => { w with is_sino := true }
    pure Succeeded.yes
  else if (← is_norm_file) then
    modifyW fun w => { w with is_norm := true }
    modifyW fun w => { w with is_geo := true }
    let g ← check_geo_type
    modifyW fun w => { w with geo_dims := g }
    pure Succeeded.yes
  else if (← is_geo_file) then
    modifyW fun w => { w with is_geo := true }
    let g ← check_geo_type
    modifyW fun w => { w with geo_dims := g }
    pure Succeeded.yes
  else
    pure Succeeded.no

/-! ## `open`, scanner, projection geometry, exam information -/

/-- Reading an open dataset with memory type `NATIVE_UINT32` into an `int`. -/
@[simp]
def read_NATIVE_UINT32_into_int (path : String) (o : H5Object) : M Int := do
  let v ← read_NATIVE_UINT32 path o
  pure (uint32_as_int v)

/-- The local variables of `get_scanner_from_HDF5` once every dataset is read and
the derived counts are computed (source lines 285 to 353). -/
structure ScannerLocals where
  read_str_scanner : String
  effective_ring_diameter : Float32
  num_transaxial_blocks_per_bucket : Int
  num_axial_blocks_per_bucket : Int
  axial_blocks_per_unit : Int
  radial_blocks_per_unit : Int
  axial_units_per_module : Int
  radial_units_per_module : Int
  axial_modules_per_system : Int
  radial_modules_per_system : Int
  max_num_non_arccorrected_bins : Int
  num_transaxial_crystals_per_block : Int
  num_axial_crystals_per_block : Int
  detector_axial_size : Float32
  intrinsic_tilt : Float32
  num_detector_layers : Int
  timingResolutionInPico : Float32
  posCoincidenceWindow : Int
  negCoincidenceWindow : Int
  coincTimingPrecisionInPico : Float32
  num_tof_bins : Int
  num_rings : Int
  num_detectors_per_ring : Int
  ring_spacing : Float32
deriving DecidableEq

/-- The member function `GEHDF5Wrapper::get_scanner_from_HDF5`, first part (source lines 285 to 353):
the datasets are opened, then read, and the derived counts are computed.  A dataset read
into a `float` variable gives the `float` nearest to the number recorded; the products,
sums and differences of `int` values wrap to 32 bits (signed overflow is undefined in the
source). -/
def get_scanner_from_HDF5_read : M ScannerLocals := do
  let read_str_scanner ← read_string "/HeaderData/ExamData/scannerDesc"
  let num_detector_layers : Int := 1
  let str_effective_ring_diameter ← openDataSet "/HeaderData/SystemGeometry/effectiveRingDiameter"
  let str_axial_blocks_per_module ← openDataSet "/HeaderData/SystemGeometry/axialBlocksPerModule"
  let str_radial_blocks_per_module ← openDataSet "/HeaderData/SystemGeometry/radialBlocksPerModule"
  let str_axial_blocks_per_unit ← openDataSet "/HeaderData/SystemGeometry/axialBlocksPerUnit"
  let str_radial_blocks_per_unit ← openDataSet "/HeaderData/SystemGeometry/radialBlocksPerUnit"
  let str_axial_units_per_module ← openDataSet "/HeaderData/SystemGeometry/axialUnitsPerModule"
  let str_radial_units_per_module ← openDataSet "/HeaderData/SystemGeometry/radialUnitsPerModule"
  let str_axial_modules_per_system ← openDataSet "/HeaderData/SystemGeometry/axialModulesPerSystem"
  let str_radial_modules_per_system ← openDataSet "/HeaderData/SystemGeometry/radialModulesPerSystem"
  let str_detector_axial_size ← openDataSet "/HeaderData/SystemGeometry/detectorAxialSize"
  let str_intrinsic_tilt ← openDataSet "/HeaderData/SystemGeometry/transaxial_crystal_0_offset"
  let str_max_number_of_non_arc_corrected_bins : Option (String × H5Object) ←
    if (← getW).rdf_ver == 9 then
      if (← is_sino_file) then do
        let d ← openDataSet "/HeaderData/Sorter/dimension2Size"
        pure (some ("/HeaderData/Sorter/dimension2Size", d))
      else do
        let d ← openDataSet "/HeaderData/Sorter/dimension1Size"
        pure (some ("/HeaderData/Sorter/dimension1Size", d))
    else
      pure none
  let str_axial_crystals_per_block ← openDataSet "/HeaderData/SystemGeometry/axialCrystalsPerBlock"
  let str_radial_crystals_per_block ← openDataSet "/HeaderData/SystemGeometry/radialCrystalsPerBlock"
  let num_transaxial_blocks_per_bucket ←
    read_NATIVE_UINT32_into_int "/HeaderData/SystemGeometry/radialBlocksPerModule" str_radial_blocks_per_module
  let num_axial_blocks_per_bucket ←
    read_NATIVE_UINT32_into_int "/HeaderData/SystemGeometry/axialBlocksPerModule" str_axial_blocks_per_module
  let axial_blocks_per_unit ←
    read_NATIVE_UINT32_into_int "/HeaderData/SystemGeometry/axialBlocksPerUnit" str_axial_blocks_per_unit
  let radial_blocks_per_unit ←
    read_NATIVE_UINT32_into_int "/HeaderData/SystemGeometry/radialBlocksPerUnit" str_radial_blocks_per_unit
  let axial_units_per_module ←
    read_NATIVE_UINT32_into_int "/HeaderData/SystemGeometry/axialUnitsPerModule" str_axial_units_per_module
  let radial_units_per_module ←
    read_NATIVE_UINT32_into_int "/HeaderData/SystemGeometry/radialUnitsPerModule" str_radial_units_per_module
  let axial_modules_per_system ←
    read_NATIVE_UINT32_into_int "/HeaderData/SystemGeometry/axialModulesPerSystem" str_axial_modules_per_system
  let radial_modules_per_system ←
    read_NATIVE_UINT32_into_int "/HeaderData/SystemGeometry/radialModulesPerSystem" str_radial_modules_per_system
  let detector_axial_size : Float32 := Float32.ofRat
    (← read_NATIVE_FLOAT "/HeaderData/SystemGeometry/detectorAxialSize" str_detector_axial_size)
  let intrinsic_tilt : Float32 := Float32.ofRat
    (← read_NATIVE_FLOAT "/HeaderData/SystemGeometry/transaxial_crystal_0_offset" str_intrinsic_tilt)
  let effective_ring_diameter : Float32 := Float32.ofRat
    (← read_NATIVE_FLOAT "/HeaderData/SystemGeometry/effectiveRingDiameter" str_effective_ring_diameter)
  let max_num_non_arccorrected_bins ←
    match str_max_number_of_non_arc_corrected_bins with
    | some (path, d) => read_NATIVE_UINT32_into_int path d
    | none => throwErr (Err.h5 "")
  let num_transaxial_crystals_per_block ←
    read_NATIVE_UINT32_into_int "/HeaderData/SystemGeometry/radialCrystalsPerBlock" str_radial_crystals_per_block
  let num_axial_crystals_per_block ←
    read_NATIVE_UINT32_into_int "/HeaderData/SystemGeometry/axialCrystalsPerBlock" str_axial_crystals_per_block
  -- TOF related
  let timingResolutionInPico : Float32 :=
    Float32.ofRat (← read_float "/HeaderData/SystemGeometry/timingResolutionInPico")
  let posCoincidenceWindow ← read_dataset_int32 "/HeaderData/AcqParameters/EDCATParameters/posCoincidenceWindow"
  let negCoincidenceWindow ← read_dataset_int32 "/HeaderData/AcqParameters/EDCATParameters/negCoincidenceWindow"
  let coincTimingPrecisionInPico : Float32 :=
    Float32.ofRat (← read_float "/HeaderData/AcqParameters/EDCATParameters/coincTimingPrecision")
      * Float32.ofInt 1000
  let num_tof_bins : Int := wrap_int32 (wrap_int32 (posCoincidenceWindow + negCoincidenceWindow) + 1)
  let num_rings : Int :=
    wrap_int32 (wrap_int32 (num_axial_blocks_per_bucket * num_axial_crystals_per_block) * axial_modules_per_system)
  let num_detectors_per_ring : Int :=
    wrap_int32 (wrap_int32 (num_transaxial_blocks_per_bucket * num_transaxial_crystals_per_block)
      * radial_modules_per_system)
  let ring_spacing : Float32 := detector_axial_size / Float32.ofInt num_rings
  pure
    { read_str_scanner := read_str_scanner,
      effective_ring_diameter := effective_ring_diameter,
      num_transaxial_blocks_per_bucket := num_transaxial_blocks_per_bucket,
      num_axial_blocks_per_bucket := num_axial_blocks_per_bucket,
      axial_blocks_per_unit := axial_blocks_per_unit,
      radial_blocks_per_unit := radial_blocks_per_unit,
      axial_units_per_module := axial_units_per_module,
      radial_units_per_module := radial_units_per_module,
      axial_modules_per_system := axial_modules_per_system,
      radial_modules_per_system := radial_modules_per_system,
      max_num_non_arccorrected_bins := max_num_non_arccorrected_bins,
      num_transaxial_crystals_per_block := num_transaxial_crystals_per_block,
      num_axial_crystals_per_block := num_axial_crystals_per_block,
      detector_axial_size := detector_axial_size,
      intrinsic_tilt := intrinsic_tilt,
      num_detector_layers := num_detector_layers,
      timingResolutionInPico := timingResolutionInPico,
      posCoincidenceWindow := posCoincidenceWindow,
      negCoincidenceWindow := negCoincidenceWindow,
      coincTimingPrecisionInPico := coincTimingPrecisionInPico,
      num_tof_bins := num_tof_bins,
      num_rings := num_rings,
      num_detectors_per_ring := num_detectors_per_ring,
      ring_spacing := ring_spacing }

/-- Part of `get_scanner_from_HDF5`, source lines 360 to 371: the setters that are always called. -/
def get_scanner_from_HDF5_set (v : ScannerLocals) (scanner_sptr : Scanner) : M Scanner := do
  let mut scanner := scanner_sptr
  scanner := { scanner with num_detectors_per_ring := v.num_detectors_per_ring }
  scanner := { scanner with num_rings := v.num_rings }
  if !(← is_list_file) then
    scanner := { scanner with max_num_non_arccorrected_bins := v.max_num_non_arccorrected_bins }
  scanner := { scanner with ring_spacing := v.ring_spacing }
  scanner := { scanner with intrinsic_azimuthal_tilt := v.intrinsic_tilt.times_PI_over_180 }
  scanner := { scanner with num_axial_blocks_per_bucket := v.num_axial_blocks_per_bucket }
  scanner := { scanner with num_transaxial_blocks_per_bucket := v.num_transaxial_blocks_per_bucket }
  scanner := { scanner with num_axial_crystals_per_block := v.num_axial_crystals_per_block }
  scanner := { scanner with num_transaxial_crystals_per_block := v.num_transaxial_crystals_per_block }
  scanner := { scanner with num_detector_layers := v.num_detector_layers }
  scanner := { scanner with reference_energy := Float32.ofRat 511 }
  pure scanner

/-- Part of `get_scanner_from_HDF5`, source lines 373 to 382: the effective ring radius.
The difference and the quotient are `float` operations and the bound is the `float`
literal `.1F`. -/
def get_scanner_from_HDF5_ring_radius (effective_ring_diameter : Float32) (scanner_sptr : Scanner) :
    M Scanner := do
  let mut scanner := scanner_sptr
  if Float32.abs (scanner.get_effective_ring_radius - effective_ring_diameter / Float32.ofInt 2)
      > Float32.tenth then
    let def_DOI : Float32 := Float32.ofRat 0
    warning Warning.effective_ring_radius
    scanner := { scanner with inner_ring_radius := effective_ring_diameter / Float32.ofInt 2 - def_DOI }
    scanner := { scanner with average_depth_of_interaction := def_DOI }
  pure scanner

/-- Part of `get_scanner_from_HDF5`, source lines 383 to 390: the timing resolution. -/
def get_scanner_from_HDF5_timing_resolution (timingResolutionInPico : Float32) (scanner_sptr : Scanner) :
    M Scanner := do
  let mut scanner := scanner_sptr
  if timingResolutionInPico > Float32.ofInt 0 ∧
      Float32.abs (scanner.timing_resolution - timingResolutionInPico) > Float32.tenth then
    warning Warning.timing_resolution
    scanner := { scanner with timing_resolution := timingResolutionInPico }
  pure scanner

/-- Part of `get_scanner_from_HDF5`, source lines 391 to 397: the size of the TOF bins. -/
def get_scanner_from_HDF5_size_of_timing_pos (coincTimingPrecisionInPico : Float32)
    (scanner_sptr : Scanner) : M Scanner := do
  let mut scanner := scanner_sptr
  if Float32.abs (scanner.size_of_timing_pos - coincTimingPrecisionInPico) > Float32.tenth then
    warning Warning.size_of_timing_pos
    scanner := { scanner with size_of_timing_pos := coincTimingPrecisionInPico }
  pure scanner

/-- Part of `get_scanner_from_HDF5`, source lines 398 to 404: the number of TOF bins.  The
difference and `std::abs` are `int` operations; their overflow is undefined in the source
and wraps to 32 bits here, so that the absolute value of `-2^31` is `-2^31`. -/
def get_scanner_from_HDF5_max_num_timing_poss (num_tof_bins : Int) (scanner_sptr : Scanner) :
    M Scanner := do
  let mut scanner := scanner_sptr
  if wrap_int32 |wrap_int32 (scanner.max_num_timing_poss - num_tof_bins)| > 0 then
    warning Warning.max_num_timing_poss
    scanner := { scanner with max_num_timing_poss := num_tof_bins }
  pure scanner

/-- Part of `get_scanner_from_HDF5`, source lines 405 to 416: warnings about unset catalog values. -/
def get_scanner_from_HDF5_warn_not_set (scanner : Scanner) : M Unit := do
  if scanner.default_bin_size ≤ Float32.ofRat 0 then
    warning Warning.default_bin_size_not_set
  if scanner.default_num_arccorrected_bins ≤ 0 then
    warning Warning.default_num_arccorrected_bins_not_set
  if scanner.energy_resolution ≤ Float32.ofInt 0 then
    warning Warning.energy_resolution_not_set

/-- The member function `GEHDF5Wrapper::get_scanner_from_HDF5`: the parts above in the order of the source,
with the catalog lookup of lines 356 to 358 between reading and setting. -/
def get_scanner_from_HDF5 (env : Env) : M Scanner := do
  let v ← get_scanner_from_HDF5_read
  match env.get_scanner_from_name v.read_str_scanner with
  | none =>
    error ("Scanner read from RDF file is " ++ v.read_str_scanner ++ ", but this is not supported yet")
  | some scanner_sptr =>
    let scanner ← get_scanner_from_HDF5_set v scanner_sptr
    let scanner ← get_scanner_from_HDF5_ring_radius v.effective_ring_diameter scanner
    let scanner ← get_scanner_from_HDF5_timing_resolution v.timingResolutionInPico scanner
    let scanner ← get_scanner_from_HDF5_size_of_timing_pos v.coincTimingPrecisionInPico scanner
    let scanner ← get_scanner_from_HDF5_max_num_timing_poss v.num_tof_bins scanner
    get_scanner_from_HDF5_warn_not_set scanner
    pure scanner

/-- The member function `GEHDF5Wrapper::initialise_proj_data_info_from_HDF5`. -/
def initialise_proj_data_info_from_HDF5 (env : Env) : M Unit := do
  let scanner_sptr ← get_scanner_from_HDF5 env
  let num_tof_bins ← read_dataset_uint32 "/HeaderData/Sorter/numTOF_bins"
  if num_tof_bins > 1 then
    warning Warning.read_as_non_TOF
  let tof_mash_factor : Int := if (← is_list_file) then 1 else 0
  let info : ProjDataInfo :=
    { scanner_sptr := scanner_sptr,
      span := 2,
      max_delta := wrap_int32 (scanner_sptr.num_rings - 1),
      num_views := Int.tdiv scanner_sptr.num_detectors_per_ring 2,
      num_tangential_poss := scanner_sptr.max_num_non_arccorrected_bins,
      arc_corrected := false,
      tof_mash_factor := tof_mash_factor,
      bed_position_horizontal := 0,
      bed_position_vertical := 0 }
  modifyW fun w => { w with proj_data_info_sptr := some info }
  let absTableLongitude ← read_dataset_int32 "/HeaderData/AcqParameters/LandmarkParameters/absTableLongitude"
  modifyW fun w => { w with proj_data_info_sptr :=
    w.proj_data_info_sptr.map fun p => { p with bed_position_horizontal := absTableLongitude / 10 } }
  let tableElevation ← read_dataset_int32 "/HeaderData/AcqParameters/LandmarkParameters/tableElevation"
  modifyW fun w => { w with proj_data_info_sptr :=
    w.proj_data_info_sptr.map fun p => { p with bed_position_vertical := tableElevation / 10 } }

/-- An update of the `ExamInfo` object that `exam_info_sptr` points to. -/
@[simp]
def modifyExamInfo (f : ExamInfo → ExamInfo) : M Unit :=
  modifyW fun w => { w with exam_info_sptr := w.exam_info_sptr.map f }

/-- The member function `GEHDF5Wrapper::initialise_exam_info`. -/
def initialise_exam_info (env : Env) : M Unit := do
  modifyW fun w => { w with exam_info_sptr := some env.new_ExamInfo }
  let patientEntry ← read_dataset_uint32 "/HeaderData/AcqParameters/LandmarkParameters/patientEntry"
  let patientPosition ← read_dataset_uint32 "/HeaderData/AcqParameters/LandmarkParameters/patientPosition"
  let orientation : OrientationValue :=
    if patientEntry = env.ACQ_HEAD_FIRST then OrientationValue.head_in
    else if patientEntry = env.ACQ_FEET_FIRST then OrientationValue.feet_in
    else OrientationValue.unknown_orientation
  let rotation : RotationValue :=
    if patientPosition = env.ACQ_SUPINE then RotationValue.supine
    else if patientPosition = env.ACQ_PRONE then RotationValue.prone
    else if patientPosition = env.ACQ_LEFT_DECUB then RotationValue.left
    else if patientPosition = env.ACQ_RIGHT_DECUB then RotationValue.right
    else RotationValue.unknown_rotation
  modifyExamInfo fun e => { e with patient_position := { orientation := orientation, rotation := rotation } }
  let str_low_energy_thres ← openDataSet "/HeaderData/AcqParameters/EDCATParameters/lower_energy_limit"
  let str_high_energy_thres ← openDataSet "/HeaderData/AcqParameters/EDCATParameters/upper_energy_limit"
  let low_energy_thres ←
    read_NATIVE_UINT32 "/HeaderData/AcqParameters/EDCATParameters/lower_energy_limit" str_low_energy_thres
  let high_energy_thres ←
    read_NATIVE_UINT32 "/HeaderData/AcqParameters/EDCATParameters/upper_energy_limit" str_high_energy_thres
  modifyExamInfo fun e => { e with high_energy_thres := (high_energy_thres : ℚ) }
  modifyExamInfo fun e => { e with low_energy_thres := (low_energy_thres : ℚ) }
  -- read time since 1970
  let scanStartTime_dataset ← openDataSet "/HeaderData/AcqStats/scanStartTime"
  let scanStartTime ← read_NATIVE_UINT32 "/HeaderData/AcqStats/scanStartTime" scanStartTime_dataset
  modifyExamInfo fun e => { e with start_time_in_secs_since_1970 := (scanStartTime : ℚ) }
  -- get time frame
  let frameStartTime_dataset ← openDataSet "/HeaderData/AcqStats/frameStartTime"
  let frameDuration_dataset ← openDataSet "/HeaderData/AcqStats/frameDuration"
  let frameStartTime ← read_NATIVE_UINT32 "/HeaderData/AcqStats/frameStartTime" frameStartTime_dataset
  let frameDuration ← read_NATIVE_UINT32 "/HeaderData/AcqStats/frameDuration" frameDuration_dataset
  let frame_start_time : ℚ := (((frameStartTime + 2 ^ 32 - scanStartTime) % 2 ^ 32 : Nat) : ℚ)
  let tf : List (ℚ × ℚ) := [(frame_start_time, frame_start_time + ((frameDuration / 1000 : Nat) : ℚ))]
  modifyExamInfo fun e => { e with time_frame_definitions := tf }
  -- radionuclide
  let rn_name_ds ← openDataSet "/HeaderData/ExamData/radionuclideName"
  let rn_name ← read_StrType "/HeaderData/ExamData/radionuclideName" rn_name_ds
  let radionuclide := env.get_radionuclide rn_name
  let positron_fraction ← read_float "/HeaderData/ExamData/positronFraction"
  let half_life ← read_float "/HeaderData/ExamData/halfLife"
  let radionuclide : Radionuclide :=
    if radionuclide.half_life < 0 then
      { name := rn_name, energy := 511, branching_ratio := positron_fraction, half_life := half_life }
    else radionuclide
  modifyExamInfo fun e => { e with radionuclide := radionuclide }

/-- The member function `GEHDF5Wrapper::open`. -/
def GEHDF5Wrapper.open (env : Env) (filename : String) : M Succeeded := do
  match env.disk filename with
  | none => error "GEHDF5Wrapper: The input file is not HDF5! Abort."
  | some objects =>
    modifyW fun w => { w with file := { id_open := true, objects := objects } }
    let _ ← check_file
    initialise_exam_info env
    initialise_proj_data_info_from_HDF5 env
    pure Succeeded.yes

/-! ## List-mode data -/

/-- The member function `GEHDF5Wrapper::initialise_listmode_data`.  An extent beyond the rank of the
dataset is read from an uninitialised array in the source; it is 0 here. -/
def initialise_listmode_data (env : Env) : M Succeeded := do
  if !(← is_list_file) then error "The file provided is not listmode. Aborting"
  if (← getW).rdf_ver == 9 then
    modifyW fun w => { w with m_address := "/ListData/listData" }
    modifyW fun w => { w with m_size_of_record_signature := 6 }
    modifyW fun w => { w with m_max_size_of_record := 16 }
    let timeframe_dataspace ← openDataSet "/HeaderData/SinglesHeader/numValidSamples"
    let num_time_slices ← read_NATIVE_UINT32 "/HeaderData/SinglesHeader/numValidSamples" timeframe_dataspace
    if num_time_slices == 0 then
      error "Zero number of valid samples singles samples in data. Aborting"
    modifyW fun w => { w with m_num_singles_samples := num_time_slices }
    let dataset ← openDataSet (← getW).m_address
    modifyW fun w => { w with m_dataset_sptr := some dataset }
    modifyW fun w => { w with m_dataset_list_Ndims := dataset.getSimpleExtentDims.length }
    if (← getW).m_dataset_list_Ndims > env.m_max_dataset_dims then
      error ("Dataset dimensions (" ++ toString (← getW).m_dataset_list_Ndims ++ ") bigger than maximum of"
        ++ toString env.m_max_dataset_dims ++ ". This is unexpected, Aborting.")
    modifyW fun w => { w with m_list_size := dataset.getSimpleExtentDims.getD 0 0 }
    pure Succeeded.yes
  else
    pure Succeeded.no

/-! ## Singles, sinogram views, correction factors: initialisation -/

/-- The test `!is_list_file() && !is_sino_file()`: the second call is made only
when the first returned false. -/
def not_list_and_not_sino : M Bool := do
  if !(← is_list_file) then
    pure (!(← is_sino_file))
  else
    pure false

/-- The three assignments `m_NX_SUB = dims[0]; m_NY_SUB = ...; m_NZ_SUB = ...`. -/
def set_SUB (nx ny nz : Nat) : M Unit := do
  modifyW fun w => { w with m_NX_SUB := nx }
  modifyW fun w => { w with m_NY_SUB := ny }
  modifyW fun w => { w with m_NZ_SUB := nz }

/-- The rank check that follows `getSimpleExtentNdims()` in the initialise functions. -/
def check_rank (env : Env) (rank : Nat) : M Unit := do
  if rank > env.m_max_dataset_dims then
    error ("Dataset dimensions (" ++ toString rank ++ ") bigger than maximum of"
      ++ toString env.m_max_dataset_dims ++ ". This is unexpected, Aborting.")

/-- The member function `GEHDF5Wrapper::initialise_singles_data`.  An extent beyond the
rank of the dataset is read from an uninitialised array in the source; it is 0 here. -/
def initialise_singles_data (env : Env) : M Succeeded := do
  if (← not_list_and_not_sino) then
    error "The file provided is not listmode or sinogram data. Aborting"
  if (← getW).rdf_ver == 9 then
    modifyW fun w => { w with m_address := "/Singles/CrystalSingles/sample" }
    let dataset ← openDataSet ((← getW).m_address ++ "1")
    modifyW fun w => { w with m_dataset_sptr := some dataset }
    let dims := dataset.getSimpleExtentDims
    let rank := dims.length
    check_rank env rank
    set_SUB (dims.getD 0 0) (dims.getD 1 0) (if rank == 2 then 1 else dims.getD 2 0)
    let timeframe_dataspace ← openDataSet "/HeaderData/SinglesHeader/numValidSamples"
    let num_time_slices ← read_NATIVE_UINT32 "/HeaderData/SinglesHeader/numValidSamples" timeframe_dataspace
    if num_time_slices == 0 then
      error "Zero number of valid samples singles samples in data. Aborting"
    modifyW fun w => { w with m_num_singles_samples := num_time_slices }
    pure Succeeded.yes
  else
    pure Succeeded.no

/-- The inline function `get_scanner_sptr()`: the scanner of `proj_data_info_sptr`.
Dereferencing a null `proj_data_info_sptr` is undefined in the source; the embedding throws. -/
def get_scanner_sptr : M Scanner := do
  match (← getW).proj_data_info_sptr with
  | some p => pure p.scanner_sptr
  | none => throwErr (Err.h5 "")

/-- The test `view_num == 0 || view_num > static_cast<unsigned>(get_scanner_sptr()->
get_num_detectors_per_ring() / 2)`: the scanner is looked up only when `view_num` is not 0. -/
def view_num_is_incorrect (view_num : Nat) : M Bool := do
  if view_num == 0 then
    pure true
  else
    pure (decide (view_num > ((Int.tdiv (← get_scanner_sptr).num_detectors_per_ring 2) % 2 ^ 32).toNat))

/-- The member function `GEHDF5Wrapper::initialise_proj_data`.  The argument `view_num` is an
`unsigned int`. -/
def initialise_proj_data (env : Env) (view_num : Nat) : M Succeeded := do
  if !(← is_sino_file) then error "The file provided is not sinogram data. Aborting"
  if (← getW).rdf_ver == 9 then
    let str_file_version ← openDataSet "/HeaderData/Sorter/Segment2/compDataSegSize"
    let is_compressed ← read_NATIVE_UINT32 "/HeaderData/Sorter/Segment2/compDataSegSize" str_file_version
    if is_compressed != 0 then
      error "The RDF9 file sinogram is compressed, we won't be able to read it. Please uncompress it and retry. Aborting"
  if (← view_num_is_incorrect view_num) then
    error ("internal error in GE HDF5 code: view number " ++ toString view_num ++ " is incorrect")
  let num_tof_bins ← read_dataset_uint32 "/HeaderData/Sorter/numTOF_bins"
  if (← getW).rdf_ver == 9 then
    if num_tof_bins > 1 then
      modifyW fun w => { w with m_address := "/SegmentData/Segment2/3D_TOF_Sinogram/view" ++ toString view_num }
      let dataset ← openDataSet (← getW).m_address
      modifyW fun w => { w with m_dataset_sptr := some dataset }
    else
      modifyW fun w => { w with m_address := "/SegmentData/Segment2/3D_Sinogram/view" ++ toString view_num }
      let dataset ← openDataSet (← getW).m_address
      modifyW fun w => { w with m_dataset_sptr := some dataset }
    let dims := match (← getW).m_dataset_sptr with
      | some dataset => dataset.getSimpleExtentDims
      | none => []
    let rank := dims.length
    check_rank env rank
    set_SUB (dims.getD 0 0) (dims.getD 1 0) (if rank > 2 then dims.getD 2 0 else 1)
    pure Succeeded.yes
  else
    pure Succeeded.no

/-- The member function `GEHDF5Wrapper::initialise_geo_factors_data`. -/
def initialise_geo_factors_data (env : Env) (slice_num : Nat) : M Succeeded := do
  if !(← is_geo_file) then error "The file provided is not geometry data. Aborting"
  if slice_num == 0 then
    error ("internal error in GE HDF5 geo code: slice number " ++ toString slice_num ++ " is incorrect")
  if (← getW).rdf_ver == 9 then
    modifyW fun w => { w with m_address := "/SegmentData/Segment4/3D_Norm_Correction/slice" }
    let dataset ← openDataSet ((← getW).m_address ++ toString slice_num)
    modifyW fun w => { w with m_dataset_sptr := some dataset }
    let dims := dataset.getSimpleExtentDims
    let rank := dims.length
    check_rank env rank
    set_SUB (dims.getD 0 0) (dims.getD 1 0) (if rank == 2 then 1 else dims.getD 2 0)
    pure Succeeded.yes
  else
    pure Succeeded.no

/-- The member function `GEHDF5Wrapper::initialise_efficiency_factors`. -/
def initialise_efficiency_factors (env : Env) : M Succeeded := do
  if !(← is_norm_file) then error "The file provided is not norm data. Aborting"
  if (← getW).rdf_ver == 9 then
    modifyW fun w => { w with m_address := "/3DCrystalEfficiency/crystalEfficiency" }
    let dataset ← openDataSet (← getW).m_address
    modifyW fun w => { w with m_dataset_sptr := some dataset }
    let dims := dataset.getSimpleExtentDims
    let rank := dims.length
    check_rank env rank
    set_SUB (dims.getD 0 0) (dims.getD 1 0 / 2) (if rank == 2 then 1 else dims.getD 2 0)
    pure Succeeded.yes
  else
    pure Succeeded.no

/-! ## Singles, sinogram views, correction factors: reading -/

/-- Modelled from the spec: the caller's one-dimensional output array (class
`Array<1, T>`, whose code is not among the sources): its size and its elements. -/
structure Array1 where
  size : Nat
  elem : Nat → ℚ

/-- The call `output.resize(n)`: new elements are zero. -/
def Array1.resize (a : Array1) (n : Nat) : Array1 :=
  { size := n, elem := fun i => if i < a.size then a.elem i else 0 }

/-- The assignment `output[i] = v`. -/
def Array1.assign (a : Array1) (i : Nat) (v : ℚ) : Array1 :=
  { a with elem := fun i1 => if i1 = i then v else a.elem i1 }

/-- Modelled from the spec: the caller's three-dimensional output array (class
`Array<3, T>`, whose code is not among the sources): its extents and its elements. -/
structure Array3 where
  n0 : Nat
  n1 : Nat
  n2 : Nat
  elem : Nat → Nat → Nat → ℚ

/-- The call `output.resize(IndexRange3D(n0, n1, n2))`: new elements are zero. -/
def Array3.resize (a : Array3) (n0 n1 n2 : Nat) : Array3 :=
  { n0 := n0, n1 := n1, n2 := n2,
    elem := fun i j k => if i < a.n0 ∧ j < a.n1 ∧ k < a.n2 then a.elem i j k else 0 }

/-- The assignment `output[i][j][k] = v`. -/
def Array3.assign (a : Array3) (i j k : Nat) (v : ℚ) : Array3 :=
  { a with elem := fun i1 j1 k1 => if i1 = i ∧ j1 = j ∧ k1 = k then v else a.elem i1 j1 k1 }

/-- The positions, in the row-major data of a dataset with extents `dims`, of the
elements of the hyperslab that starts at `offset` and has the block size `count`,
in the row-major order of the hyperslab; `none` when the block leaves the extent
or a coordinate is missing.  Coordinates beyond the rank are not used. -/
def hyperslab : List Nat → List Nat → List Nat → Option (List Nat)
  | [], _, _ => some [0]
  | d :: dims, o :: offset, c :: count =>
    if o + c ≤ d then
      (hyperslab dims offset count).map fun inner =>
        (List.range c).flatMap fun a => inner.map fun i => (o + a) * dims.prod + i
    else none
  | _ :: _, _, _ => none

/-- The three calls `m_dataspace.selectHyperslab(H5S_SELECT_SET, count, offset)`,
`memspace(n, count)` and `m_dataset_sptr->read(buffer, type, memspace, m_dataspace)`:
the selected elements in order.  `m_dataspace` is the dataspace of `m_dataset_sptr`
(every initialise function assigns them together).  The library throws when the
selection leaves the extent or does not have as many elements as the memory space. -/
def read_hyperslab (offset count : List Nat) : M (List ℚ) := do
  match (← getW).m_dataset_sptr with
  | some (H5Object.array dims data) =>
    match hyperslab dims offset count with
    | some positions =>
      if positions.length = count.prod then
        pure (positions.map fun i => data.getD i 0)
      else throwErr (Err.h5 (← getW).m_address)
    | none => throwErr (Err.h5 (← getW).m_address)
  | _ => throwErr (Err.h5 (← getW).m_address)

/-- The loop nest of `read_sinogram` (source lines 828 to 839).  The locals `ioffset` and
`joffset` and the index `ioffset + joffset + k` are `unsigned int`, hence `% 2 ^ 32`. -/
def read_sinogram_copy (NX NY NZ : Nat) (aux_buffer : List ℚ) (output : Array3) : Array3 :=
  (List.range NZ).foldl (fun output i =>
    let ioffset := (i * NX * NY) % 2 ^ 32
    (List.range NY).foldl (fun output j =>
      let joffset := (j * NX) % 2 ^ 32
      (List.range NX).foldl (fun output k =>
        output.assign i j k (aux_buffer.getD ((ioffset + joffset + k) % 2 ^ 32) 0)) output) output) output

/-- The member function `GEHDF5Wrapper::read_sinogram`.  The output array is passed by
reference in the source; here it is an argument and, with the status, the result. -/
def read_sinogram (output : Array3) (offset stride : Nat × Nat × Nat) : M (Succeeded × Array3) := do
  if !(← is_sino_file) then error "File is not sinogram. Aborting"
  if offset.1 != 0 || offset.2.1 != 0 || offset.2.2 != 0 then
    error "Only \x7b0,0,0\x7d offset supported. Aborting"
  if stride.1 != 1 || stride.2.1 != 1 || stride.2.2 != 1 then
    error "Only \x7b1,1,1\x7d stride supported. Aborting"
  let w ← getW
  let str_dimsf := [w.m_NX_SUB, w.m_NY_SUB, w.m_NZ_SUB]
  let aux_buffer ← read_hyperslab [offset.1, offset.2.1, offset.2.2] str_dimsf
  if w.rdf_ver == 9 then
    let output := output.resize w.m_NZ_SUB w.m_NY_SUB w.m_NX_SUB
    pure (Succeeded.yes, read_sinogram_copy w.m_NX_SUB w.m_NY_SUB w.m_NZ_SUB aux_buffer output)
  else
    pure (Succeeded.yes, output)

/-- The loop nest `output[ax * N + ((N - 1) - tan)] = aux_reader[ax * N + tan]` of
`read_geometric_factors` (source lines 872 to 874), `read_efficiency_factors` (lines 905 to 907)
and `read_singles` (lines 933 to 935), with `R` rows of `N` elements. -/
def flip_tangential (R N : Nat) (aux_reader : List ℚ) (output : Array1) : Array1 :=
  (List.range R).foldl (fun output ax =>
    (List.range N).foldl (fun output tan =>
      output.assign (ax * N + ((N - 1) - tan)) (aux_reader.getD (ax * N + tan) 0)) output) output

/-- The member function `GEHDF5Wrapper::read_geometric_factors`. -/
def read_geometric_factors (output : Array1) (offset count stride : Nat × Nat) :
    M (Succeeded × Array1) := do
  if !(← is_geo_file) then error "File is Geometry. Aborting"
  if count.1 == 0 || count.2 == 0 then
    error "Requested zero data to read. Aborting"
  if stride.1 != 1 || stride.2 != 1 then
    error "Only \x7b1,1\x7d stride supported. Aborting"
  let output := output.resize (count.1 * count.2)
  let aux_reader ← read_hyperslab [offset.1, offset.2] [count.1, count.2]
  pure (Succeeded.yes, flip_tangential count.1 count.2 aux_reader output)

/-- The member function `GEHDF5Wrapper::read_efficiency_factors`. -/
def read_efficiency_factors (output : Array1) (offset stride : Nat × Nat) :
    M (Succeeded × Array1) := do
  if !(← is_norm_file) then error "The file provided is not norm data. Aborting"
  if offset.1 != 0 || offset.2 != 0 then
    error "Only \x7b0,0\x7d offset supported. Aborting"
  if stride.1 != 1 || stride.2 != 1 then
    error "Only \x7b1,1\x7d stride supported. Aborting"
  let w ← getW
  let str_dimsf := [w.m_NX_SUB, w.m_NY_SUB]
  let output := output.resize (w.m_NX_SUB * w.m_NY_SUB)
  let aux_reader ← read_hyperslab [offset.1, offset.2] str_dimsf
  pure (Succeeded.yes, flip_tangential w.m_NX_SUB w.m_NY_SUB aux_reader output)

/-- The call `m_dataset_sptr->read(buffer, type)` of `read_singles`: all elements of the dataset. -/
def read_whole_dataset : M (List ℚ) := do
  match (← getW).m_dataset_sptr with
  | some (H5Object.array _ data) => pure data
  | _ => throwErr (Err.h5 (← getW).m_address)

/-- The member function `GEHDF5Wrapper::read_singles`.  The argument `current_id` is an
`unsigned int`. -/
def read_singles (output : Array1) (current_id : Nat) : M (Succeeded × Array1) := do
  if (← not_list_and_not_sino) then
    error "The file provided is not listmode or sinogram data. Aborting"
  if current_id == 0 ∨ current_id > (← getW).m_num_singles_samples then
    error ("internal error in GE HDF5 code: singles slice_id " ++ toString current_id ++ " is incorrect")
  let w ← getW
  let output := output.resize (w.m_NX_SUB * w.m_NY_SUB)
  let dataset ← openDataSet (w.m_address ++ toString current_id)
  modifyW fun w => { w with m_dataset_sptr := some dataset }
  let aux_reader ← read_whole_dataset
  pure (Succeeded.yes, flip_tangential w.m_NX_SUB w.m_NY_SUB aux_reader output)

/-! ## Reading the container in statements -/

/-- The value that a `NATIVE_UINT32` read of `path` yields, if `path` is such a dataset. -/
def H5File.uint32_at (f : H5File) (path : String) : Option Nat :=
  match f.lookup path with
  | some (H5Object.uint32 v) => some (v % 2 ^ 32)
  | _ => none

/-- The string stored at `path`, if `path` is a string dataset. -/
def H5File.str_at (f : H5File) (path : String) : Option String :=
  match f.lookup path with
  | some (H5Object.str s) => some s
  | _ => none

/-- The link `path` exists. -/
def H5File.has (f : H5File) (path : String) : Bool :=
  (f.lookup path).isSome

/-- An open container with the GE manufacturer string and major version 9. -/
def H5File.signed_version9 (f : H5File) : Prop :=
  f.id_open = true ∧
  f.str_at "/HeaderData/ExamData/manufacturer" = some "GE MEDICAL SYSTEMS" ∧
  f.uint32_at "/HeaderData/RDFConfiguration/fileVersion/majorVersion" = some 9

instance (f : H5File) : Decidable f.signed_version9 := by
  unfold H5File.signed_version9
  infer_instance

/-- The four classification flags, in the order list, sinogram, geometry, normalization. -/
def Wrapper.flags (w : Wrapper) : Bool × Bool × Bool × Bool :=
  (w.is_list, w.is_sino, w.is_geo, w.is_norm)

/-! ## Example containers -/

/-- Header datasets shared by the example containers: signature, version, exam
information and scanner geometry. -/
def exampleHeader : List (String × H5Object) :=
  [("/HeaderData/ExamData/manufacturer", H5Object.str "GE MEDICAL SYSTEMS"),
   ("/HeaderData/RDFConfiguration/fileVersion/majorVersion", H5Object.uint32 9),
   ("/HeaderData/ExamData/scannerDesc", H5Object.str "GE Signa PET/MR"),
   ("/HeaderData/SystemGeometry/effectiveRingDiameter", H5Object.float32 640),
   ("/HeaderData/SystemGeometry/axialBlocksPerModule", H5Object.uint32 5),
   ("/HeaderData/SystemGeometry/radialBlocksPerModule", H5Object.uint32 4),
   ("/HeaderData/SystemGeometry/axialBlocksPerUnit", H5Object.uint32 5),
   ("/HeaderData/SystemGeometry/radialBlocksPerUnit", H5Object.uint32 4),
   ("/HeaderData/SystemGeometry/axialUnitsPerModule", H5Object.uint32 1),
   ("/HeaderData/SystemGeometry/radialUnitsPerModule", H5Object.uint32 1),
   ("/HeaderData/SystemGeometry/axialModulesPerSystem", H5Object.uint32 1),
   ("/HeaderData/SystemGeometry/radialModulesPerSystem", H5Object.uint32 28),
   ("/HeaderData/SystemGeometry/detectorAxialSize", H5Object.float32 250),
   ("/HeaderData/SystemGeometry/transaxial_crystal_0_offset", H5Object.float32 (-5)),
   ("/HeaderData/Sorter/dimension1Size", H5Object.uint32 357),
   ("/HeaderData/Sorter/dimension2Size", H5Object.uint32 357),
   ("/HeaderData/SystemGeometry/axialCrystalsPerBlock", H5Object.uint32 9),
   ("/HeaderData/SystemGeometry/radialCrystalsPerBlock", H5Object.uint32 4),
   ("/HeaderData/SystemGeometry/timingResolutionInPico", H5Object.float32 0),
   ("/HeaderData/AcqParameters/EDCATParameters/posCoincidenceWindow", H5Object.int32 175),
   ("/HeaderData/AcqParameters/EDCATParameters/negCoincidenceWindow", H5Object.int32 175),
   ("/HeaderData/AcqParameters/EDCATParameters/coincTimingPrecision", H5Object.float32 (1302 / 100000)),
   ("/HeaderData/Sorter/numTOF_bins", H5Object.uint32 1),
   ("/HeaderData/AcqParameters/LandmarkParameters/absTableLongitude", H5Object.int32 1250),
   ("/HeaderData/AcqParameters/LandmarkParameters/tableElevation", H5Object.int32 (-300)),
   ("/HeaderData/AcqParameters/LandmarkParameters/patientEntry", H5Object.uint32 0),
   ("/HeaderData/AcqParameters/LandmarkParameters/patientPosition", H5Object.uint32 0),
   ("/HeaderData/AcqParameters/EDCATParameters/lower_energy_limit", H5Object.uint32 425),
   ("/HeaderData/AcqParameters/EDCATParameters/upper_energy_limit", H5Object.uint32 650),
   ("/HeaderData/AcqStats/scanStartTime", H5Object.uint32 1500000000),
   ("/HeaderData/AcqStats/frameStartTime", H5Object.uint32 1500000060),
   ("/HeaderData/AcqStats/frameDuration", H5Object.uint32 1500),
   ("/HeaderData/ExamData/radionuclideName", H5Object.str "18F"),
   ("/HeaderData/ExamData/positronFraction", H5Object.float32 (97 / 100)),
   ("/HeaderData/ExamData/halfLife", H5Object.float32 6586)]

/-- A list-mode file: `isListFile = 1`, `isListCompressed = 0`, 1000 valid samples. -/
def exampleListFile : H5File :=
  { id_open := true,
    objects :=
      [("/HeaderData/RDFConfiguration/isListFile", H5Object.uint32 1),
       ("/HeaderData/ListHeader/isListCompressed", H5Object.uint32 0),
       ("/HeaderData/SinglesHeader/numValidSamples", H5Object.uint32 1000),
       ("/ListData/listData", H5Object.array [4096] [])] ++ exampleHeader }

/-- The same file with a compressed payload. -/
def exampleCompressedListFile : H5File :=
  { id_open := true,
    objects :=
      [("/HeaderData/RDFConfiguration/isListFile", H5Object.uint32 1),
       ("/HeaderData/ListHeader/isListCompressed", H5Object.uint32 1),
       ("/HeaderData/SinglesHeader/numValidSamples", H5Object.uint32 1000),
       ("/ListData/listData", H5Object.array [4096] [])] ++ exampleHeader }

/-- A sinogram file. -/
def exampleSinoFile : H5File :=
  { id_open := true,
    objects :=
      [("/HeaderData/RDFConfiguration/isListFile", H5Object.uint32 0),
       ("/SegmentData/Segment2", H5Object.group)] ++ exampleHeader }

/-- A normalization file. -/
def exampleNormFile : H5File :=
  { id_open := true,
    objects :=
      [("/HeaderData/RDFConfiguration/isListFile", H5Object.uint32 0),
       ("/3DCrystalEfficiency/crystalEfficiency", H5Object.array [45, 896] []),
       ("/SegmentData/Segment4/3D_Norm_Correction/slice1", H5Object.array [1981, 357] []),
       ("/HeaderData/Sorter/Segment4/dimension3Size", H5Object.uint32 16)] ++ exampleHeader }

/-- A geometry file. -/
def exampleGeoFile : H5File :=
  { id_open := true,
    objects :=
      [("/HeaderData/RDFConfiguration/isListFile", H5Object.uint32 0),
       ("/SegmentData/Segment4/3D_Norm_Correction/slice1", H5Object.array [1981, 357] []),
       ("/HeaderData/Sorter/Segment4/dimension3Size", H5Object.uint32 1)] ++ exampleHeader }

/-- A signed version-9 file that matches none of the four probes. -/
def exampleUnrecognizedFile : H5File :=
  { id_open := true,
    objects := [("/HeaderData/RDFConfiguration/isListFile", H5Object.uint32 0)] ++ exampleHeader }

/-- A catalog entry for the scanner named in the example header. -/
def exampleScanner : Scanner :=
  { name := "GE Signa PET/MR", num_rings := 45, num_detectors_per_ring := 448,
    max_num_non_arccorrected_bins := 357, default_num_arccorrected_bins := 331,
    ring_spacing := Float32.ofRat (556 / 100), intrinsic_azimuthal_tilt := Float32.ofRat 0,
    num_axial_blocks_per_bucket := 5, num_transaxial_blocks_per_bucket := 4,
    num_axial_crystals_per_block := 9, num_transaxial_crystals_per_block := 4,
    num_detector_layers := 1, reference_energy := Float32.ofRat 511,
    energy_resolution := Float32.ofRat (105 / 1000),
    inner_ring_radius := Float32.ofRat (3116 / 10),
    average_depth_of_interaction := Float32.ofRat (85 / 10),
    timing_resolution := Float32.ofRat 390, size_of_timing_pos := Float32.ofRat 20,
    max_num_timing_poss := 351,
    default_bin_size := Float32.ofRat 2 }

/-- An environment whose catalog knows only the example scanner and whose disk
holds the example files. -/
def exampleEnv : Env :=
  { m_max_dataset_dims := 5,
    ACQ_HEAD_FIRST := 0, ACQ_FEET_FIRST := 1,
    ACQ_SUPINE := 0, ACQ_PRONE := 1, ACQ_LEFT_DECUB := 2, ACQ_RIGHT_DECUB := 3,
    get_scanner_from_name := fun n => if n = "GE Signa PET/MR" then some exampleScanner else none,
    get_radionuclide := fun n =>
      if n = "18F" then { name := "18F", energy := 511, branching_ratio := 9686 / 10000, half_life := 6584 }
      else { name := "Unknown", energy := -1, branching_ratio := -1, half_life := -1 },
    new_ExamInfo :=
      { patient_position :=
          { orientation := OrientationValue.unknown_orientation, rotation := RotationValue.unknown_rotation },
        high_energy_thres := -1, low_energy_thres := -1, start_time_in_secs_since_1970 := 0,
        time_frame_definitions := [],
        radionuclide := { name := "Unknown", energy := -1, branching_ratio := -1, half_life := -1 } },
    disk := fun n =>
      if n = "list.BLF" then some exampleListFile.objects
      else if n = "unrecognized.RDF" then some exampleUnrecognizedFile.objects
      else none }

/-- A wrapper before `open`: no file, members zero. -/
def exampleUnopened : Wrapper :=
  Wrapper.fresh { id_open := false, objects := [] } false false false false

/-- A version-10 file carrying the GE signature. -/
def exampleVersion10File : H5File :=
  { id_open := true,
    objects :=
      [("/HeaderData/ExamData/manufacturer", H5Object.str "GE MEDICAL SYSTEMS"),
       ("/HeaderData/RDFConfiguration/fileVersion/majorVersion", H5Object.uint32 10),
       ("/HeaderData/RDFConfiguration/isListFile", H5Object.uint32 1),
       ("/HeaderData/ListHeader/isListCompressed", H5Object.uint32 0)] }

/-- A file whose manufacturer string is the GE string in lower case. -/
def exampleLowerCaseFile : H5File :=
  { id_open := true,
    objects :=
      [("/HeaderData/ExamData/manufacturer", H5Object.str "ge medical systems"),
       ("/HeaderData/RDFConfiguration/fileVersion/majorVersion", H5Object.uint32 9),
       ("/HeaderData/RDFConfiguration/isListFile", H5Object.uint32 1),
       ("/HeaderData/ListHeader/isListCompressed", H5Object.uint32 0)] }

/-- A file whose manufacturer string is the GE string followed by a blank. -/
def exampleTrailingBlankFile : H5File :=
  { id_open := true,
    objects :=
      [("/HeaderData/ExamData/manufacturer", H5Object.str "GE MEDICAL SYSTEMS "),
       ("/HeaderData/RDFConfiguration/fileVersion/majorVersion", H5Object.uint32 9),
       ("/HeaderData/RDFConfiguration/isListFile", H5Object.uint32 1),
       ("/HeaderData/ListHeader/isListCompressed", H5Object.uint32 0)] }

/-- A list-mode file without valid singles samples. -/
def exampleEmptyListFile : H5File :=
  { id_open := true,
    objects :=
      [("/HeaderData/RDFConfiguration/isListFile", H5Object.uint32 1),
       ("/HeaderData/ListHeader/isListCompressed", H5Object.uint32 0),
       ("/HeaderData/SinglesHeader/numValidSamples", H5Object.uint32 0),
       ("/ListData/listData", H5Object.array [4096] [])] ++ exampleHeader }

/-- Calling the predicate `pred` a second time gives the result of the first
call and leaves the list of container accesses as the first call left it. -/
def second_call_same_without_probing (pred : M Bool) (w : Wrapper) : Prop :=
  (pred (pred w).2).1 = (pred w).1 ∧ (pred (pred w).2).2.probes = (pred w).2.probes

instance (pred : M Bool) (w : Wrapper) : Decidable (second_call_same_without_probing pred w) := by
  unfold second_call_same_without_probing
  infer_instance

/-- Values of the datasets that `get_scanner_from_HDF5` reads. -/
structure ScannerHeader where
  scannerDesc : String
  effectiveRingDiameter : ℚ
  axialBlocksPerModule : Nat
  radialBlocksPerModule : Nat
  axialBlocksPerUnit : Nat
  radialBlocksPerUnit : Nat
  axialUnitsPerModule : Nat
  radialUnitsPerModule : Nat
  axialModulesPerSystem : Nat
  radialModulesPerSystem : Nat
  detectorAxialSize : ℚ
  transaxial_crystal_0_offset : ℚ
  dimensionSize : Nat
  axialCrystalsPerBlock : Nat
  radialCrystalsPerBlock : Nat
  timingResolutionInPico : ℚ
  posCoincidenceWindow : Int
  negCoincidenceWindow : Int
  coincTimingPrecision : ℚ
  isListFile : Nat

/-- The wrapper holds an open version-9 file in which every dataset read by
`get_scanner_from_HDF5` is present with the type it is read as, with the values
`h`.  The number of bins is taken from `dimension2Size` on a sinogram file and from
`dimension1Size` otherwise, as in the source. -/
def Wrapper.has_scanner_header (w : Wrapper) (h : ScannerHeader) : Prop :=
  w.file.id_open = true ∧ w.rdf_ver = 9 ∧
  w.file.lookup "/HeaderData/ExamData/scannerDesc" = some (H5Object.str h.scannerDesc) ∧
  w.file.lookup "/HeaderData/SystemGeometry/effectiveRingDiameter"
    = some (H5Object.float32 h.effectiveRingDiameter) ∧
  w.file.lookup "/HeaderData/SystemGeometry/axialBlocksPerModule"
    = some (H5Object.uint32 h.axialBlocksPerModule) ∧
  w.file.lookup "/HeaderData/SystemGeometry/radialBlocksPerModule"
    = some (H5Object.uint32 h.radialBlocksPerModule) ∧
  w.file.lookup "/HeaderData/SystemGeometry/axialBlocksPerUnit"
    = some (H5Object.uint32 h.axialBlocksPerUnit) ∧
  w.file.lookup "/HeaderData/SystemGeometry/radialBlocksPerUnit"
    = some (H5Object.uint32 h.radialBlocksPerUnit) ∧
  w.file.lookup "/HeaderData/SystemGeometry/axialUnitsPerModule"
    = some (H5Object.uint32 h.axialUnitsPerModule) ∧
  w.file.lookup "/HeaderData/SystemGeometry/radialUnitsPerModule"
    = some (H5Object.uint32 h.radialUnitsPerModule) ∧
  w.file.lookup "/HeaderData/SystemGeometry/axialModulesPerSystem"
    = some (H5Object.uint32 h.axialModulesPerSystem) ∧
  w.file.lookup "/HeaderData/SystemGeometry/radialModulesPerSystem"
    = some (H5Object.uint32 h.radialModulesPerSystem) ∧
  w.file.lookup "/HeaderData/SystemGeometry/detectorAxialSize"
    = some (H5Object.float32 h.detectorAxialSize) ∧
  w.file.lookup "/HeaderData/SystemGeometry/transaxial_crystal_0_offset"
    = some (H5Object.float32 h.transaxial_crystal_0_offset) ∧
  w.file.lookup
      (if w.is_sino || w.file.has "/SegmentData/Segment2" then "/HeaderData/Sorter/dimension2Size"
        else "/HeaderData/Sorter/dimension1Size")
    = some (H5Object.uint32 h.dimensionSize) ∧
  w.file.lookup "/HeaderData/SystemGeometry/axialCrystalsPerBlock"
    = some (H5Object.uint32 h.axialCrystalsPerBlock) ∧
  w.file.lookup "/HeaderData/SystemGeometry/radialCrystalsPerBlock"
    = some (H5Object.uint32 h.radialCrystalsPerBlock) ∧
  w.file.lookup "/HeaderData/SystemGeometry/timingResolutionInPico"
    = some (H5Object.float32 h.timingResolutionInPico) ∧
  w.file.lookup "/HeaderData/AcqParameters/EDCATParameters/posCoincidenceWindow"
    = some (H5Object.int32 h.posCoincidenceWindow) ∧
  w.file.lookup "/HeaderData/AcqParameters/EDCATParameters/negCoincidenceWindow"
    = some (H5Object.int32 h.negCoincidenceWindow) ∧
  w.file.lookup "/HeaderData/AcqParameters/EDCATParameters/coincTimingPrecision"
    = some (H5Object.float32 h.coincTimingPrecision) ∧
  w.file.lookup "/HeaderData/RDFConfiguration/isListFile" = some (H5Object.uint32 h.isListFile)

instance (w : Wrapper) (h : ScannerHeader) : Decidable (w.has_scanner_header h) := by
  unfold Wrapper.has_scanner_header
  infer_instance

/-- The local variables that the reading part of `get_scanner_from_HDF5`
computes from the header values `h`. -/
def ScannerHeader.locals (h : ScannerHeader) : ScannerLocals :=
  { read_str_scanner := h.scannerDesc,
    effective_ring_diameter := Float32.ofRat h.effectiveRingDiameter,
    num_transaxial_blocks_per_bucket := uint32_as_int (h.radialBlocksPerModule % 2 ^ 32),
    num_axial_blocks_per_bucket := uint32_as_int (h.axialBlocksPerModule % 2 ^ 32),
    axial_blocks_per_unit := uint32_as_int (h.axialBlocksPerUnit % 2 ^ 32),
    radial_blocks_per_unit := uint32_as_int (h.radialBlocksPerUnit % 2 ^ 32),
    axial_units_per_module := uint32_as_int (h.axialUnitsPerModule % 2 ^ 32),
    radial_units_per_module := uint32_as_int (h.radialUnitsPerModule % 2 ^ 32),
    axial_modules_per_system := uint32_as_int (h.axialModulesPerSystem % 2 ^ 32),
    radial_modules_per_system := uint32_as_int (h.radialModulesPerSystem % 2 ^ 32),
    max_num_non_arccorrected_bins := uint32_as_int (h.dimensionSize % 2 ^ 32),
    num_transaxial_crystals_per_block := uint32_as_int (h.radialCrystalsPerBlock % 2 ^ 32),
    num_axial_crystals_per_block := uint32_as_int (h.axialCrystalsPerBlock % 2 ^ 32),
    detector_axial_size := Float32.ofRat h.detectorAxialSize,
    intrinsic_tilt := Float32.ofRat h.transaxial_crystal_0_offset,
    num_detector_layers := 1,
    timingResolutionInPico := Float32.ofRat h.timingResolutionInPico,
    posCoincidenceWindow := wrap_int32 h.posCoincidenceWindow,
    negCoincidenceWindow := wrap_int32 h.negCoincidenceWindow,
    coincTimingPrecisionInPico := Float32.ofRat h.coincTimingPrecision * Float32.ofInt 1000,
    num_tof_bins :=
      wrap_int32 (wrap_int32 (wrap_int32 h.posCoincidenceWindow + wrap_int32 h.negCoincidenceWindow) + 1),
    num_rings :=
      wrap_int32 (wrap_int32 (uint32_as_int (h.axialBlocksPerModule % 2 ^ 32)
        * uint32_as_int (h.axialCrystalsPerBlock % 2 ^ 32)) * uint32_as_int (h.axialModulesPerSystem % 2 ^ 32)),
    num_detectors_per_ring :=
      wrap_int32 (wrap_int32 (uint32_as_int (h.radialBlocksPerModule % 2 ^ 32)
        * uint32_as_int (h.radialCrystalsPerBlock % 2 ^ 32)) * uint32_as_int (h.radialModulesPerSystem % 2 ^ 32)),
    ring_spacing :=
      Float32.ofRat h.detectorAxialSize /
        Float32.ofInt
          (wrap_int32 (wrap_int32 (uint32_as_int (h.axialBlocksPerModule % 2 ^ 32)
            * uint32_as_int (h.axialCrystalsPerBlock % 2 ^ 32)) * uint32_as_int (h.axialModulesPerSystem % 2 ^ 32))) }

/-- The scanner after the setters of source lines 360 to 371, as a value:
`is_list` is what `is_list_file()` returned. -/
def set_scanner (v : ScannerLocals) (is_list : Bool) (scanner : Scanner) : Scanner :=
  { scanner with
    num_detectors_per_ring := v.num_detectors_per_ring,
    num_rings := v.num_rings,
    max_num_non_arccorrected_bins :=
      if is_list then scanner.max_num_non_arccorrected_bins else v.max_num_non_arccorrected_bins,
    ring_spacing := v.ring_spacing,
    intrinsic_azimuthal_tilt := v.intrinsic_tilt.times_PI_over_180,
    num_axial_blocks_per_bucket := v.num_axial_blocks_per_bucket,
    num_transaxial_blocks_per_bucket := v.num_transaxial_blocks_per_bucket,
    num_axial_crystals_per_block := v.num_axial_crystals_per_block,
    num_transaxial_crystals_per_block := v.num_transaxial_crystals_per_block,
    num_detector_layers := v.num_detector_layers,
    reference_energy := Float32.ofRat 511 }

/-- The scanner after source lines 373 to 382, as a value. -/
def adjust_ring_radius (effective_ring_diameter : Float32) (scanner : Scanner) : Scanner :=
  if Float32.abs (scanner.get_effective_ring_radius - effective_ring_diameter / Float32.ofInt 2)
      > Float32.tenth then
    { scanner with inner_ring_radius := effective_ring_diameter / Float32.ofInt 2 - Float32.ofRat 0,
                   average_depth_of_interaction := Float32.ofRat 0 }
  else scanner

/-- The scanner after source lines 383 to 390, as a value. -/
def adjust_timing_resolution (timingResolutionInPico : Float32) (scanner : Scanner) : Scanner :=
  if timingResolutionInPico > Float32.ofInt 0 ∧
      Float32.abs (scanner.timing_resolution - timingResolutionInPico) > Float32.tenth then
    { scanner with timing_resolution := timingResolutionInPico }
  else scanner

/-- The scanner after source lines 391 to 397, as a value. -/
def adjust_size_of_timing_pos (coincTimingPrecisionInPico : Float32) (scanner : Scanner) : Scanner :=
  if Float32.abs (scanner.size_of_timing_pos - coincTimingPrecisionInPico) > Float32.tenth then
    { scanner with size_of_timing_pos := coincTimingPrecisionInPico }
  else scanner

/-- The scanner after source lines 398 to 404, as a value. -/
def adjust_max_num_timing_poss (num_tof_bins : Int) (scanner : Scanner) : Scanner :=
  if wrap_int32 |wrap_int32 (scanner.max_num_timing_poss - num_tof_bins)| > 0 then
    { scanner with max_num_timing_poss := num_tof_bins }
  else scanner

/-- The scanner that `get_scanner_from_HDF5` returns for the local variables `v`
and the catalog entry `scanner`, as a value. -/
def resolved_scanner (v : ScannerLocals) (is_list : Bool) (scanner : Scanner) : Scanner :=
  adjust_max_num_timing_poss v.num_tof_bins
    (adjust_size_of_timing_pos v.coincTimingPrecisionInPico
      (adjust_timing_resolution v.timingResolutionInPico
        (adjust_ring_radius v.effective_ring_diameter (set_scanner v is_list scanner))))

/-- The warnings that `get_scanner_from_HDF5` emits for the local variables `v`
and the catalog entry `scanner`, in order. -/
def resolved_warnings (v : ScannerLocals) (is_list : Bool) (scanner : Scanner) : List Warning :=
  (if Float32.abs ((set_scanner v is_list scanner).get_effective_ring_radius
        - v.effective_ring_diameter / Float32.ofInt 2) > Float32.tenth
    then [Warning.effective_ring_radius] else []) ++
  (if v.timingResolutionInPico > Float32.ofInt 0 ∧
      Float32.abs
        ((adjust_ring_radius v.effective_ring_diameter (set_scanner v is_list scanner)).timing_resolution
          - v.timingResolutionInPico) > Float32.tenth
    then [Warning.timing_resolution] else []) ++
  (if Float32.abs
      ((adjust_timing_resolution v.timingResolutionInPico
        (adjust_ring_radius v.effective_ring_diameter (set_scanner v is_list scanner))).size_of_timing_pos
        - v.coincTimingPrecisionInPico) > Float32.tenth
    then [Warning.size_of_timing_pos] else []) ++
  (if wrap_int32 |wrap_int32
      ((adjust_size_of_timing_pos v.coincTimingPrecisionInPico
        (adjust_timing_resolution v.timingResolutionInPico
          (adjust_ring_radius v.effective_ring_diameter (set_scanner v is_list scanner)))).max_num_timing_poss
        - v.num_tof_bins)| > 0
    then [Warning.max_num_timing_poss] else []) ++
  (if (resolved_scanner v is_list scanner).default_bin_size ≤ Float32.ofRat 0
    then [Warning.default_bin_size_not_set] else []) ++
  (if (resolved_scanner v is_list scanner).default_num_arccorrected_bins ≤ 0
    then [Warning.default_num_arccorrected_bins_not_set] else []) ++
  (if (resolved_scanner v is_list scanner).energy_resolution ≤ Float32.ofInt 0
    then [Warning.energy_resolution_not_set] else [])

/-- The sinogram example after `check_file`. -/
def exampleClassifiedSino : Wrapper :=
  (check_file (Wrapper.fresh exampleSinoFile false false false false)).2

/-- The values of the scanner datasets of `exampleHeader`, for a sinogram file. -/
def exampleScannerHeader : ScannerHeader :=
  { scannerDesc := "GE Signa PET/MR",
    effectiveRingDiameter := 640,
    axialBlocksPerModule := 5,
    radialBlocksPerModule := 4,
    axialBlocksPerUnit := 5,
    radialBlocksPerUnit := 4,
    axialUnitsPerModule := 1,
    radialUnitsPerModule := 1,
    axialModulesPerSystem := 1,
    radialModulesPerSystem := 28,
    detectorAxialSize := 250,
    transaxial_crystal_0_offset := -5,
    dimensionSize := 357,
    axialCrystalsPerBlock := 9,
    radialCrystalsPerBlock := 4,
    timingResolutionInPico := 0,
    posCoincidenceWindow := 175,
    negCoincidenceWindow := 175,
    coincTimingPrecision := 1302 / 100000,
    isListFile := 0 }

/-- An environment with an empty scanner catalog. -/
def exampleEnvWithoutCatalog : Env :=
  { exampleEnv with get_scanner_from_name := fun _ => none }

/-! ## Output arrays in statements, example payloads -/

/-- The elements of a one-dimensional array, in order. -/
def Array1.toList (a : Array1) : List ℚ :=
  (List.range a.size).map a.elem

/-- The elements of a three-dimensional array, as nested lists. -/
def Array3.toList (a : Array3) : List (List (List ℚ)) :=
  (List.range a.n0).map fun i => (List.range a.n1).map fun j => (List.range a.n2).map fun k => a.elem i j k

/-- An output array before the call: no elements. -/
def Array1.empty : Array1 :=
  { size := 0, elem := fun _ => 0 }

/-- An output array before the call: no elements. -/
def Array3.empty : Array3 :=
  { n0 := 0, n1 := 0, n2 := 0, elem := fun _ _ _ => 0 }

/-- The output `o` is the buffer `raw`, viewed with the extents of `o`, with the last
axis reversed: `o[i][j][k] = raw[i][j][N - 1 - k]`. -/
def last_axis_reversed (o : Array3) (raw : List ℚ) : Prop :=
  ∀ i < o.n0, ∀ j < o.n1, ∀ k < o.n2,
    o.elem i j k = raw.getD ((i * o.n1 + j) * o.n2 + (o.n2 - 1 - k)) 0

instance (o : Array3) (raw : List ℚ) : Decidable (last_axis_reversed o raw) := by
  unfold last_axis_reversed
  infer_instance

/-- The element with indices `x`, `y`, `z` of the buffer `raw` viewed as a row-major
array with extents `(NX, NY, NZ)`. -/
def raw3d (NY NZ : Nat) (raw : List ℚ) (x y z : Nat) : ℚ :=
  raw.getD ((x * NY + y) * NZ + z) 0

/-- The output `o`, with extents `(NZ, NY, NX)`, is the transpose of the buffer `raw`
viewed as a row-major `(NX, NY, NZ)` array: `o[z][y][x] = raw3d[x][y][z]`. -/
def axes_permuted (o : Array3) (raw : List ℚ) : Prop :=
  ∀ z < o.n0, ∀ y < o.n1, ∀ x < o.n2, o.elem z y x = raw3d o.n1 o.n0 raw x y z

instance (o : Array3) (raw : List ℚ) : Decidable (axes_permuted o raw) := by
  unfold axes_permuted
  infer_instance

/-- As `axes_permuted`, with the last axis of the output reversed as well:
`o[z][y][x] = raw3d[NX - 1 - x][y][z]`. -/
def axes_permuted_and_reversed (o : Array3) (raw : List ℚ) : Prop :=
  ∀ z < o.n0, ∀ y < o.n1, ∀ x < o.n2, o.elem z y x = raw3d o.n1 o.n0 raw (o.n2 - 1 - x) y z

instance (o : Array3) (raw : List ℚ) : Decidable (axes_permuted_and_reversed o raw) := by
  unfold axes_permuted_and_reversed
  infer_instance

/-- The data of the example datasets: the numbers 0 to 5. -/
def exampleData : List ℚ := [0, 1, 2, 3, 4, 5]

/-- A sinogram file with one uncompressed view of extents `(2, 1, 3)`. -/
def exampleSinoViewFile : H5File :=
  { id_open := true,
    objects :=
      [("/HeaderData/RDFConfiguration/isListFile", H5Object.uint32 0),
       ("/SegmentData/Segment2", H5Object.group),
       ("/HeaderData/Sorter/Segment2/compDataSegSize", H5Object.uint32 0),
       ("/SegmentData/Segment2/3D_Sinogram/view1", H5Object.array [2, 1, 3] exampleData),
       ("/HeaderData/SinglesHeader/numValidSamples", H5Object.uint32 2),
       ("/Singles/CrystalSingles/sample1", H5Object.array [2, 3] exampleData),
       ("/Singles/CrystalSingles/sample2", H5Object.array [2, 3] [10, 11, 12, 13, 14, 15])]
      ++ exampleHeader }

/-- The environment `exampleEnv` with the example sinogram file on disk. -/
def exampleEnvSino : Env :=
  { exampleEnv with
    disk := fun n => if n = "sino.RDF" then some exampleSinoViewFile.objects else none }

/-- The wrapper after `open` and `initialise_proj_data(1)` on the example sinogram file. -/
def exampleSinoView : Wrapper :=
  (initialise_proj_data exampleEnvSino 1
    (GEHDF5Wrapper.open exampleEnvSino "sino.RDF" exampleUnopened).2).2

/-- The wrapper after `open` and `initialise_singles_data` on the example sinogram file. -/
def exampleSinoSingles : Wrapper :=
  (initialise_singles_data exampleEnvSino
    (GEHDF5Wrapper.open exampleEnvSino "sino.RDF" exampleUnopened).2).2

/-- A geometry file whose first slice has extents `(2, 3)`. -/
def exampleGeoSliceFile : H5File :=
  { id_open := true,
    objects :=
      [("/HeaderData/RDFConfiguration/isListFile", H5Object.uint32 0),
       ("/SegmentData/Segment4/3D_Norm_Correction/slice1", H5Object.array [2, 3] exampleData),
       ("/HeaderData/Sorter/Segment4/dimension3Size", H5Object.uint32 1)] ++ exampleHeader }

/-- The wrapper after `check_file` and `initialise_geo_factors_data(1)` on the example
geometry file. -/
def exampleGeoSlice : Wrapper :=
  (initialise_geo_factors_data exampleEnv 1
    (check_file (Wrapper.fresh exampleGeoSliceFile false false false false)).2).2

/-- A normalization file whose efficiency dataset has extents `(2, 4)`. -/
def exampleNormSmallFile : H5File :=
  { id_open := true,
    objects :=
      [("/HeaderData/RDFConfiguration/isListFile", H5Object.uint32 0),
       ("/3DCrystalEfficiency/crystalEfficiency", H5Object.array [2, 4] [0, 1, 2, 3, 4, 5, 6, 7]),
       ("/SegmentData/Segment4/3D_Norm_Correction/slice1", H5Object.array [2, 3] exampleData),
       ("/HeaderData/Sorter/Segment4/dimension3Size", H5Object.uint32 16)] ++ exampleHeader }

/-- The wrapper after `check_file` and `initialise_efficiency_factors` on the example
normalization file. -/
def exampleNormSmall : Wrapper :=
  (initialise_efficiency_factors exampleEnv
    (check_file (Wrapper.fresh exampleNormSmallFile false false false false)).2).2

/-! ## Exam header, timing examples -/

/-- A sinogram file whose `timingResolutionInPico` is negative. -/
def exampleNegativeTimingFile : H5File :=
  { id_open := true,
    objects :=
      [("/HeaderData/RDFConfiguration/isListFile", H5Object.uint32 0),
       ("/SegmentData/Segment2", H5Object.group),
       ("/HeaderData/SystemGeometry/timingResolutionInPico", H5Object.float32 (-1))] ++ exampleHeader }

/-- The negative-timing example after `check_file`. -/
def exampleNegativeTiming : Wrapper :=
  (check_file (Wrapper.fresh exampleNegativeTimingFile false false false false)).2

/-- A sinogram file whose `timingResolutionInPico` is 385. -/
def examplePositiveTimingFile : H5File :=
  { id_open := true,
    objects :=
      [("/HeaderData/RDFConfiguration/isListFile", H5Object.uint32 0),
       ("/SegmentData/Segment2", H5Object.group),
       ("/HeaderData/SystemGeometry/timingResolutionInPico", H5Object.float32 385)] ++ exampleHeader }

/-- The positive-timing example after `check_file`. -/
def examplePositiveTiming : Wrapper :=
  (check_file (Wrapper.fresh examplePositiveTimingFile false false false false)).2

/-- The values of the datasets read by `initialise_exam_info`. -/
structure ExamHeader where
  patientEntry : Nat
  patientPosition : Nat
  lower_energy_limit : Nat
  upper_energy_limit : Nat
  scanStartTime : Nat
  frameStartTime : Nat
  frameDuration : Nat
  radionuclideName : String
  positronFraction : ℚ
  halfLife : ℚ

/-- The wrapper holds an open file in which every dataset read by `initialise_exam_info`
is present with the type it is read as, with the values `h`. -/
def Wrapper.has_exam_header (w : Wrapper) (h : ExamHeader) : Prop :=
  w.file.id_open = true ∧
  w.file.lookup "/HeaderData/AcqParameters/LandmarkParameters/patientEntry"
    = some (H5Object.uint32 h.patientEntry) ∧
  w.file.lookup "/HeaderData/AcqParameters/LandmarkParameters/patientPosition"
    = some (H5Object.uint32 h.patientPosition) ∧
  w.file.lookup "/HeaderData/AcqParameters/EDCATParameters/lower_energy_limit"
    = some (H5Object.uint32 h.lower_energy_limit) ∧
  w.file.lookup "/HeaderData/AcqParameters/EDCATParameters/upper_energy_limit"
    = some (H5Object.uint32 h.upper_energy_limit) ∧
  w.file.lookup "/HeaderData/AcqStats/scanStartTime" = some (H5Object.uint32 h.scanStartTime) ∧
  w.file.lookup "/HeaderData/AcqStats/frameStartTime" = some (H5Object.uint32 h.frameStartTime) ∧
  w.file.lookup "/HeaderData/AcqStats/frameDuration" = some (H5Object.uint32 h.frameDuration) ∧
  w.file.lookup "/HeaderData/ExamData/radionuclideName" = some (H5Object.str h.radionuclideName) ∧
  w.file.lookup "/HeaderData/ExamData/positronFraction" = some (H5Object.float32 h.positronFraction) ∧
  w.file.lookup "/HeaderData/ExamData/halfLife" = some (H5Object.float32 h.halfLife)

instance (w : Wrapper) (h : ExamHeader) : Decidable (w.has_exam_header h) := by
  unfold Wrapper.has_exam_header
  infer_instance

/-- The datasets that `initialise_exam_info` accesses, in order. -/
def exam_info_probes : List String :=
  ["/HeaderData/AcqParameters/LandmarkParameters/patientEntry",
   "/HeaderData/AcqParameters/LandmarkParameters/patientPosition",
   "/HeaderData/AcqParameters/EDCATParameters/lower_energy_limit",
   "/HeaderData/AcqParameters/EDCATParameters/upper_energy_limit",
   "/HeaderData/AcqStats/scanStartTime",
   "/HeaderData/AcqStats/frameStartTime",
   "/HeaderData/AcqStats/frameDuration",
   "/HeaderData/ExamData/radionuclideName",
   "/HeaderData/ExamData/positronFraction",
   "/HeaderData/ExamData/halfLife"]

/-- The `ExamInfo` object that `initialise_exam_info` leaves for the header values `h`, as a
value. -/
def ExamHeader.exam_info (env : Env) (h : ExamHeader) : ExamInfo :=
  { env.new_ExamInfo with
    patient_position :=
      { orientation :=
          if h.patientEntry % 2 ^ 32 = env.ACQ_HEAD_FIRST then OrientationValue.head_in
          else if h.patientEntry % 2 ^ 32 = env.ACQ_FEET_FIRST then OrientationValue.feet_in
          else OrientationValue.unknown_orientation,
        rotation :=
          if h.patientPosition % 2 ^ 32 = env.ACQ_SUPINE then RotationValue.supine
          else if h.patientPosition % 2 ^ 32 = env.ACQ_PRONE then RotationValue.prone
          else if h.patientPosition % 2 ^ 32 = env.ACQ_LEFT_DECUB then RotationValue.left
          else if h.patientPosition % 2 ^ 32 = env.ACQ_RIGHT_DECUB then RotationValue.right
          else RotationValue.unknown_rotation },
    high_energy_thres := ((h.upper_energy_limit % 2 ^ 32 : Nat) : ℚ),
    low_energy_thres := ((h.lower_energy_limit % 2 ^ 32 : Nat) : ℚ),
    start_time_in_secs_since_1970 := ((h.scanStartTime % 2 ^ 32 : Nat) : ℚ),
    time_frame_definitions :=
      [((((h.frameStartTime % 2 ^ 32 + 2 ^ 32 - h.scanStartTime % 2 ^ 32) % 2 ^ 32 : Nat) : ℚ),
        (((h.frameStartTime % 2 ^ 32 + 2 ^ 32 - h.scanStartTime % 2 ^ 32) % 2 ^ 32 : Nat) : ℚ)
          + ((h.frameDuration % 2 ^ 32 / 1000 : Nat) : ℚ))],
    radionuclide :=
      if (env.get_radionuclide h.radionuclideName).half_life < 0 then
        { name := h.radionuclideName, energy := 511, branching_ratio := h.positronFraction,
          half_life := h.halfLife }
      else env.get_radionuclide h.radionuclideName }

/-- The values of the exam datasets of `exampleHeader`. -/
def exampleExamHeader : ExamHeader :=
  { patientEntry := 0, patientPosition := 0, lower_energy_limit := 425, upper_energy_limit := 650,
    scanStartTime := 1500000000, frameStartTime := 1500000060, frameDuration := 1500,
    radionuclideName := "18F", positronFraction := 97 / 100, halfLife := 6586 }

/-! ## Patient position (`PatientPosition.cxx`) -/

/-- Modelled from the spec: `PatientPosition::PositionValue`, declared in
`stir/PatientPosition.h`. -/
inductive PositionValue where
  | HFS
  | HFP
  | HFDR
  | HFDL
  | FFS
  | FFP
  | FFDR
  | FFDL
  | unknown_position
deriving DecidableEq

/-- The integer values of the enumerators of `stir/PatientPosition.h`, which is not among
the sources. -/
structure PatientPositionEnums where
  orientation : OrientationValue → Int
  rotation : RotationValue → Int
  position : PositionValue → Int

/-- The constructor `PatientPosition::PatientPosition(PositionValue)`. -/
def PatientPosition.ofPosition (position : PositionValue) : PatientPosition :=
  match position with
  | PositionValue.FFP => { orientation := OrientationValue.feet_in, rotation := RotationValue.prone }
  | PositionValue.HFP => { orientation := OrientationValue.head_in, rotation := RotationValue.prone }
  | PositionValue.FFS => { orientation := OrientationValue.feet_in, rotation := RotationValue.supine }
  | PositionValue.HFS => { orientation := OrientationValue.head_in, rotation := RotationValue.supine }
  | PositionValue.FFDR => { orientation := OrientationValue.feet_in, rotation := RotationValue.right }
  | PositionValue.HFDR => { orientation := OrientationValue.head_in, rotation := RotationValue.right }
  | PositionValue.FFDL => { orientation := OrientationValue.feet_in, rotation := RotationValue.left }
  | PositionValue.HFDL => { orientation := OrientationValue.head_in, rotation := RotationValue.left }
  | PositionValue.unknown_position =>
    { orientation := OrientationValue.unknown_orientation, rotation := RotationValue.unknown_rotation }

/-- The member function `PatientPosition::get_position`.  The result is the integer value
of the `PositionValue` returned, which for the first branch is what the `static_cast`
is applied to. -/
def PatientPosition.get_position (c : PatientPositionEnums) (p : PatientPosition) : Int :=
  if c.orientation p.orientation ≤ c.orientation OrientationValue.feet_in ∧
      c.rotation p.rotation ≤ c.rotation RotationValue.left then
    c.orientation p.orientation * 4 + c.rotation p.rotation
  else
    c.position PositionValue.unknown_position

/-- The member function `PatientPosition::get_position_as_string`: the `switch` over the
value of `get_position()`, the case labels in the order of the source. -/
def PatientPosition.get_position_as_string (c : PatientPositionEnums) (p : PatientPosition) : String :=
  if p.get_position c = c.position PositionValue.HFP then "HFP"
  else if p.get_position c = c.position PositionValue.HFS then "HFS"
  else if p.get_position c = c.position PositionValue.HFDR then "HFDR"
  else if p.get_position c = c.position PositionValue.HFDL then "HFDL"
  else if p.get_position c = c.position PositionValue.FFDR then "FFDR"
  else if p.get_position c = c.position PositionValue.FFDL then "FFDL"
  else if p.get_position c = c.position PositionValue.FFP then "FFP"
  else if p.get_position c = c.position PositionValue.FFS then "FFS"
  else "unknown"

/-- The order of the enumerators that `get_position` relies on ("make use of order of
enum's"): `head_in` and `feet_in` come first among the orientations, the four known
rotations first among the rotations with `left` the last of them, each named position has
the value `orientation * 4 + rotation` of its pair, and `unknown_position` has none of
these values. -/
def PatientPositionEnums.ordered (c : PatientPositionEnums) : Prop :=
  c.orientation OrientationValue.head_in ≤ c.orientation OrientationValue.feet_in ∧
  c.orientation OrientationValue.feet_in < c.orientation OrientationValue.other_orientation ∧
  c.orientation OrientationValue.feet_in < c.orientation OrientationValue.unknown_orientation ∧
  c.rotation RotationValue.supine ≤ c.rotation RotationValue.left ∧
  c.rotation RotationValue.prone ≤ c.rotation RotationValue.left ∧
  c.rotation RotationValue.right ≤ c.rotation RotationValue.left ∧
  c.rotation RotationValue.left < c.rotation RotationValue.other_rotation ∧
  c.rotation RotationValue.left < c.rotation RotationValue.unknown_rotation ∧
  c.position PositionValue.HFS
    = c.orientation OrientationValue.head_in * 4 + c.rotation RotationValue.supine ∧
  c.position PositionValue.HFP
    = c.orientation OrientationValue.head_in * 4 + c.rotation RotationValue.prone ∧
  c.position PositionValue.HFDR
    = c.orientation OrientationValue.head_in * 4 + c.rotation RotationValue.right ∧
  c.position PositionValue.HFDL
    = c.orientation OrientationValue.head_in * 4 + c.rotation RotationValue.left ∧
  c.position PositionValue.FFS
    = c.orientation OrientationValue.feet_in * 4 + c.rotation RotationValue.supine ∧
  c.position PositionValue.FFP
    = c.orientation OrientationValue.feet_in * 4 + c.rotation RotationValue.prone ∧
  c.position PositionValue.FFDR
    = c.orientation OrientationValue.feet_in * 4 + c.rotation RotationValue.right ∧
  c.position PositionValue.FFDL
    = c.orientation OrientationValue.feet_in * 4 + c.rotation RotationValue.left ∧
  c.position PositionValue.unknown_position ∉
    [c.position PositionValue.HFS, c.position PositionValue.HFP, c.position PositionValue.HFDR,
     c.position PositionValue.HFDL, c.position PositionValue.FFS, c.position PositionValue.FFP,
     c.position PositionValue.FFDR, c.position PositionValue.FFDL]

instance (c : PatientPositionEnums) : Decidable c.ordered := by
  unfold PatientPositionEnums.ordered
  infer_instance

/-- The pair is one of the eight named positions. -/
def PatientPosition.is_named (p : PatientPosition) : Prop :=
  (p.orientation = OrientationValue.head_in ∨ p.orientation = OrientationValue.feet_in) ∧
  (p.rotation = RotationValue.supine ∨ p.rotation = RotationValue.prone ∨
    p.rotation = RotationValue.right ∨ p.rotation = RotationValue.left)

instance (p : PatientPosition) : Decidable p.is_named := by
  unfold PatientPosition.is_named
  infer_instance

/-- The enumerators numbered from 0 in the order `head_in, feet_in, other_orientation,
unknown_orientation`, `supine, prone, right, left, other_rotation, unknown_rotation` and
`HFS, HFP, HFDR, HFDL, FFS, FFP, FFDR, FFDL, unknown_position`. -/
def exampleEnums : PatientPositionEnums :=
  { orientation := fun o =>
      match o with
      | OrientationValue.head_in => 0
      | OrientationValue.feet_in => 1
      | OrientationValue.other_orientation => 2
      | OrientationValue.unknown_orientation => 3,
    rotation := fun r =>
      match r with
      | RotationValue.supine => 0
      | RotationValue.prone => 1
      | RotationValue.right => 2
      | RotationValue.left => 3
      | RotationValue.other_rotation => 4
      | RotationValue.unknown_rotation => 5,
    position := fun p =>
      match p with
      | PositionValue.HFS => 0
      | PositionValue.HFP => 1
      | PositionValue.HFDR => 2
      | PositionValue.HFDL => 3
      | PositionValue.FFS => 4
      | PositionValue.FFP => 5
      | PositionValue.FFDR => 6
      | PositionValue.FFDL => 7
      | PositionValue.unknown_position => 8 }

/-! ## Further example states -/

/-- The wrapper after `open` on a disk that holds the file `f` under every name. -/
def exampleOpen (f : H5File) : Wrapper :=
  (GEHDF5Wrapper.open { exampleEnv with disk := fun _ => some f.objects } "file.RDF" exampleUnopened).2

/-- The list-mode example after `check_file`. -/
def exampleClassifiedList : Wrapper :=
  (check_file (Wrapper.fresh exampleListFile false false false false)).2

/-- The geometry example after `check_file`. -/
def exampleClassifiedGeo : Wrapper :=
  (check_file (Wrapper.fresh exampleGeoFile false false false false)).2

/-- A sinogram file whose frame starts 10 s before the scan start. -/
def exampleEarlyFrameFile : H5File :=
  { id_open := true,
    objects :=
      [("/HeaderData/RDFConfiguration/isListFile", H5Object.uint32 0),
       ("/SegmentData/Segment2", H5Object.group),
       ("/HeaderData/AcqStats/frameStartTime", H5Object.uint32 1499999990)] ++ exampleHeader }

/-- The early-frame example after `check_file`. -/
def exampleEarlyFrame : Wrapper :=
  (check_file (Wrapper.fresh exampleEarlyFrameFile false false false false)).2

/-- A sinogram file with two TOF bins and one TOF view. -/
def exampleTOFSinoFile : H5File :=
  { id_open := true,
    objects :=
      [("/HeaderData/Sorter/numTOF_bins", H5Object.uint32 2),
       ("/SegmentData/Segment2/3D_TOF_Sinogram/view1", H5Object.array [2, 1, 3] exampleData)]
      ++ exampleSinoViewFile.objects }

/-- A buffer with zeros at the positions 0 to 2^32 - 1 and a one at position 2^32. -/
def exampleLargeBuffer : List ℚ :=
  List.replicate (2 ^ 32) 0 ++ [1]

/-- A sinogram file whose `coincTimingPrecision` is the `float` that times 1000 gives `.1F`,
whose `timingResolutionInPico` is `.1F` and whose `effectiveRingDiameter` is 640.2. -/
def exampleBoundaryFile : H5File :=
  { id_open := true,
    objects :=
      [("/HeaderData/AcqParameters/EDCATParameters/coincTimingPrecision",
          H5Object.float32 (1717987 / 17179869184)),
       ("/HeaderData/SystemGeometry/timingResolutionInPico",
          H5Object.float32 (13421773 / 134217728)),
       ("/HeaderData/SystemGeometry/effectiveRingDiameter",
          H5Object.float32 (6402 / 10))] ++ exampleSinoFile.objects }

/-- The boundary example after `check_file`. -/
def exampleBoundary : Wrapper :=
  (check_file (Wrapper.fresh exampleBoundaryFile false false false false)).2

/-- The values of the scanner datasets of `exampleBoundaryFile`. -/
def exampleBoundaryHeader : ScannerHeader :=
  { exampleScannerHeader with
    coincTimingPrecision := 1717987 / 17179869184,
    timingResolutionInPico := 13421773 / 134217728,
    effectiveRingDiameter := 6402 / 10 }

/-- The example catalog entry with TOF bin size 0 and timing resolution 0. -/
def exampleScannerZero : Scanner :=
  { exampleScanner with size_of_timing_pos := Float32.ofRat 0, timing_resolution := Float32.ofRat 0 }

/-- An environment whose catalog holds `exampleScannerZero`. -/
def exampleEnvZero : Env :=
  { exampleEnv with
    get_scanner_from_name := fun n => if n = "GE Signa PET/MR" then some exampleScannerZero else none }

/-- The values of the scanner datasets of `examplePositiveTimingFile`. -/
def examplePositiveTimingHeader : ScannerHeader :=
  { exampleScannerHeader with timingResolutionInPico := 385 }

/-- A sinogram file of a scanner with 4 detectors per ring, holding its two views. -/
def exampleTwoViewFile : H5File :=
  { id_open := true,
    objects :=
      [("/HeaderData/SystemGeometry/radialBlocksPerModule", H5Object.uint32 1),
       ("/HeaderData/SystemGeometry/radialModulesPerSystem", H5Object.uint32 1),
       ("/SegmentData/Segment2/3D_Sinogram/view2", H5Object.array [2, 1, 3] exampleData)]
      ++ exampleSinoViewFile.objects }

/-- The sinogram example with one view after `check_file`, before any projection geometry
is built. -/
def exampleClassifiedSinoView : Wrapper :=
  (check_file (Wrapper.fresh exampleSinoViewFile false false false false)).2

/-- The version-10 example after the `check_file` that raises on its version: the file is
open, the recorded version is 10 and the four flags are clear. -/
def exampleVersion10 : Wrapper :=
  (check_file (Wrapper.fresh exampleVersion10File false false false false)).2

/-! ## Evaluation lemmas -/

theorem H5File.uint32_at_some {f : H5File} {path : String} {n : Nat}
    (h : f.uint32_at path = some n) :
    ∃ v, f.lookup path = some (H5Object.uint32 v) ∧ v % 4294967296 = n := by
  unfold H5File.uint32_at at h
  split at h
  · next v hv => exact ⟨v, hv, by simpa using h⟩
  · simp at h

theorem H5File.str_at_some {f : H5File} {path s : String}
    (h : f.str_at path = some s) : f.lookup path = some (H5Object.str s) := by
  unfold H5File.str_at at h
  split at h
  · next v hv => simp at h; rw [hv, h]
  · simp at h

theorem H5File.has_false {f : H5File} {path : String}
    (h : f.has path = false) : f.lookup path = none := by
  simpa [H5File.has] using h

theorem H5File.has_true {f : H5File} {path : String}
    (h : f.has path = true) : ∃ o, f.lookup path = some o := by
  simpa [H5File.has, Option.isSome_iff_exists] using h

/-! ## Floating-point arithmetic -/

/-- With enough fuel `log2_fuel` brackets a positive number between two powers of 2. -/
theorem log2_fuel_spec (fuel : Nat) : ∀ n : Nat, 0 < n → n ≤ fuel →
    2 ^ log2_fuel fuel n ≤ n ∧ n < 2 ^ (log2_fuel fuel n + 1) := by
  induction fuel with
  | zero => intro n h0 h1; omega
  | succ f ih =>
    intro n h0 h1
    unfold log2_fuel
    by_cases h2 : n < 2
    · rw [if_pos h2]
      have : n = 1 := by omega
      subst this
      simp
    · rw [if_neg h2]
      have h3 := ih (n / 2) (by omega) (by omega)
      constructor
      · have : 2 ^ (log2_fuel f (n / 2) + 1) = 2 * 2 ^ log2_fuel f (n / 2) := by ring
        rw [this]
        omega
      · have : 2 ^ (log2_fuel f (n / 2) + 1 + 1) = 2 * 2 ^ (log2_fuel f (n / 2) + 1) := by ring
        rw [this]
        omega

/-- The exponent that `log2_floor` returns brackets a positive rational. -/
theorem log2_floor_spec (a : ℚ) (ha : 0 < a) :
    (2 : ℚ) ^ log2_floor a ≤ a ∧ a < (2 : ℚ) ^ (log2_floor a + 1) := by
  have hnum : 0 < a.num := Rat.num_pos.mpr ha
  have hn0 : 0 < a.num.natAbs := Int.natAbs_pos.mpr hnum.ne'
  have hd0 : 0 < a.den := a.den_pos
  obtain ⟨hn1, hn2⟩ := log2_fuel_spec a.num.natAbs a.num.natAbs hn0 le_rfl
  obtain ⟨hd1, hd2⟩ := log2_fuel_spec a.den a.den hd0 le_rfl
  set ln := log2_fuel a.num.natAbs a.num.natAbs with hln
  set ld := log2_fuel a.den a.den with hld
  have hq : a = (a.num.natAbs : ℚ) / (a.den : ℚ) := by
    have h2 : (a.num.natAbs : ℚ) = (a.num : ℚ) := by
      rw [← Int.cast_natCast, Int.natAbs_of_nonneg hnum.le]
    rw [h2]
    exact (Rat.num_div_den a).symm
  have hdq : (0 : ℚ) < (a.den : ℚ) := by exact_mod_cast hd0
  have hn1q : (2 : ℚ) ^ ln ≤ (a.num.natAbs : ℚ) := by exact_mod_cast hn1
  have hn2q : (a.num.natAbs : ℚ) < (2 : ℚ) ^ (ln + 1) := by exact_mod_cast hn2
  have hd1q : (2 : ℚ) ^ ld ≤ (a.den : ℚ) := by exact_mod_cast hd1
  have hd2q : (a.den : ℚ) < (2 : ℚ) ^ (ld + 1) := by exact_mod_cast hd2
  have h2 : (0 : ℚ) < 2 := by norm_num
  have hlow : (2 : ℚ) ^ ((ln : Int) - (ld : Int) - 1) < a := by
    rw [hq, lt_div_iff₀ hdq]
    have : (2 : ℚ) ^ ((ln : Int) - (ld : Int) - 1) * (2 : ℚ) ^ (ld + 1) = (2 : ℚ) ^ ln := by
      rw [← zpow_natCast, ← zpow_natCast, ← zpow_add₀ h2.ne']
      congr 1
      push_cast
      ring
    calc (2 : ℚ) ^ ((ln : Int) - (ld : Int) - 1) * (a.den : ℚ)
        < (2 : ℚ) ^ ((ln : Int) - (ld : Int) - 1) * (2 : ℚ) ^ (ld + 1) :=
          mul_lt_mul_of_pos_left hd2q (zpow_pos h2 _)
      _ = (2 : ℚ) ^ ln := this
      _ ≤ _ := hn1q
  have hhigh : a < (2 : ℚ) ^ ((ln : Int) - (ld : Int) + 1) := by
    rw [hq, div_lt_iff₀ hdq]
    have : (2 : ℚ) ^ ((ln : Int) - (ld : Int) + 1) * (2 : ℚ) ^ ld = (2 : ℚ) ^ (ln + 1) := by
      rw [← zpow_natCast, ← zpow_natCast, ← zpow_add₀ h2.ne']
      congr 1
      push_cast
      ring
    calc (a.num.natAbs : ℚ) < (2 : ℚ) ^ (ln + 1) := hn2q
      _ = (2 : ℚ) ^ ((ln : Int) - (ld : Int) + 1) * (2 : ℚ) ^ ld := this.symm
      _ ≤ (2 : ℚ) ^ ((ln : Int) - (ld : Int) + 1) * (a.den : ℚ) :=
          mul_le_mul_of_nonneg_left hd1q (zpow_pos h2 _).le
  unfold log2_floor
  rw [← hln, ← hld]
  by_cases hc : (2 : ℚ) ^ ((ln : Int) - (ld : Int)) ≤ a
  · rw [if_pos hc]
    exact ⟨hc, hhigh⟩
  · rw [if_neg hc]
    refine ⟨hlow.le, ?_⟩
    have : (ln : Int) - (ld : Int) - 1 + 1 = (ln : Int) - (ld : Int) := by ring
    rw [this]
    exact lt_of_not_le hc

/-- An integer is rounded to itself. -/
theorem round_half_even_intCast (n : Int) : round_half_even (n : ℚ) = n := by
  unfold round_half_even
  simp

/-- Rounding does not go below an integer lower bound. -/
theorem round_half_even_ge (q : ℚ) (m : Int) (h : (m : ℚ) ≤ q) : m ≤ round_half_even q := by
  have h1 : m ≤ ⌊q⌋ := Int.le_floor.mpr h
  unfold round_half_even
  split_ifs <;> omega

/-- Rounding does not go above an integer upper bound. -/
theorem round_half_even_le (q : ℚ) (m : Int) (h : q ≤ (m : ℚ)) : round_half_even q ≤ m := by
  rcases eq_or_lt_of_le h with h1 | h1
  · rw [h1, round_half_even_intCast]
  · have h2 : ⌊q⌋ < m := Int.floor_lt.mpr h1
    unfold round_half_even
    split_ifs <;> omega

/-- Zero is rounded to zero. -/
theorem round_binary_zero (prec : Nat) (emin : Int) : round_binary prec emin 0 = 0 := by
  simp [round_binary]

/-- A number that is not positive is rounded to one that is not positive. -/
theorem round_binary_nonpos (prec : Nat) (emin : Int) (x : ℚ) (h : x ≤ 0) :
    round_binary prec emin x ≤ 0 := by
  unfold round_binary
  split_ifs
  · exact le_rfl
  · have hk : (0 : ℚ) < (2 : ℚ) ^ (max (log2_floor |x|) emin - ((prec - 1 : Nat) : Int)) :=
      zpow_pos (by norm_num) _
    have h1 : x / (2 : ℚ) ^ (max (log2_floor |x|) emin - ((prec - 1 : Nat) : Int)) ≤ ((0 : Int) : ℚ) := by
      rw [Int.cast_zero]
      exact div_nonpos_of_nonpos_of_nonneg h hk.le
    have h2 := round_half_even_le _ 0 h1
    have h3 : ((round_half_even
      (x / (2 : ℚ) ^ (max (log2_floor |x|) emin - ((prec - 1 : Nat) : Int))) : Int) : ℚ) ≤ 0 := by
      exact_mod_cast h2
    exact mul_nonpos_of_nonpos_of_nonneg h3 hk.le

/-- A number that is not negative is rounded to one that is not negative. -/
theorem round_binary_nonneg (prec : Nat) (emin : Int) (x : ℚ) (h : 0 ≤ x) :
    0 ≤ round_binary prec emin x := by
  unfold round_binary
  split_ifs
  · exact le_rfl
  · have hk : (0 : ℚ) < (2 : ℚ) ^ (max (log2_floor |x|) emin - ((prec - 1 : Nat) : Int)) :=
      zpow_pos (by norm_num) _
    have h1 : ((0 : Int) : ℚ) ≤ x / (2 : ℚ) ^ (max (log2_floor |x|) emin - ((prec - 1 : Nat) : Int)) := by
      rw [Int.cast_zero]
      exact div_nonneg h hk.le
    have h2 := round_half_even_ge _ 0 h1
    have h3 : (0 : ℚ) ≤ ((round_half_even
      (x / (2 : ℚ) ^ (max (log2_floor |x|) emin - ((prec - 1 : Nat) : Int))) : Int) : ℚ) := by
      exact_mod_cast h2
    exact mul_nonneg h3 hk.le
/-- An integer multiple of the unit in the last place is rounded to itself. -/
theorem round_binary_fixed (prec : Nat) (emin : Int) (y : ℚ) (m : Int)
    (hm : y = (m : ℚ) * (2 : ℚ) ^ (max (log2_floor |y|) emin - ((prec - 1 : Nat) : Int))) :
    round_binary prec emin y = y := by
  by_cases hy : y = 0
  · rw [hy, round_binary_zero]
  · unfold round_binary
    rw [if_neg hy]
    have hk : (2 : ℚ) ^ (max (log2_floor |y|) emin - ((prec - 1 : Nat) : Int)) ≠ 0 :=
      (zpow_pos (by norm_num) _).ne'
    have hq : y / (2 : ℚ) ^ (max (log2_floor |y|) emin - ((prec - 1 : Nat) : Int)) = (m : ℚ) := by
      rw [div_eq_iff hk]
      exact hm
    rw [hq, round_half_even_intCast]
    exact hm.symm

/-- The scaled magnitude is below `2 ^ prec`. -/
theorem round_binary_scaled_lt (prec : Nat) (emin : Int) (x : ℚ) (hx : x ≠ 0) (hp : 1 ≤ prec) :
    |x| / (2 : ℚ) ^ (max (log2_floor |x|) emin - ((prec - 1 : Nat) : Int)) < (2 : ℚ) ^ prec := by
  have h2 : (0 : ℚ) < 2 := by norm_num
  have hax : 0 < |x| := abs_pos.mpr hx
  obtain ⟨-, hlt⟩ := log2_floor_spec |x| hax
  rw [div_lt_iff₀ (zpow_pos h2 _)]
  have hle : (2 : ℚ) ^ (log2_floor |x| + 1) ≤ (2 : ℚ) ^ (max (log2_floor |x|) emin + 1) :=
    zpow_le_zpow_right₀ (by norm_num) (by have := le_max_left (log2_floor |x|) emin; omega)
  have heq : (2 : ℚ) ^ prec * (2 : ℚ) ^ (max (log2_floor |x|) emin - ((prec - 1 : Nat) : Int))
      = (2 : ℚ) ^ (max (log2_floor |x|) emin + 1) := by
    rw [← zpow_natCast, ← zpow_add₀ h2.ne']
    congr 1
    have : ((prec - 1 : Nat) : Int) = (prec : Int) - 1 := by omega
    rw [this]
    ring
  rw [heq]
  exact lt_of_lt_of_le hlt hle

/-- The scaled magnitude of a value in the normal range is at least `2 ^ (prec - 1)`. -/
theorem round_binary_scaled_ge (prec : Nat) (emin : Int) (x : ℚ) (hx : x ≠ 0)
    (hnorm : emin ≤ log2_floor |x|) :
    (2 : ℚ) ^ (prec - 1) ≤ |x| / (2 : ℚ) ^ (max (log2_floor |x|) emin - ((prec - 1 : Nat) : Int)) := by
  have h2 : (0 : ℚ) < 2 := by norm_num
  have hax : 0 < |x| := abs_pos.mpr hx
  obtain ⟨hge, -⟩ := log2_floor_spec |x| hax
  rw [le_div_iff₀ (zpow_pos h2 _), max_eq_left hnorm]
  have heq : (2 : ℚ) ^ (prec - 1) * (2 : ℚ) ^ (log2_floor |x| - ((prec - 1 : Nat) : Int))
      = (2 : ℚ) ^ (log2_floor |x|) := by
    rw [← zpow_natCast, ← zpow_add₀ h2.ne']
    congr 1
    ring
  rw [heq]
  exact hge

/-- The rounded significand is at most `2 ^ prec` in magnitude. -/
theorem round_half_even_scaled_abs_le (prec : Nat) (emin : Int) (x : ℚ) (hx : x ≠ 0) (hp : 1 ≤ prec) :
    |round_half_even (x / (2 : ℚ) ^ (max (log2_floor |x|) emin - ((prec - 1 : Nat) : Int)))|
      ≤ (2 : Int) ^ prec := by
  have h2 : (0 : ℚ) < 2 := by norm_num
  have hk : (0 : ℚ) < (2 : ℚ) ^ (max (log2_floor |x|) emin - ((prec - 1 : Nat) : Int)) :=
    zpow_pos h2 _
  have h := round_binary_scaled_lt prec emin x hx hp
  rw [← abs_of_pos hk, ← abs_div, abs_lt] at h
  rw [abs_le]
  constructor
  · have := round_half_even_ge
      (x / (2 : ℚ) ^ (max (log2_floor |x|) emin - ((prec - 1 : Nat) : Int))) (-(2 : Int) ^ prec)
      (by push_cast; exact h.1.le)
    exact this
  · exact round_half_even_le _ ((2 : Int) ^ prec) (by push_cast; exact h.2.le)
/-- The rounded significand of a value in the normal range is at least `2 ^ (prec - 1)` in
magnitude. -/
theorem round_half_even_scaled_abs_ge (prec : Nat) (emin : Int) (x : ℚ) (hx : x ≠ 0)
    (hnorm : emin ≤ log2_floor |x|) :
    (2 : Int) ^ (prec - 1)
      ≤ |round_half_even (x / (2 : ℚ) ^ (max (log2_floor |x|) emin - ((prec - 1 : Nat) : Int)))| := by
  have h2 : (0 : ℚ) < 2 := by norm_num
  have hk : (0 : ℚ) < (2 : ℚ) ^ (max (log2_floor |x|) emin - ((prec - 1 : Nat) : Int)) :=
    zpow_pos h2 _
  have h := round_binary_scaled_ge prec emin x hx hnorm
  generalize (2 : ℚ) ^ (max (log2_floor |x|) emin - ((prec - 1 : Nat) : Int)) = K at h hk ⊢
  rcases lt_or_gt_of_ne hx with hneg | hpos
  · rw [abs_of_neg hneg, neg_div] at h
    have h1 := round_half_even_le (x / K) (-(2 : Int) ^ (prec - 1)) (by push_cast; linarith)
    exact le_trans (by omega) (neg_le_abs _)
  · rw [abs_of_pos hpos] at h
    have h1 := round_half_even_ge (x / K) ((2 : Int) ^ (prec - 1)) (by push_cast; exact h)
    exact le_trans h1 (le_abs_self _)

/-- A value in the normal range keeps its binade when rounded. -/
theorem round_binary_abs_bounds (prec : Nat) (emin : Int) (x : ℚ) (hx : x ≠ 0) (hp : 1 ≤ prec)
    (hnorm : emin ≤ log2_floor |x|) :
    (2 : ℚ) ^ (log2_floor |x|) ≤ |round_binary prec emin x| ∧
      |round_binary prec emin x| ≤ (2 : ℚ) ^ (log2_floor |x| + 1) := by
  have h2 : (0 : ℚ) < 2 := by norm_num
  have hlo := round_half_even_scaled_abs_ge prec emin x hx hnorm
  have hhi := round_half_even_scaled_abs_le prec emin x hx hp
  have hpc : ((prec - 1 : Nat) : Int) = (prec : Int) - 1 := by omega
  unfold round_binary
  rw [if_neg hx, abs_mul, abs_of_pos (zpow_pos h2 _)]
  rw [max_eq_left hnorm] at hlo hhi ⊢
  generalize round_half_even (x / (2 : ℚ) ^ (log2_floor |x| - ((prec - 1 : Nat) : Int))) = n at hlo hhi
  have hlo2 : (2 : ℚ) ^ (prec - 1) ≤ |(n : ℚ)| := by
    have : (((2 : Int) ^ (prec - 1) : Int) : ℚ) ≤ ((|n| : Int) : ℚ) := by exact_mod_cast hlo
    push_cast at this
    exact this
  have hhi2 : |(n : ℚ)| ≤ (2 : ℚ) ^ prec := by
    have : ((|n| : Int) : ℚ) ≤ (((2 : Int) ^ prec : Int) : ℚ) := by exact_mod_cast hhi
    push_cast at this
    exact this
  constructor
  · have heq : (2 : ℚ) ^ (log2_floor |x|)
        = (2 : ℚ) ^ (prec - 1) * (2 : ℚ) ^ (log2_floor |x| - ((prec - 1 : Nat) : Int)) := by
      rw [← zpow_natCast, ← zpow_add₀ h2.ne']
      congr 1
      ring
    rw [heq]
    exact mul_le_mul_of_nonneg_right hlo2 (zpow_pos h2 _).le
  · have heq : (2 : ℚ) ^ (log2_floor |x| + 1)
        = (2 : ℚ) ^ prec * (2 : ℚ) ^ (log2_floor |x| - ((prec - 1 : Nat) : Int)) := by
      rw [← zpow_natCast, ← zpow_add₀ h2.ne']
      congr 1
      rw [hpc]
      ring
    rw [heq]
    exact mul_le_mul_of_nonneg_right hhi2 (zpow_pos h2 _).le

/-- The exponent of a non-zero integer of at most 31 bits. -/
theorem log2_floor_int_range (R : Int) (h0 : R ≠ 0) (hR : |R| ≤ 2 ^ 31) :
    0 ≤ log2_floor |(R : ℚ)| ∧ log2_floor |(R : ℚ)| ≤ 31 := by
  have hpos : (0 : ℚ) < |(R : ℚ)| := abs_pos.mpr (by exact_mod_cast h0)
  obtain ⟨h1, h2⟩ := log2_floor_spec |(R : ℚ)| hpos
  have hge : (1 : ℚ) ≤ |(R : ℚ)| := by
    have : (1 : Int) ≤ |R| := Int.one_le_abs h0
    exact_mod_cast this
  have hle : |(R : ℚ)| ≤ (2 : ℚ) ^ (31 : Int) := by
    have : ((|R| : Int) : ℚ) ≤ (((2 : Int) ^ 31 : Int) : ℚ) := by exact_mod_cast hR
    push_cast at this
    exact_mod_cast this
  constructor
  · have h3 : (2 : ℚ) ^ (0 : Int) < (2 : ℚ) ^ (log2_floor |(R : ℚ)| + 1) := by
      rw [zpow_zero]
      exact lt_of_le_of_lt hge h2
    have := (zpow_lt_zpow_iff_right₀ (by norm_num : (1 : ℚ) < 2)).mp h3
    omega
  · have h3 : (2 : ℚ) ^ (log2_floor |(R : ℚ)|) ≤ (2 : ℚ) ^ (31 : Int) := le_trans h1 hle
    exact (zpow_le_zpow_iff_right₀ (by norm_num : (1 : ℚ) < 2)).mp h3

/-- The conversion of a non-zero `int` is a finite non-zero `float`. -/
theorem Float32.ofInt_finite (R : Int) (h0 : R ≠ 0) (hR : |R| ≤ 2 ^ 31) :
    ∃ r : ℚ, Float32.ofInt R = Float32.finite r ∧ r ≠ 0 := by
  have hx : (R : ℚ) ≠ 0 := by exact_mod_cast h0
  obtain ⟨hl0, hl1⟩ := log2_floor_int_range R h0 hR
  obtain ⟨hb1, hb2⟩ := round_binary_abs_bounds 24 (-126) (R : ℚ) hx (by norm_num) (by omega)
  have hupper : |round_binary 24 (-126) (R : ℚ)| ≤ (2 : ℚ) ^ (32 : Int) :=
    le_trans hb2 (zpow_le_zpow_right₀ (by norm_num) (by omega))
  have hlower : (0 : ℚ) < |round_binary 24 (-126) (R : ℚ)| :=
    lt_of_lt_of_le (zpow_pos (by norm_num) _) hb1
  have h32 : (2 : ℚ) ^ (32 : Int) < 2 ^ 128 := by norm_num
  rw [abs_le] at hupper
  refine ⟨round_binary 24 (-126) (R : ℚ), ?_, abs_pos.mp hlower⟩
  unfold Float32.ofInt Float32.ofRat
  rw [if_neg (by linarith), if_neg (by linarith)]

/-- Zero is a `float`. -/
theorem Float32.ofRat_zero : Float32.ofRat 0 = Float32.finite 0 := by
  unfold Float32.ofRat
  rw [round_binary_zero]
  norm_num

/-- A number that is not positive converts to a `float` that is not above zero. -/
theorem Float32.ofRat_not_pos (x : ℚ) (h : x ≤ 0) : ¬ (Float32.ofRat x > Float32.ofInt 0) := by
  have h0 : Float32.ofInt 0 = Float32.finite 0 := by
    unfold Float32.ofInt
    rw [Int.cast_zero]
    exact Float32.ofRat_zero
  rw [h0]
  have hr := round_binary_nonpos 24 (-126) x h
  show ¬ (Float32.blt (Float32.finite 0) (Float32.ofRat x) = true)
  unfold Float32.ofRat
  split_ifs with h1 h2
  · exfalso
    have : (0 : ℚ) < 2 ^ 128 := by norm_num
    linarith
  · simp [Float32.blt]
  · simp [Float32.blt, hr]
/-- An `int` of at most 24 bits is converted to `float` without rounding. -/
theorem Float32.ofInt_exact (R : Int) (hR : |R| ≤ 2 ^ 24) : Float32.ofInt R = Float32.finite R := by
  have h2 : (0 : ℚ) < 2 := by norm_num
  by_cases h0 : R = 0
  · rw [h0]
    unfold Float32.ofInt
    rw [Int.cast_zero]
    exact Float32.ofRat_zero
  have hx : (R : ℚ) ≠ 0 := by exact_mod_cast h0
  obtain ⟨hl0, -⟩ := log2_floor_int_range R h0 (le_trans hR (by norm_num))
  obtain ⟨hs1, -⟩ := log2_floor_spec |(R : ℚ)| (abs_pos.mpr hx)
  have hle : |(R : ℚ)| ≤ (2 : ℚ) ^ (24 : Int) := by
    have : ((|R| : Int) : ℚ) ≤ (((2 : Int) ^ 24 : Int) : ℚ) := by exact_mod_cast hR
    push_cast at this
    exact_mod_cast this
  have hl24 : log2_floor |(R : ℚ)| ≤ 24 :=
    (zpow_le_zpow_iff_right₀ (by norm_num : (1 : ℚ) < 2)).mp (le_trans hs1 hle)
  have hmax : max (log2_floor |(R : ℚ)|) (-126) = log2_floor |(R : ℚ)| := max_eq_left (by omega)
  have hfix : round_binary 24 (-126) (R : ℚ) = (R : ℚ) := by
    rcases eq_or_lt_of_le hl24 with h24 | h24
    · have habs : |(R : ℚ)| = (2 : ℚ) ^ (24 : Int) := by
        rw [h24] at hs1
        exact le_antisymm hle hs1
      have habsR : |R| = 2 ^ 24 := by
        have : ((|R| : Int) : ℚ) = (((2 : Int) ^ 24 : Int) : ℚ) := by
          push_cast
          exact_mod_cast habs
        exact_mod_cast this
      have hdvd : (2 : Int) ∣ R := (dvd_abs 2 R).mp (by rw [habsR]; norm_num)
      obtain ⟨m, hm⟩ := hdvd
      apply round_binary_fixed 24 (-126) (R : ℚ) m
      rw [hmax, h24, hm]
      push_cast
      norm_num
      ring
    · obtain ⟨j, hj⟩ := Int.le.dest (show log2_floor |(R : ℚ)| ≤ 23 by omega)
      apply round_binary_fixed 24 (-126) (R : ℚ) (R * 2 ^ j)
      rw [hmax]
      have hk : log2_floor |(R : ℚ)| - ((24 - 1 : Nat) : Int) = -(j : Int) := by
        norm_num
        omega
      rw [hk, zpow_neg, zpow_natCast]
      push_cast
      field_simp
  have hup : |(R : ℚ)| < 2 ^ 128 := lt_of_le_of_lt hle (by norm_num)
  rw [abs_lt] at hup
  unfold Float32.ofInt Float32.ofRat
  rw [hfix, if_neg (by linarith), if_neg (by linarith)]

/-! ## Classification (`check_file`) -/

set_option maxHeartbeats 4000000 in
/-- After a `check_file` that returned `yes` the flags are one of the four
patterns list, sinogram, normalization (with geometry), geometry. -/
theorem check_file_yes_flags (w : Wrapper) (h : (check_file w).1 = Except.ok Succeeded.yes) :
    (check_file w).2.flags = (true, false, false, false) ∨
    (check_file w).2.flags = (false, true, false, false) ∨
    (check_file w).2.flags = (false, false, true, true) ∨
    (check_file w).2.flags = (false, false, true, false) := by
  revert h
  cases hopen : w.file.id_open
  · simp [Bind.bind, Pure.pure, check_file, check_GE_signature, hopen]
  rcases h1 : w.file.lookup "/HeaderData/ExamData/manufacturer" with _ | (_|_|_|_|s|_) <;>
    try (simp [Bind.bind, Pure.pure, check_file, check_GE_signature, hopen, h1]; done)
  by_cases hs : s = "GE MEDICAL SYSTEMS"
  swap
  · simp [Bind.bind, Pure.pure, check_file, check_GE_signature, hopen, h1, hs]
  rcases h2 : w.file.lookup "/HeaderData/RDFConfiguration/fileVersion/majorVersion" with _ | (_|v|_|_|_|_) <;>
    try (simp [Bind.bind, Pure.pure, check_file, check_GE_signature, hopen, h1, hs, h2]; done)
  by_cases hv : v % 4294967296 = 9
  swap
  · simp [Bind.bind, Pure.pure, check_file, check_GE_signature, hopen, h1, hs, h2, hv]
  rcases h3 : w.file.lookup "/HeaderData/RDFConfiguration/isListFile" with _ | (_|l|_|_|_|_) <;>
    try (simp [Bind.bind, Pure.pure, check_file, check_GE_signature, is_list_file, hopen, h1, hs, h2, hv, h3]; done)
  by_cases hl : l % 4294967296 = 0
  swap
  · rcases h4 : w.file.lookup "/HeaderData/ListHeader/isListCompressed" with _ | (_|c|_|_|_|_) <;>
      try (simp [Bind.bind, Pure.pure, check_file, check_GE_signature, is_list_file, hopen, h1, hs, h2, hv, h3, hl, h4]; done)
    by_cases hc : c % 4294967296 = 0 <;>
      simp [Bind.bind, Pure.pure, check_file, check_GE_signature, is_list_file, Wrapper.flags, hopen, h1, hs, h2, hv, h3, hl, h4, hc]
  rcases h5 : w.file.lookup "/SegmentData/Segment2" with _ | o5
  swap
  · simp [Bind.bind, Pure.pure, check_file, check_GE_signature, is_list_file, is_sino_file, Wrapper.flags,
      hopen, h1, hs, h2, hv, h3, hl, h5]
  rcases h6 : w.file.lookup "/3DCrystalEfficiency/crystalEfficiency" with _ | o6
  swap
  · rcases h7 : w.file.lookup "/HeaderData/Sorter/Segment4/dimension3Size" with _ | (_|d|_|_|_|_) <;>
      try (simp [Bind.bind, Pure.pure, check_file, check_GE_signature, is_list_file, is_sino_file, is_norm_file,
        check_geo_type, Wrapper.flags, hopen, h1, hs, h2, hv, h3, hl, h5, h6, h7]; done)
    by_cases hd : 1 < d % 4294967296 <;>
      simp [Bind.bind, Pure.pure, check_file, check_GE_signature, is_list_file, is_sino_file, is_norm_file,
        check_geo_type, Wrapper.flags, hopen, h1, hs, h2, hv, h3, hl, h5, h6, h7, hd]
  rcases h8 : w.file.lookup "/SegmentData/Segment4/3D_Norm_Correction/slice1" with _ | o8
  · simp [Bind.bind, Pure.pure, check_file, check_GE_signature, is_list_file, is_sino_file, is_norm_file, is_geo_file,
      Wrapper.flags, hopen, h1, hs, h2, hv, h3, hl, h5, h6, h8]
  · rcases h7 : w.file.lookup "/HeaderData/Sorter/Segment4/dimension3Size" with _ | (_|d|_|_|_|_) <;>
      try (simp [Bind.bind, Pure.pure, check_file, check_GE_signature, is_list_file, is_sino_file, is_norm_file,
        is_geo_file, check_geo_type, Wrapper.flags, hopen, h1, hs, h2, hv, h3, hl, h5, h6, h7, h8]; done)
    by_cases hd : 1 < d % 4294967296 <;>
      simp [Bind.bind, Pure.pure, check_file, check_GE_signature, is_list_file, is_sino_file, is_norm_file,
        is_geo_file, check_geo_type, Wrapper.flags, hopen, h1, hs, h2, hv, h3, hl, h5, h6, h7, h8, hd]

/-- C1. Whenever `check_file` returns `yes`, exactly one of `is_list`, `is_sino`,
`is_geo or is_norm` is set afterwards, at most one of `is_list`, `is_sino`,
`is_geo and not is_norm` is set, and `is_norm` implies `is_geo`. -/
theorem check_file_classification_invariant (w : Wrapper)
    (h : (check_file w).1 = Except.ok Succeeded.yes) :
    [(check_file w).2.is_list, (check_file w).2.is_sino,
      (check_file w).2.is_geo || (check_file w).2.is_norm].count true = 1 ∧
    [(check_file w).2.is_list, (check_file w).2.is_sino,
      (check_file w).2.is_geo && !(check_file w).2.is_norm].count true ≤ 1 ∧
    ((check_file w).2.is_norm = true → (check_file w).2.is_geo = true) := by
  rcases check_file_yes_flags w h with hf | hf | hf | hf <;>
    simp only [Wrapper.flags, Prod.mk.injEq] at hf <;>
    obtain ⟨a, b, c, d⟩ := hf <;>
    simp [a, b, c, d]

/-- C1, on a normalization file opened by a wrapper whose flags held other values. -/
theorem check_file_classification_invariant_witness :
    [(check_file (Wrapper.fresh exampleNormFile true true false false)).2.is_list,
      (check_file (Wrapper.fresh exampleNormFile true true false false)).2.is_sino,
      (check_file (Wrapper.fresh exampleNormFile true true false false)).2.is_geo ||
        (check_file (Wrapper.fresh exampleNormFile true true false false)).2.is_norm].count true = 1 ∧
    [(check_file (Wrapper.fresh exampleNormFile true true false false)).2.is_list,
      (check_file (Wrapper.fresh exampleNormFile true true false false)).2.is_sino,
      (check_file (Wrapper.fresh exampleNormFile true true false false)).2.is_geo &&
        !(check_file (Wrapper.fresh exampleNormFile true true false false)).2.is_norm].count true ≤ 1 ∧
    ((check_file (Wrapper.fresh exampleNormFile true true false false)).2.is_norm = true →
      (check_file (Wrapper.fresh exampleNormFile true true false false)).2.is_geo = true) :=
  check_file_classification_invariant (Wrapper.fresh exampleNormFile true true false false) (by decide)

set_option maxHeartbeats 4000000 in
/-- C2. On a signed version-9 file, whatever the flags were before the call,
`check_file` sets the flags by the first matching probe in the order list,
sinogram, normalization, geometry: a non-zero `isListFile` with an uncompressed
payload gives `is_list` only; `isListFile = 0` and `Segment2` present gives
`is_sino` only; otherwise `crystalEfficiency` present gives `is_norm` and `is_geo`
only; otherwise `3D_Norm_Correction/slice1` present gives `is_geo` only.  The
call returns `yes` (in the last two cases, when `dimension3Size` is readable). -/
theorem check_file_first_match (w : Wrapper) (hsig : w.file.signed_version9) :
    (∀ l, w.file.uint32_at "/HeaderData/RDFConfiguration/isListFile" = some l → l ≠ 0 →
      w.file.uint32_at "/HeaderData/ListHeader/isListCompressed" = some 0 →
        (check_file w).1 = Except.ok Succeeded.yes ∧
        (check_file w).2.flags = (true, false, false, false)) ∧
    (w.file.uint32_at "/HeaderData/RDFConfiguration/isListFile" = some 0 →
      w.file.has "/SegmentData/Segment2" = true →
        (check_file w).1 = Except.ok Succeeded.yes ∧
        (check_file w).2.flags = (false, true, false, false)) ∧
    (w.file.uint32_at "/HeaderData/RDFConfiguration/isListFile" = some 0 →
      w.file.has "/SegmentData/Segment2" = false →
      w.file.has "/3DCrystalEfficiency/crystalEfficiency" = true →
        (check_file w).2.flags = (false, false, true, true) ∧
        ((w.file.uint32_at "/HeaderData/Sorter/Segment4/dimension3Size").isSome = true →
          (check_file w).1 = Except.ok Succeeded.yes)) ∧
    (w.file.uint32_at "/HeaderData/RDFConfiguration/isListFile" = some 0 →
      w.file.has "/SegmentData/Segment2" = false →
      w.file.has "/3DCrystalEfficiency/crystalEfficiency" = false →
      w.file.has "/SegmentData/Segment4/3D_Norm_Correction/slice1" = true →
        (check_file w).2.flags = (false, false, true, false) ∧
        ((w.file.uint32_at "/HeaderData/Sorter/Segment4/dimension3Size").isSome = true →
          (check_file w).1 = Except.ok Succeeded.yes)) := by
  obtain ⟨hopen, hman, hver⟩ := hsig
  have h1 := H5File.str_at_some hman
  obtain ⟨v, h2, hv⟩ := H5File.uint32_at_some hver
  refine ⟨?_, ?_, ?_, ?_⟩
  · intro l hl hl0 hc
    obtain ⟨l', h3, hl'⟩ := H5File.uint32_at_some hl
    obtain ⟨c, h4, hc'⟩ := H5File.uint32_at_some hc
    have hl1 : ¬ l' % 4294967296 = 0 := by rw [hl']; exact hl0
    simp [Bind.bind, Pure.pure, check_file, check_GE_signature, is_list_file, Wrapper.flags,
      hopen, h1, h2, hv, h3, hl1, h4, hc']
  · intro hl hs
    obtain ⟨l', h3, hl'⟩ := H5File.uint32_at_some hl
    obtain ⟨o5, h5⟩ := H5File.has_true hs
    simp [Bind.bind, Pure.pure, check_file, check_GE_signature, is_list_file, is_sino_file, Wrapper.flags,
      hopen, h1, h2, hv, h3, hl', h5]
  · intro hl hs hn
    obtain ⟨l', h3, hl'⟩ := H5File.uint32_at_some hl
    have h5 := H5File.has_false hs
    obtain ⟨o6, h6⟩ := H5File.has_true hn
    rcases h7 : w.file.lookup "/HeaderData/Sorter/Segment4/dimension3Size" with _ | (_|d|_|_|_|_) <;>
      try (simp [Bind.bind, Pure.pure, check_file, check_GE_signature, is_list_file, is_sino_file,
        is_norm_file, check_geo_type, Wrapper.flags, H5File.uint32_at,
        hopen, h1, h2, hv, h3, hl', h5, h6, h7]; done)
    by_cases hd : 1 < d % 4294967296 <;>
      simp [Bind.bind, Pure.pure, check_file, check_GE_signature, is_list_file, is_sino_file,
        is_norm_file, check_geo_type, Wrapper.flags, H5File.uint32_at,
        hopen, h1, h2, hv, h3, hl', h5, h6, h7, hd]
  · intro hl hs hn hg
    obtain ⟨l', h3, hl'⟩ := H5File.uint32_at_some hl
    have h5 := H5File.has_false hs
    have h6 := H5File.has_false hn
    obtain ⟨o8, h8⟩ := H5File.has_true hg
    rcases h7 : w.file.lookup "/HeaderData/Sorter/Segment4/dimension3Size" with _ | (_|d|_|_|_|_) <;>
      try (simp [Bind.bind, Pure.pure, check_file, check_GE_signature, is_list_file, is_sino_file,
        is_norm_file, is_geo_file, check_geo_type, Wrapper.flags, H5File.uint32_at,
        hopen, h1, h2, hv, h3, hl', h5, h6, h7, h8]; done)
    by_cases hd : 1 < d % 4294967296 <;>
      simp [Bind.bind, Pure.pure, check_file, check_GE_signature, is_list_file, is_sino_file,
        is_norm_file, is_geo_file, check_geo_type, Wrapper.flags, H5File.uint32_at,
        hopen, h1, h2, hv, h3, hl', h5, h6, h7, h8, hd]

/-- C2 on the four example files, each opened with all four flags set beforehand. -/
theorem check_file_first_match_witness :
    (check_file (Wrapper.fresh exampleListFile true true true true)).2.flags = (true, false, false, false) ∧
    (check_file (Wrapper.fresh exampleSinoFile true true true true)).2.flags = (false, true, false, false) ∧
    (check_file (Wrapper.fresh exampleNormFile true true true true)).2.flags = (false, false, true, true) ∧
    (check_file (Wrapper.fresh exampleGeoFile true true true true)).2.flags = (false, false, true, false) :=
  ⟨((check_file_first_match (Wrapper.fresh exampleListFile true true true true) (by decide)).1
      1 (by decide) (by decide) (by decide)).2,
   ((check_file_first_match (Wrapper.fresh exampleSinoFile true true true true) (by decide)).2.1
      (by decide) (by decide)).2,
   ((check_file_first_match (Wrapper.fresh exampleNormFile true true true true) (by decide)).2.2.1
      (by decide) (by decide) (by decide)).1,
   ((check_file_first_match (Wrapper.fresh exampleGeoFile true true true true) (by decide)).2.2.2
      (by decide) (by decide) (by decide) (by decide)).1⟩

/-- C3 (what the code does). On a signed version-9 file that matches none of the
four probes `check_file` throws nothing: it returns `no`, with all flags cleared. -/
theorem check_file_no_match_returns_no (w : Wrapper) (hsig : w.file.signed_version9)
    (hl : w.file.uint32_at "/HeaderData/RDFConfiguration/isListFile" = some 0)
    (hs : w.file.has "/SegmentData/Segment2" = false)
    (hn : w.file.has "/3DCrystalEfficiency/crystalEfficiency" = false)
    (hg : w.file.has "/SegmentData/Segment4/3D_Norm_Correction/slice1" = false) :
    (check_file w).1 = Except.ok Succeeded.no ∧
    (check_file w).2.flags = (false, false, false, false) := by
  obtain ⟨hopen, hman, hver⟩ := hsig
  have h1 := H5File.str_at_some hman
  obtain ⟨v, h2, hv⟩ := H5File.uint32_at_some hver
  obtain ⟨l', h3, hl'⟩ := H5File.uint32_at_some hl
  have h5 := H5File.has_false hs
  have h6 := H5File.has_false hn
  have h8 := H5File.has_false hg
  simp [Bind.bind, Pure.pure, check_file, check_GE_signature, is_list_file, is_sino_file,
    is_norm_file, is_geo_file, Wrapper.flags, hopen, h1, h2, hv, h3, hl', h5, h6, h8]

/-- C3 on the example file without any payload: `check_file` returns `no`, and
`open`, which discards that status, goes on and returns `yes`. -/
theorem check_file_no_match_returns_no_witness :
    ((check_file (Wrapper.fresh exampleUnrecognizedFile false false false false)).1
        = Except.ok Succeeded.no ∧
      (check_file (Wrapper.fresh exampleUnrecognizedFile false false false false)).2.flags
        = (false, false, false, false)) ∧
    (GEHDF5Wrapper.open exampleEnv "unrecognized.RDF" exampleUnopened).1 = Except.ok Succeeded.yes :=
  ⟨check_file_no_match_returns_no (Wrapper.fresh exampleUnrecognizedFile false false false false)
      (by decide) (by decide) (by decide) (by decide) (by decide),
   by decide!⟩

/-- C4. `check_file` returns only on an open file whose manufacturer string is the
GE literal and whose major version is 9.  With another manufacturer string it
throws the not-GE error; on a signed file with another major version it throws
the version error, having accessed only the manufacturer and version datasets. -/
theorem check_file_requires_signature_and_version (w : Wrapper) :
    (∀ r, (check_file w).1 = Except.ok r → w.file.signed_version9) ∧
    (∀ s, w.file.id_open = true → w.file.str_at "/HeaderData/ExamData/manufacturer" = some s →
      s ≠ "GE MEDICAL SYSTEMS" →
        (check_file w).1 = Except.error (Err.stir "File is HDF5 but not GE data. Aborting")) ∧
    (∀ v, w.file.id_open = true →
      w.file.str_at "/HeaderData/ExamData/manufacturer" = some "GE MEDICAL SYSTEMS" →
      w.file.uint32_at "/HeaderData/RDFConfiguration/fileVersion/majorVersion" = some v → v ≠ 9 →
        (check_file w).1 = Except.error (Err.stir "Only RDF version 9 supported. Aborting") ∧
        (check_file w).2.probes = w.probes ++
          ["/HeaderData/ExamData/manufacturer", "/HeaderData/RDFConfiguration/fileVersion/majorVersion"]) := by
  refine ⟨?_, ?_, ?_⟩
  · intro r
    cases hopen : w.file.id_open
    · simp [Bind.bind, Pure.pure, check_file, check_GE_signature, hopen]
    rcases h1 : w.file.lookup "/HeaderData/ExamData/manufacturer" with _ | (_|_|_|_|s|_) <;>
      try (simp [Bind.bind, Pure.pure, check_file, check_GE_signature, hopen, h1]; done)
    by_cases hs : s = "GE MEDICAL SYSTEMS"
    swap
    · simp [Bind.bind, Pure.pure, check_file, check_GE_signature, hopen, h1, hs]
    rcases h2 : w.file.lookup "/HeaderData/RDFConfiguration/fileVersion/majorVersion"
      with _ | (_|v|_|_|_|_) <;>
      try (simp [Bind.bind, Pure.pure, check_file, check_GE_signature, hopen, h1, hs, h2]; done)
    by_cases hv : v % 4294967296 = 9
    swap
    · simp [Bind.bind, Pure.pure, check_file, check_GE_signature, hopen, h1, hs, h2, hv]
    intro _
    simp [H5File.signed_version9, H5File.str_at, H5File.uint32_at, hopen, h1, hs, h2, hv]
  · intro s hopen hman hs
    have h1 := H5File.str_at_some hman
    simp [Bind.bind, Pure.pure, check_file, check_GE_signature, hopen, h1, hs]
  · intro v hopen hman hver hv9
    have h1 := H5File.str_at_some hman
    obtain ⟨v', h2, hv'⟩ := H5File.uint32_at_some hver
    have hv1 : ¬ v' % 4294967296 = 9 := by rw [hv']; exact hv9
    simp [Bind.bind, Pure.pure, check_file, check_GE_signature, hopen, h1, h2, hv1]

/-- C4 on a lower-case manufacturer string, on a version-10 file and on the
list-mode example. -/
theorem check_file_requires_signature_and_version_witness :
    (check_file (Wrapper.fresh exampleLowerCaseFile false false false false)).1
      = Except.error (Err.stir "File is HDF5 but not GE data. Aborting") ∧
    ((check_file (Wrapper.fresh exampleVersion10File false false false false)).1
        = Except.error (Err.stir "Only RDF version 9 supported. Aborting") ∧
      (check_file (Wrapper.fresh exampleVersion10File false false false false)).2.probes
        = (Wrapper.fresh exampleVersion10File false false false false).probes ++
          ["/HeaderData/ExamData/manufacturer", "/HeaderData/RDFConfiguration/fileVersion/majorVersion"]) ∧
    (Wrapper.fresh exampleListFile false false false false).file.signed_version9 :=
  ⟨(check_file_requires_signature_and_version
      (Wrapper.fresh exampleLowerCaseFile false false false false)).2.1
      "ge medical systems" (by decide) (by decide) (by decide),
   (check_file_requires_signature_and_version
      (Wrapper.fresh exampleVersion10File false false false false)).2.2
      10 (by decide) (by decide) (by decide) (by decide),
   (check_file_requires_signature_and_version
      (Wrapper.fresh exampleListFile false false false false)).1 Succeeded.yes (by decide)⟩

/-- C5. On an open container whose manufacturer field holds the string `s`,
`check_GE_signature` returns, without throwing, `true` when `s` is exactly
`"GE MEDICAL SYSTEMS"` and `false` for every other string. -/
theorem check_GE_signature_iff (w : Wrapper) (s : String) (hopen : w.file.id_open = true)
    (h : w.file.str_at "/HeaderData/ExamData/manufacturer" = some s) :
    (check_GE_signature w).1 = Except.ok (decide (s = "GE MEDICAL SYSTEMS")) := by
  have h1 := H5File.str_at_some h
  by_cases hs : s = "GE MEDICAL SYSTEMS" <;>
    simp [Bind.bind, Pure.pure, check_GE_signature, hopen, h1, hs]

/-- C5 on the exact string, the lower-case string and the string with a trailing blank. -/
theorem check_GE_signature_iff_witness :
    (check_GE_signature (Wrapper.fresh exampleListFile false false false false)).1 = Except.ok true ∧
    (check_GE_signature (Wrapper.fresh exampleLowerCaseFile false false false false)).1 = Except.ok false ∧
    (check_GE_signature (Wrapper.fresh exampleTrailingBlankFile false false false false)).1
      = Except.ok false :=
  ⟨check_GE_signature_iff (Wrapper.fresh exampleListFile false false false false)
      "GE MEDICAL SYSTEMS" (by decide) (by decide),
   check_GE_signature_iff (Wrapper.fresh exampleLowerCaseFile false false false false)
      "ge medical systems" (by decide) (by decide),
   check_GE_signature_iff (Wrapper.fresh exampleTrailingBlankFile false false false false)
      "GE MEDICAL SYSTEMS " (by decide) (by decide)⟩

/-- C6. On a signed version-9 file whose `isListFile` reads non-zero, `check_file`
throws the compressed-list error when `isListCompressed` reads non-zero, and
returns `yes` with `is_list` set when it reads zero. -/
theorem check_file_compressed_list (w : Wrapper) (l c : Nat) (hsig : w.file.signed_version9)
    (hl : w.file.uint32_at "/HeaderData/RDFConfiguration/isListFile" = some l) (hl0 : l ≠ 0)
    (hc : w.file.uint32_at "/HeaderData/ListHeader/isListCompressed" = some c) :
    (c ≠ 0 → (check_file w).1 = Except.error (Err.stir
      "The RDF9 Listmode file is compressed, we won't be able to read it. Please uncompress it and retry. Aborting")) ∧
    (c = 0 → (check_file w).1 = Except.ok Succeeded.yes ∧ (check_file w).2.is_list = true) := by
  obtain ⟨hopen, hman, hver⟩ := hsig
  have h1 := H5File.str_at_some hman
  obtain ⟨v, h2, hv⟩ := H5File.uint32_at_some hver
  obtain ⟨l', h3, hl'⟩ := H5File.uint32_at_some hl
  obtain ⟨c', h4, hc'⟩ := H5File.uint32_at_some hc
  have hl1 : ¬ l' % 4294967296 = 0 := by rw [hl']; exact hl0
  constructor
  · intro hc0
    have hc1 : ¬ c' % 4294967296 = 0 := by rw [hc']; exact hc0
    simp [Bind.bind, Pure.pure, check_file, check_GE_signature, is_list_file,
      hopen, h1, h2, hv, h3, hl1, h4, hc1]
  · intro hc0
    have hc1 : c' % 4294967296 = 0 := by rw [hc']; exact hc0
    simp [Bind.bind, Pure.pure, check_file, check_GE_signature, is_list_file,
      hopen, h1, h2, hv, h3, hl1, h4, hc1]

/-- C6 on the list-mode example with `isListCompressed = 1` and with `isListCompressed = 0`. -/
theorem check_file_compressed_list_witness :
    (check_file (Wrapper.fresh exampleCompressedListFile false false false false)).1
      = Except.error (Err.stir
        "The RDF9 Listmode file is compressed, we won't be able to read it. Please uncompress it and retry. Aborting") ∧
    ((check_file (Wrapper.fresh exampleListFile false false false false)).1 = Except.ok Succeeded.yes ∧
      (check_file (Wrapper.fresh exampleListFile false false false false)).2.is_list = true) :=
  ⟨(check_file_compressed_list (Wrapper.fresh exampleCompressedListFile false false false false) 1 1
      (by decide) (by decide) (by decide) (by decide)).1 (by decide),
   (check_file_compressed_list (Wrapper.fresh exampleListFile false false false false) 1 0
      (by decide) (by decide) (by decide) (by decide)).2 rfl⟩

/-! ## List-mode initialisation -/

set_option maxHeartbeats 4000000 in
/-- C7. On a signed version-9 list-mode file (`isListFile` non-zero,
`isListCompressed = 0`) with `numValidSamples = n`, after `check_file`:
`is_list_file` returns `true`; if `n = 0`, `initialise_listmode_data` throws the
zero-samples error; if `n > 0` it sets `m_num_singles_samples` to `n`, and returns
`yes` when the payload `/ListData/listData` is a dataset of rank at most
`m_max_dataset_dims`. -/
theorem initialise_listmode_data_samples (env : Env) (w : Wrapper) (l n : Nat)
    (hsig : w.file.signed_version9)
    (hl : w.file.uint32_at "/HeaderData/RDFConfiguration/isListFile" = some l) (hl0 : l ≠ 0)
    (hc : w.file.uint32_at "/HeaderData/ListHeader/isListCompressed" = some 0)
    (hn : w.file.uint32_at "/HeaderData/SinglesHeader/numValidSamples" = some n) :
    (is_list_file (check_file w).2).1 = Except.ok true ∧
    (n = 0 → (initialise_listmode_data env (check_file w).2).1 = Except.error (Err.stir
      "Zero number of valid samples singles samples in data. Aborting")) ∧
    (0 < n →
      (initialise_listmode_data env (check_file w).2).2.m_num_singles_samples = n ∧
      ∀ dims data, w.file.lookup "/ListData/listData" = some (H5Object.array dims data) →
        dims.length ≤ env.m_max_dataset_dims →
          (initialise_listmode_data env (check_file w).2).1 = Except.ok Succeeded.yes) := by
  obtain ⟨hopen, hman, hver⟩ := hsig
  have h1 := H5File.str_at_some hman
  obtain ⟨v, h2, hv⟩ := H5File.uint32_at_some hver
  obtain ⟨l', h3, hl'⟩ := H5File.uint32_at_some hl
  obtain ⟨c', h4, hc'⟩ := H5File.uint32_at_some hc
  obtain ⟨n', h5, hn'⟩ := H5File.uint32_at_some hn
  have hl1 : ¬ l' % 4294967296 = 0 := by rw [hl']; exact hl0
  have hcf : check_file w = (Except.ok Succeeded.yes,
      { w with is_list := true, is_norm := false, is_geo := false, is_sino := false, rdf_ver := 9,
               probes := w.probes ++ ["/HeaderData/ExamData/manufacturer",
                 "/HeaderData/RDFConfiguration/fileVersion/majorVersion",
                 "/HeaderData/RDFConfiguration/isListFile",
                 "/HeaderData/ListHeader/isListCompressed"] }) := by
    simp [Bind.bind, Pure.pure, check_file, check_GE_signature, is_list_file,
      hopen, h1, h2, hv, h3, hl1, h4, hc']
  rw [hcf]
  refine ⟨?_, ?_, ?_⟩
  · simp [Bind.bind, Pure.pure, is_list_file]
  · intro hn0
    have hn1 : n' % 4294967296 = 0 := by rw [hn']; exact hn0
    simp [Bind.bind, Pure.pure, initialise_listmode_data, is_list_file, h5, hn1]
  · intro hn0
    have hn1 : ¬ n = 0 := by omega
    constructor
    · rcases h6 : w.file.lookup "/ListData/listData" with _ | o
      · simp [Bind.bind, Pure.pure, initialise_listmode_data, is_list_file, h5, hn1, h6, hn']
      · cases o with
        | array dims data =>
          by_cases hr : env.m_max_dataset_dims < dims.length <;>
            simp [Bind.bind, Pure.pure, initialise_listmode_data, is_list_file, h5, hn1, h6, hn',
              H5Object.getSimpleExtentDims, hr]
        | _ =>
          simp [Bind.bind, Pure.pure, initialise_listmode_data, is_list_file, h5, hn1, h6, hn',
            H5Object.getSimpleExtentDims]
    · intro dims data h6 hr
      have hr1 : ¬ env.m_max_dataset_dims < dims.length := by omega
      simp [Bind.bind, Pure.pure, initialise_listmode_data, is_list_file, h5, hn1, h6, hn',
        H5Object.getSimpleExtentDims, hr1]

/-- C7 with `numValidSamples = 1000` and with `numValidSamples = 0`. -/
theorem initialise_listmode_data_samples_witness :
    ((is_list_file (check_file (Wrapper.fresh exampleListFile false false false false)).2).1
        = Except.ok true ∧
      (initialise_listmode_data exampleEnv
          (check_file (Wrapper.fresh exampleListFile false false false false)).2).2.m_num_singles_samples
        = 1000 ∧
      (initialise_listmode_data exampleEnv
          (check_file (Wrapper.fresh exampleListFile false false false false)).2).1
        = Except.ok Succeeded.yes) ∧
    (initialise_listmode_data exampleEnv
        (check_file (Wrapper.fresh exampleEmptyListFile false false false false)).2).1
      = Except.error (Err.stir "Zero number of valid samples singles samples in data. Aborting") :=
  ⟨⟨(initialise_listmode_data_samples exampleEnv (Wrapper.fresh exampleListFile false false false false)
        1 1000 (by decide) (by decide) (by decide) (by decide) (by decide)).1,
     ((initialise_listmode_data_samples exampleEnv (Wrapper.fresh exampleListFile false false false false)
        1 1000 (by decide) (by decide) (by decide) (by decide) (by decide)).2.2 (by decide)).1,
     ((initialise_listmode_data_samples exampleEnv (Wrapper.fresh exampleListFile false false false false)
        1 1000 (by decide) (by decide) (by decide) (by decide) (by decide)).2.2 (by decide)).2
        [4096] [] (by decide) (by decide)⟩,
   (initialise_listmode_data_samples exampleEnv (Wrapper.fresh exampleEmptyListFile false false false false)
      1 0 (by decide) (by decide) (by decide) (by decide) (by decide)).2.1 rfl⟩

/-! ## The classification predicates called twice -/

/-- C8 (as stated) fails: on the sinogram example after `check_file`, the second
call of `is_list_file` accesses the container again. -/
theorem is_list_file_second_call_probes :
    ¬ second_call_same_without_probing is_list_file
        (check_file (Wrapper.fresh exampleSinoFile false false false false)).2 := by
  decide

/-- C8 (amended). For each of the four predicates and every wrapper state: a
second call returns what the first call returned; when the flag that the
predicate tests first is set, the call returns `true` and leaves the wrapper,
its access list included, unchanged; when that flag is clear and the file is
open, the second call accesses the container once more. -/
theorem is_file_predicates_called_twice (w : Wrapper) :
    ((is_list_file (is_list_file w).2).1 = (is_list_file w).1 ∧
      (is_sino_file (is_sino_file w).2).1 = (is_sino_file w).1 ∧
      (is_geo_file (is_geo_file w).2).1 = (is_geo_file w).1 ∧
      (is_norm_file (is_norm_file w).2).1 = (is_norm_file w).1) ∧
    ((w.is_list = true → is_list_file w = (Except.ok true, w)) ∧
      (w.is_sino = true → is_sino_file w = (Except.ok true, w)) ∧
      (w.is_geo = true ∨ w.is_norm = true → is_geo_file w = (Except.ok true, w)) ∧
      (w.is_norm = true → is_norm_file w = (Except.ok true, w))) ∧
    (w.file.id_open = true →
      (w.is_list = false → (is_list_file (is_list_file w).2).2.probes
        = (is_list_file w).2.probes ++ ["/HeaderData/RDFConfiguration/isListFile"]) ∧
      (w.is_sino = false → (is_sino_file (is_sino_file w).2).2.probes
        = (is_sino_file w).2.probes ++ ["/SegmentData/Segment2"]) ∧
      (w.is_geo = false → w.is_norm = false → (is_geo_file (is_geo_file w).2).2.probes
        = (is_geo_file w).2.probes ++ ["/SegmentData/Segment4/3D_Norm_Correction/slice1"]) ∧
      (w.is_norm = false → (is_norm_file (is_norm_file w).2).2.probes
        = (is_norm_file w).2.probes ++ ["/3DCrystalEfficiency/crystalEfficiency"])) := by
  refine ⟨⟨?_, ?_, ?_, ?_⟩, ⟨?_, ?_, ?_, ?_⟩, ?_⟩
  · cases hf : w.is_list <;> cases hopen : w.file.id_open <;>
      rcases h3 : w.file.lookup "/HeaderData/RDFConfiguration/isListFile" with _ | (_|_|_|_|_|_) <;>
      simp [Bind.bind, Pure.pure, is_list_file, hf, hopen, h3]
  · cases hf : w.is_sino <;> cases hopen : w.file.id_open <;>
      simp [Bind.bind, Pure.pure, is_sino_file, hf, hopen]
  · cases hf : w.is_geo <;> cases hg : w.is_norm <;> cases hopen : w.file.id_open <;>
      simp [Bind.bind, Pure.pure, is_geo_file, hf, hg, hopen]
  · cases hf : w.is_norm <;> cases hopen : w.file.id_open <;>
      simp [Bind.bind, Pure.pure, is_norm_file, hf, hopen]
  · intro hf
    simp [Bind.bind, Pure.pure, is_list_file, hf]
  · intro hf
    simp [Bind.bind, Pure.pure, is_sino_file, hf]
  · intro hf
    rcases hf with hf | hf <;> simp [Bind.bind, Pure.pure, is_geo_file, hf]
  · intro hf
    simp [Bind.bind, Pure.pure, is_norm_file, hf]
  · intro hopen
    refine ⟨?_, ?_, ?_, ?_⟩
    · intro hf
      rcases h3 : w.file.lookup "/HeaderData/RDFConfiguration/isListFile" with _ | (_|_|_|_|_|_) <;>
        simp [Bind.bind, Pure.pure, is_list_file, hf, hopen, h3]
    · intro hf
      simp [Bind.bind, Pure.pure, is_sino_file, hf, hopen]
    · intro hf hg
      simp [Bind.bind, Pure.pure, is_geo_file, hf, hg, hopen]
    · intro hf
      simp [Bind.bind, Pure.pure, is_norm_file, hf, hopen]

/-- C8 (amended) on the sinogram example after `check_file`: `is_sino_file`
answers from the flag, `is_list_file` reads `isListFile` on each call. -/
theorem is_file_predicates_called_twice_witness :
    is_sino_file (check_file (Wrapper.fresh exampleSinoFile false false false false)).2
      = (Except.ok true, (check_file (Wrapper.fresh exampleSinoFile false false false false)).2) ∧
    (is_list_file (is_list_file
        (check_file (Wrapper.fresh exampleSinoFile false false false false)).2).2).2.probes
      = (is_list_file (check_file (Wrapper.fresh exampleSinoFile false false false false)).2).2.probes
        ++ ["/HeaderData/RDFConfiguration/isListFile"] :=
  ⟨(is_file_predicates_called_twice
      (check_file (Wrapper.fresh exampleSinoFile false false false false)).2).2.1.2.1 (by decide),
   ((is_file_predicates_called_twice
      (check_file (Wrapper.fresh exampleSinoFile false false false false)).2).2.2 (by decide)).1
      (by decide)⟩

/-! ## Scanner resolution (`get_scanner_from_HDF5`) -/

set_option maxHeartbeats 4000000 in
/-- On a readable header the reading part returns the local variables `h.locals`
and only extends the access list. -/
theorem get_scanner_from_HDF5_read_run (w : Wrapper) (h : ScannerHeader)
    (hh : w.has_scanner_header h) :
    ∃ ps, get_scanner_from_HDF5_read w =
      (Except.ok h.locals, { w with probes := w.probes ++ ps }) := by
  obtain ⟨hopen, hver, h1, h2, h3, h4, h5, h6, h7, h8, h9, h10, h11, h12, h13, h14, h15, h16, h17, h18,
    h19, h20⟩ := hh
  cases hsino : w.is_sino <;> cases hseg : w.file.lookup "/SegmentData/Segment2" <;>
    simp [H5File.has, hsino, hseg] at h13 <;>
    simp [Bind.bind, Pure.pure, get_scanner_from_HDF5_read, is_sino_file, ScannerHeader.locals,
      hopen, hver, hsino, hseg,
      h1, h2, h3, h4, h5, h6, h7, h8, h9, h10, h11, h12, h13, h14, h15, h16, h17, h18, h19]

/-- With a readable `isListFile` dataset, `is_list_file` returns the flag or the
dataset value and only extends the access list. -/
theorem is_list_file_run (w : Wrapper) (l : Nat) (hopen : w.file.id_open = true)
    (hl : w.file.lookup "/HeaderData/RDFConfiguration/isListFile" = some (H5Object.uint32 l)) :
    ∃ ps, is_list_file w =
      (Except.ok (w.is_list || l % 2 ^ 32 != 0), { w with probes := w.probes ++ ps }) := by
  cases hf : w.is_list
  · exact ⟨["/HeaderData/RDFConfiguration/isListFile"], by
      simp [Bind.bind, Pure.pure, is_list_file, hf, hopen, hl]⟩
  · refine ⟨[], ?_⟩
    have hrun : is_list_file w = (Except.ok true, w) := by
      simp [Bind.bind, Pure.pure, is_list_file, hf]
    rw [hrun]
    cases w
    simp_all

/-- The setters of lines 360 to 371 compute `set_scanner`. -/
theorem get_scanner_from_HDF5_set_run (v : ScannerLocals) (scanner : Scanner) (w : Wrapper) (l : Nat)
    (hopen : w.file.id_open = true)
    (hl : w.file.lookup "/HeaderData/RDFConfiguration/isListFile" = some (H5Object.uint32 l)) :
    ∃ ps, get_scanner_from_HDF5_set v scanner w =
      (Except.ok (set_scanner v (w.is_list || l % 2 ^ 32 != 0) scanner),
        { w with probes := w.probes ++ ps }) := by
  obtain ⟨ps, hps⟩ := is_list_file_run w l hopen hl
  refine ⟨ps, ?_⟩
  cases hf : w.is_list <;> by_cases hl0 : l % 4294967296 = 0 <;>
    simp [Bind.bind, Pure.pure, get_scanner_from_HDF5_set, set_scanner, hps, hf, hl0]

/-- Lines 373 to 382 compute `adjust_ring_radius` and warn when they override. -/
theorem get_scanner_from_HDF5_ring_radius_run (d : Float32) (scanner : Scanner) (w : Wrapper) :
    get_scanner_from_HDF5_ring_radius d scanner w =
      (Except.ok (adjust_ring_radius d scanner),
        { w with warnings := w.warnings ++
            if Float32.abs (scanner.get_effective_ring_radius - d / Float32.ofInt 2) > Float32.tenth
              then [Warning.effective_ring_radius] else [] }) := by
  unfold get_scanner_from_HDF5_ring_radius adjust_ring_radius
  split_ifs <;> simp [Bind.bind, Pure.pure]

/-- Lines 383 to 390 compute `adjust_timing_resolution` and warn when they override. -/
theorem get_scanner_from_HDF5_timing_resolution_run (t : Float32) (scanner : Scanner) (w : Wrapper) :
    get_scanner_from_HDF5_timing_resolution t scanner w =
      (Except.ok (adjust_timing_resolution t scanner),
        { w with warnings := w.warnings ++
            if t > Float32.ofInt 0 ∧ Float32.abs (scanner.timing_resolution - t) > Float32.tenth
              then [Warning.timing_resolution] else [] }) := by
  unfold get_scanner_from_HDF5_timing_resolution adjust_timing_resolution
  split_ifs <;> simp [Bind.bind, Pure.pure]

/-- Lines 391 to 397 compute `adjust_size_of_timing_pos` and warn when they override. -/
theorem get_scanner_from_HDF5_size_of_timing_pos_run (m : Float32) (scanner : Scanner) (w : Wrapper) :
    get_scanner_from_HDF5_size_of_timing_pos m scanner w =
      (Except.ok (adjust_size_of_timing_pos m scanner),
        { w with warnings := w.warnings ++
            if Float32.abs (scanner.size_of_timing_pos - m) > Float32.tenth
              then [Warning.size_of_timing_pos] else [] }) := by
  unfold get_scanner_from_HDF5_size_of_timing_pos adjust_size_of_timing_pos
  split_ifs <;> simp [Bind.bind, Pure.pure]

/-- Lines 398 to 404 compute `adjust_max_num_timing_poss` and warn when they override. -/
theorem get_scanner_from_HDF5_max_num_timing_poss_run (n : Int) (scanner : Scanner) (w : Wrapper) :
    get_scanner_from_HDF5_max_num_timing_poss n scanner w =
      (Except.ok (adjust_max_num_timing_poss n scanner),
        { w with warnings := w.warnings ++
            if wrap_int32 |wrap_int32 (scanner.max_num_timing_poss - n)| > 0
              then [Warning.max_num_timing_poss] else [] }) := by
  unfold get_scanner_from_HDF5_max_num_timing_poss adjust_max_num_timing_poss
  split_ifs <;> simp [Bind.bind, Pure.pure]

/-- Lines 405 to 416 only append warnings. -/
theorem get_scanner_from_HDF5_warn_not_set_run (scanner : Scanner) (w : Wrapper) :
    get_scanner_from_HDF5_warn_not_set scanner w =
      (Except.ok (),
        { w with warnings := w.warnings ++
            ((if scanner.default_bin_size ≤ Float32.ofRat 0
                then [Warning.default_bin_size_not_set] else []) ++
             (if scanner.default_num_arccorrected_bins ≤ 0
                then [Warning.default_num_arccorrected_bins_not_set] else []) ++
             (if scanner.energy_resolution ≤ Float32.ofInt 0
                then [Warning.energy_resolution_not_set] else [])) }) := by
  unfold get_scanner_from_HDF5_warn_not_set
  split_ifs <;> simp [Bind.bind, Pure.pure]

set_option maxHeartbeats 4000000 in
/-- On a readable header whose scanner name is in the catalog,
`get_scanner_from_HDF5` returns `resolved_scanner`, emits `resolved_warnings`,
and changes nothing else in the wrapper but the access list. -/
theorem get_scanner_from_HDF5_run (env : Env) (w : Wrapper) (h : ScannerHeader) (cat : Scanner)
    (hh : w.has_scanner_header h)
    (hcat : env.get_scanner_from_name h.scannerDesc = some cat) :
    ∃ ps, get_scanner_from_HDF5 env w =
      (Except.ok (resolved_scanner h.locals (w.is_list || h.isListFile % 2 ^ 32 != 0) cat),
        { w with
          probes := w.probes ++ ps,
          warnings := w.warnings ++
            resolved_warnings h.locals (w.is_list || h.isListFile % 2 ^ 32 != 0) cat }) := by
  obtain ⟨ps1, hread⟩ := get_scanner_from_HDF5_read_run w h hh
  have hopen := hh.1
  have hl := hh.2.2.2.2.2.2.2.2.2.2.2.2.2.2.2.2.2.2.2.2.2
  obtain ⟨ps2, hset⟩ := get_scanner_from_HDF5_set_run h.locals cat
    { w with probes := w.probes ++ ps1 } h.isListFile hopen hl
  refine ⟨ps1 ++ ps2, ?_⟩
  have hname : h.locals.read_str_scanner = h.scannerDesc := rfl
  simp only [get_scanner_from_HDF5, Bind.bind, M.bind, hread, hname, hcat, hset,
    get_scanner_from_HDF5_ring_radius_run, get_scanner_from_HDF5_timing_resolution_run,
    get_scanner_from_HDF5_size_of_timing_pos_run, get_scanner_from_HDF5_max_num_timing_poss_run,
    get_scanner_from_HDF5_warn_not_set_run, Pure.pure, M.pure]
  simp [resolved_scanner, resolved_warnings, List.append_assoc]

/-- Occurrences of a warning in the list holding at most one other warning. -/
theorem count_ite_singleton (c : Prop) [Decidable c] (x y : Warning) :
    (if c then [y] else []).count x = if c ∧ y = x then 1 else 0 := by
  by_cases hc : c <;> by_cases hxy : y = x <;> simp [hc, hxy, List.count_cons]

/-- A sequence that returns has a first part that returned. -/
theorem M.bind_ok_inv {α β : Type} {m : M α} {k : α → M β} {w w2 : Wrapper} {b : β}
    (h : M.bind m k w = (Except.ok b, w2)) :
    ∃ a w1, m w = (Except.ok a, w1) ∧ k a w1 = (Except.ok b, w2) := by
  unfold M.bind at h
  split at h
  · next a w1 heq => exact ⟨a, w1, heq, h⟩
  · next e w1 heq => simp at h

/-- A `read_string` that returns has read a string dataset. -/
theorem read_string_ok_inv {path s : String} {w w1 : Wrapper}
    (h : read_string path w = (Except.ok s, w1)) : w.file.str_at path = some s := by
  rcases hl : w.file.lookup path with _ | (_|_|_|_|_|_) <;>
    simp [Bind.bind, Pure.pure, hl] at h
  simp [H5File.str_at, hl, h.1]

/-- What holds of every value the continuation returns holds of every value the
sequence returns. -/
theorem M.bind_returns {α β : Type} {m : M α} {k : α → M β} {P : β → Prop}
    (hk : ∀ a v w1 w, k a w = (Except.ok v, w1) → P v) :
    ∀ v w1 w, M.bind m k w = (Except.ok v, w1) → P v := by
  intro v w1 w h
  obtain ⟨a, w0, -, h2⟩ := M.bind_ok_inv h
  exact hk a v w1 w0 h2

/-- What holds of the values both branches return holds of the values the
conditional returns. -/
theorem M.ite_returns {β : Type} {c : Prop} [Decidable c] {A B : M β} {P : β → Prop}
    (hA : ∀ v w1 w, A w = (Except.ok v, w1) → P v)
    (hB : ∀ v w1 w, B w = (Except.ok v, w1) → P v) :
    ∀ v w1 w, (if c then A else B) w = (Except.ok v, w1) → P v := by
  intro v w1 w h
  split at h
  · exact hA v w1 w h
  · exact hB v w1 w h

/-- The value that `pure a` returns is `a`. -/
theorem M.pure_returns {β : Type} {a : β} {P : β → Prop} (ha : P a) :
    ∀ v w1 w, M.pure a w = (Except.ok v, w1) → P v := by
  intro v w1 w h
  simp [M.pure] at h
  exact h.1 ▸ ha

/-- Whenever the reading part returns, the scanner name among its local variables
is the string stored in `scannerDesc`. -/
theorem get_scanner_from_HDF5_read_name (w : Wrapper) (v : ScannerLocals) (w1 : Wrapper)
    (h : get_scanner_from_HDF5_read w = (Except.ok v, w1)) :
    w.file.str_at "/HeaderData/ExamData/scannerDesc" = some v.read_str_scanner := by
  unfold get_scanner_from_HDF5_read at h
  simp only [Bind.bind, Pure.pure] at h
  obtain ⟨name, w0, hname, h2⟩ := M.bind_ok_inv h
  rw [read_string_ok_inv hname]
  clear hname h
  revert v w1 w0
  repeat (first
    | (apply M.bind_returns; intro _)
    | apply M.ite_returns
    | (apply M.pure_returns; rfl)
    | (intro v w1 w; split <;> revert v w1 w))

/-- C10. When the scanner name stored in the file is not in the catalog,
`get_scanner_from_HDF5` returns no scanner, whatever else the file holds; when the
header is readable the exception it throws is the unsupported-scanner error
naming that scanner. -/
theorem get_scanner_from_HDF5_unknown_scanner (env : Env) (w : Wrapper) (name : String)
    (hname : w.file.str_at "/HeaderData/ExamData/scannerDesc" = some name)
    (hcat : env.get_scanner_from_name name = none) :
    (∀ s, (get_scanner_from_HDF5 env w).1 ≠ Except.ok s) ∧
    (∀ h, w.has_scanner_header h →
      (get_scanner_from_HDF5 env w).1 = Except.error (Err.stir
        ("Scanner read from RDF file is " ++ name ++ ", but this is not supported yet"))) := by
  constructor
  · intro s hs
    rcases hr : get_scanner_from_HDF5_read w with ⟨r, w1⟩
    cases r with
    | error e =>
      simp [get_scanner_from_HDF5, Bind.bind, hr] at hs
    | ok v =>
      have hv := get_scanner_from_HDF5_read_name w v w1 hr
      rw [hname] at hv
      have hv2 : v.read_str_scanner = name := (Option.some.inj hv).symm
      simp [get_scanner_from_HDF5, Bind.bind, hr, hv2, hcat] at hs
  · intro h hh
    obtain ⟨ps, hread⟩ := get_scanner_from_HDF5_read_run w h hh
    have h1 := hh.2.2.1
    have hn : h.scannerDesc = name := by
      simp [H5File.str_at, h1] at hname
      exact hname
    have hloc : h.locals.read_str_scanner = name := hn
    simp [get_scanner_from_HDF5, Bind.bind, hread, hloc, hcat]

/-- C10 on the sinogram example with an empty catalog. -/
theorem get_scanner_from_HDF5_unknown_scanner_witness :
    (∀ s, (get_scanner_from_HDF5 exampleEnvWithoutCatalog exampleClassifiedSino).1 ≠ Except.ok s) ∧
    (get_scanner_from_HDF5 exampleEnvWithoutCatalog exampleClassifiedSino).1 = Except.error (Err.stir
        ("Scanner read from RDF file is " ++ "GE Signa PET/MR" ++ ", but this is not supported yet")) :=
  ⟨(get_scanner_from_HDF5_unknown_scanner exampleEnvWithoutCatalog exampleClassifiedSino
      "GE Signa PET/MR" (by decide) (by rfl)).1,
   (get_scanner_from_HDF5_unknown_scanner exampleEnvWithoutCatalog exampleClassifiedSino
      "GE Signa PET/MR" (by decide) (by rfl)).2 exampleScannerHeader (by decide!)⟩

/-! ## Copy loops of the readers -/

/-- A loop nest is one loop over the pairs of indices. -/
theorem foldl_nested {α β γ : Type} (l1 : List α) (l2 : List β) (F : γ → α → β → γ) (init : γ) :
    l1.foldl (fun o a => l2.foldl (fun o b => F o a b) o) init =
      (l1.flatMap fun a => l2.map fun b => (a, b)).foldl (fun o p => F o p.1 p.2) init := by
  induction l1 generalizing init with
  | nil => rfl
  | cons a t ih =>
    simp only [List.foldl_cons, List.flatMap_cons, List.foldl_append, List.foldl_map]
    exact ih _

/-- Assignments do not resize. -/
theorem Array1.foldl_assign_size {α : Type} (l : List α) (key : α → Nat) (val : α → ℚ) (out : Array1) :
    (l.foldl (fun o b => o.assign (key b) (val b)) out).size = out.size := by
  induction l generalizing out with
  | nil => rfl
  | cons a t ih => simp only [List.foldl_cons]; rw [ih]; rfl

/-- An element that holds `v` keeps it when every later write to it writes `v`. -/
theorem Array1.foldl_assign_keep {α : Type} (l : List α) (key : α → Nat) (val : α → ℚ) (out : Array1)
    (x : Nat) (v : ℚ) (h0 : out.elem x = v) (h : ∀ b ∈ l, key b = x → val b = v) :
    (l.foldl (fun o b => o.assign (key b) (val b)) out).elem x = v := by
  induction l generalizing out with
  | nil => exact h0
  | cons a t ih =>
    simp only [List.foldl_cons]
    apply ih
    · by_cases hk : x = key a
      · simp [Array1.assign, hk]
        exact h a (List.mem_cons_self _ _) hk.symm
      · simp [Array1.assign, hk, h0]
    · intro b hb
      exact h b (List.mem_cons_of_mem _ hb)

/-- An element written in the loop holds the value written, when all writes to it agree. -/
theorem Array1.foldl_assign_elem {α : Type} (l : List α) (key : α → Nat) (val : α → ℚ) (out : Array1)
    (x : Nat) (a : α) (ha : a ∈ l) (hk : key a = x) (h : ∀ b ∈ l, key b = x → val b = val a) :
    (l.foldl (fun o b => o.assign (key b) (val b)) out).elem x = val a := by
  induction l generalizing out with
  | nil => simp at ha
  | cons c t ih =>
    simp only [List.foldl_cons]
    by_cases hc : key c = x
    · apply Array1.foldl_assign_keep
      · simp [Array1.assign, hc]
        exact h c (List.mem_cons_self _ _) hc
      · intro b hb
        exact h b (List.mem_cons_of_mem _ hb)
    · have ha2 : a ∈ t := by
        rcases List.mem_cons.mp ha with rfl | h2
        · exact absurd hk hc
        · exact h2
      exact ih _ ha2 (fun b hb => h b (List.mem_cons_of_mem _ hb))

/-- Rows do not overlap. -/
theorem row_index_unique (N a a0 r r0 : Nat) (hr : r < N) (hr0 : r0 < N)
    (h : a * N + r = a0 * N + r0) : a = a0 ∧ r = r0 := by
  have h1 : a = a0 := by
    rcases Nat.lt_trichotomy a a0 with hlt | heq | hgt
    · have : (a + 1) * N ≤ a0 * N := Nat.mul_le_mul_right N hlt
      rw [Nat.add_mul] at this
      omega
    · exact heq
    · have : (a0 + 1) * N ≤ a * N := Nat.mul_le_mul_right N hgt
      rw [Nat.add_mul] at this
      omega
  subst h1
  exact ⟨rfl, by omega⟩

/-- The flip loop writes `raw[ax * N + (N - 1 - j)]` to `output[ax * N + j]`. -/
theorem flip_tangential_elem (R N : Nat) (raw : List ℚ) (out : Array1) (ax j : Nat)
    (hax : ax < R) (hj : j < N) :
    (flip_tangential R N raw out).elem (ax * N + j) = raw.getD (ax * N + (N - 1 - j)) 0 := by
  unfold flip_tangential
  rw [foldl_nested (List.range R) (List.range N)
    (fun o ax tan => o.assign (ax * N + ((N - 1) - tan)) (raw.getD (ax * N + tan) 0)) out]
  have key := Array1.foldl_assign_elem
    ((List.range R).flatMap fun a => (List.range N).map fun b => (a, b))
    (fun p : Nat × Nat => p.1 * N + ((N - 1) - p.2)) (fun p : Nat × Nat => raw.getD (p.1 * N + p.2) 0) out
    (ax * N + j) (ax, N - 1 - j)
  simp only at key
  apply key
  · simp only [List.mem_flatMap, List.mem_range, List.mem_map, Prod.mk.injEq]
    exact ⟨ax, hax, N - 1 - j, by omega, rfl, rfl⟩
  · congr 1
    omega
  · intro b hb hkb
    simp only [List.mem_flatMap, List.mem_range, List.mem_map] at hb
    obtain ⟨a, ha, t, ht, rfl⟩ := hb
    simp only at hkb ⊢
    obtain ⟨h1, h2⟩ := row_index_unique N a ax (N - 1 - t) j (by omega) hj hkb
    subst h1
    congr 1
    omega

/-- The flip loop does not resize the output. -/
theorem flip_tangential_size (R N : Nat) (raw : List ℚ) (out : Array1) :
    (flip_tangential R N raw out).size = out.size := by
  unfold flip_tangential
  rw [foldl_nested (List.range R) (List.range N)
    (fun o ax tan => o.assign (ax * N + ((N - 1) - tan)) (raw.getD (ax * N + tan) 0)) out]
  exact Array1.foldl_assign_size _ (fun p : Nat × Nat => p.1 * N + ((N - 1) - p.2))
    (fun p : Nat × Nat => raw.getD (p.1 * N + p.2) 0) out

/-- An element that holds `v` keeps it when every later write to it writes `v`. -/
theorem Array3.foldl_assign3_keep {α : Type} (l : List α) (key : α → Nat × Nat × Nat) (val : α → ℚ)
    (out : Array3) (x : Nat × Nat × Nat) (v : ℚ) (h0 : out.elem x.1 x.2.1 x.2.2 = v)
    (h : ∀ b ∈ l, key b = x → val b = v) :
    (l.foldl (fun o b => o.assign (key b).1 (key b).2.1 (key b).2.2 (val b)) out).elem x.1 x.2.1 x.2.2
      = v := by
  induction l generalizing out with
  | nil => exact h0
  | cons a t ih =>
    simp only [List.foldl_cons]
    apply ih
    · by_cases hk : key a = x
      · have hv := h a (List.mem_cons_self _ _) hk
        subst hk
        simp [Array3.assign, hv]
      · have hne : ¬ (x.1 = (key a).1 ∧ x.2.1 = (key a).2.1 ∧ x.2.2 = (key a).2.2) := by
          rintro ⟨h1, h2, h3⟩
          exact hk (Prod.ext h1.symm (Prod.ext h2.symm h3.symm))
        simp [Array3.assign, hne, h0]
    · intro b hb
      exact h b (List.mem_cons_of_mem _ hb)

/-- An element written in the loop holds the value written, when all writes to it agree. -/
theorem Array3.foldl_assign3_elem {α : Type} (l : List α) (key : α → Nat × Nat × Nat) (val : α → ℚ)
    (out : Array3) (x : Nat × Nat × Nat) (a : α) (ha : a ∈ l) (hk : key a = x)
    (h : ∀ b ∈ l, key b = x → val b = val a) :
    (l.foldl (fun o b => o.assign (key b).1 (key b).2.1 (key b).2.2 (val b)) out).elem x.1 x.2.1 x.2.2
      = val a := by
  induction l generalizing out with
  | nil => simp at ha
  | cons c t ih =>
    simp only [List.foldl_cons]
    by_cases hc : key c = x
    · apply Array3.foldl_assign3_keep
      · have hv := h c (List.mem_cons_self _ _) hc
        subst hc
        simp [Array3.assign, hv]
      · intro b hb
        exact h b (List.mem_cons_of_mem _ hb)
    · have ha2 : a ∈ t := by
        rcases List.mem_cons.mp ha with rfl | h2
        · exact absurd hk hc
        · exact h2
      exact ih _ ha2 (fun b hb => h b (List.mem_cons_of_mem _ hb))

/-- Assignments keep the extents. -/
theorem Array3.foldl_assign3_extents {α : Type} (l : List α) (key : α → Nat × Nat × Nat) (val : α → ℚ)
    (out : Array3) :
    (l.foldl (fun o b => o.assign (key b).1 (key b).2.1 (key b).2.2 (val b)) out).n0 = out.n0 ∧
    (l.foldl (fun o b => o.assign (key b).1 (key b).2.1 (key b).2.2 (val b)) out).n1 = out.n1 ∧
    (l.foldl (fun o b => o.assign (key b).1 (key b).2.1 (key b).2.2 (val b)) out).n2 = out.n2 := by
  induction l generalizing out with
  | nil => exact ⟨rfl, rfl, rfl⟩
  | cons a t ih => simp only [List.foldl_cons]; exact ih _

/-- The copy loop of `read_sinogram` as one loop over the index triples. -/
theorem read_sinogram_copy_eq (NX NY NZ : Nat) (aux : List ℚ) (out : Array3) :
    read_sinogram_copy NX NY NZ aux out =
      ((List.range NZ).flatMap fun i =>
        ((List.range NY).flatMap fun j => (List.range NX).map fun k => (j, k)).map fun p => (i, p)).foldl
        (fun o p => o.assign p.1 p.2.1 p.2.2
          (aux.getD (((p.1 * NX * NY) % 2 ^ 32 + (p.2.1 * NX) % 2 ^ 32 + p.2.2) % 2 ^ 32) 0)) out := by
  unfold read_sinogram_copy
  simp only [foldl_nested]

/-- The copy loop of `read_sinogram` writes the buffer element at
`ioffset + joffset + k` to `output[i][j][k]`. -/
theorem read_sinogram_copy_elem (NX NY NZ : Nat) (aux : List ℚ) (out : Array3) (i j k : Nat)
    (hi : i < NZ) (hj : j < NY) (hk : k < NX) :
    (read_sinogram_copy NX NY NZ aux out).elem i j k =
      aux.getD (((i * NX * NY) % 2 ^ 32 + (j * NX) % 2 ^ 32 + k) % 2 ^ 32) 0 := by
  rw [read_sinogram_copy_eq]
  have key := Array3.foldl_assign3_elem
    ((List.range NZ).flatMap fun i =>
        ((List.range NY).flatMap fun j => (List.range NX).map fun k => (j, k)).map fun p => (i, p))
    (fun p : Nat × Nat × Nat => p)
    (fun p : Nat × Nat × Nat =>
      aux.getD (((p.1 * NX * NY) % 2 ^ 32 + (p.2.1 * NX) % 2 ^ 32 + p.2.2) % 2 ^ 32) 0)
    out (i, j, k) (i, j, k)
  simp only at key
  refine key ?_ trivial ?_
  · simp only [List.mem_flatMap, List.mem_range, List.mem_map]
    exact ⟨i, hi, (j, k), ⟨j, hj, k, hk, rfl⟩, rfl⟩
  · intro b _ hb
    rw [hb]

/-- The copy loop of `read_sinogram` keeps the extents of the output. -/
theorem read_sinogram_copy_extents (NX NY NZ : Nat) (aux : List ℚ) (out : Array3) :
    (read_sinogram_copy NX NY NZ aux out).n0 = out.n0 ∧
    (read_sinogram_copy NX NY NZ aux out).n1 = out.n1 ∧
    (read_sinogram_copy NX NY NZ aux out).n2 = out.n2 := by
  rw [read_sinogram_copy_eq]
  exact Array3.foldl_assign3_extents _ (fun p : Nat × Nat × Nat => p) _ out

/-! ## Selection checks of the readers -/

/-- The kind test of `read_sinogram` passes without touching the wrapper when the flag is set. -/
theorem is_sino_file_flag (w : Wrapper) (h : w.is_sino = true) :
    is_sino_file w = (Except.ok true, w) := by
  simp [is_sino_file, Bind.bind, Pure.pure, h]

/-- The kind test of `read_efficiency_factors` passes without touching the wrapper when the
flag is set. -/
theorem is_norm_file_flag (w : Wrapper) (h : w.is_norm = true) :
    is_norm_file w = (Except.ok true, w) := by
  simp [is_norm_file, Bind.bind, Pure.pure, h]

/-- The hyperslab read throws only the error of the container library. -/
theorem read_hyperslab_no_stir (offset count : List Nat) (w : Wrapper) (msg : String) :
    (read_hyperslab offset count w).1 ≠ Except.error (Err.stir msg) := by
  unfold read_hyperslab
  simp only [Bind.bind, Pure.pure, M.bind, getW, M.pure, throwErr]
  cases w.m_dataset_sptr with
  | none => simp
  | some o =>
    cases o with
    | array dims data =>
      simp only []
      cases hyperslab dims offset count with
      | none => simp
      | some positions => simp only []; split_ifs <;> simp
    | _ => simp

/-- A sequence raises no error of the wrapper when neither part does. -/
theorem M.bind_no_stir {α β : Type} (m : M α) (k : α → M β) (w : Wrapper) (msg : String)
    (hm : (m w).1 ≠ Except.error (Err.stir msg))
    (hk : ∀ a w1, (k a w1).1 ≠ Except.error (Err.stir msg)) :
    (M.bind m k w).1 ≠ Except.error (Err.stir msg) := by
  unfold M.bind
  rcases hres : m w with ⟨r, w1⟩
  rw [hres] at hm
  cases r with
  | error e => simpa using hm
  | ok v => exact hk v w1

/-- C11. On a file classified as sinogram, `read_sinogram` raises the unsupported-selection
error for every offset other than (0,0,0) and, with offset (0,0,0), for every stride other than
(1,1,1), and with the canonical selection it raises no error of the wrapper at all; on a
file classified as normalization, `read_efficiency_factors` does the same for offsets other
than (0,0) and strides other than (1,1). -/
theorem read_selection_checks (w : Wrapper) (out3 : Array3) (out1 : Array1) :
    (w.is_sino = true →
      (∀ offset stride, offset ≠ (0, 0, 0) →
        read_sinogram out3 offset stride w =
          (Except.error (Err.stir "Only \x7b0,0,0\x7d offset supported. Aborting"), w)) ∧
      (∀ stride, stride ≠ (1, 1, 1) →
        read_sinogram out3 (0, 0, 0) stride w =
          (Except.error (Err.stir "Only \x7b1,1,1\x7d stride supported. Aborting"), w)) ∧
      (∀ msg, (read_sinogram out3 (0, 0, 0) (1, 1, 1) w).1 ≠ Except.error (Err.stir msg))) ∧
    (w.is_norm = true →
      (∀ offset stride, offset ≠ (0, 0) →
        read_efficiency_factors out1 offset stride w =
          (Except.error (Err.stir "Only \x7b0,0\x7d offset supported. Aborting"), w)) ∧
      (∀ stride, stride ≠ (1, 1) →
        read_efficiency_factors out1 (0, 0) stride w =
          (Except.error (Err.stir "Only \x7b1,1\x7d stride supported. Aborting"), w)) ∧
      (∀ msg, (read_efficiency_factors out1 (0, 0) (1, 1) w).1 ≠ Except.error (Err.stir msg))) := by
  refine ⟨fun hs => ⟨?_, ?_, ?_⟩, fun hn => ⟨?_, ?_, ?_⟩⟩
  · rintro ⟨a, b, c⟩ stride ho
    have hc : (a != 0 || b != 0 || c != 0) = true := by
      by_contra hcon
      simp at hcon
      exact ho (by simp [hcon])
    simp [read_sinogram, is_sino_file_flag w hs, Bind.bind, Pure.pure, hc]
  · rintro ⟨a, b, c⟩ hst
    have hc : (a != 1 || b != 1 || c != 1) = true := by
      by_contra hcon
      simp at hcon
      exact hst (by simp [hcon])
    simp [read_sinogram, is_sino_file_flag w hs, Bind.bind, Pure.pure, hc]
  · intro msg
    simp only [read_sinogram, Bind.bind, Pure.pure, M.bind, is_sino_file_flag w hs, getW, M.pure]
    simp only [bne_self_eq_false, Bool.or_self, Bool.not_true, Bool.false_eq_true, if_false]
    refine M.bind_no_stir (read_hyperslab _ _) _ w msg (read_hyperslab_no_stir _ _ _ _) ?_
    intro a w1
    split_ifs <;> simp
  · rintro ⟨a, b⟩ stride ho
    have hc : (a != 0 || b != 0) = true := by
      by_contra hcon
      simp at hcon
      exact ho (by simp [hcon])
    simp [read_efficiency_factors, is_norm_file_flag w hn, Bind.bind, Pure.pure, hc]
  · rintro ⟨a, b⟩ hst
    have hc : (a != 1 || b != 1) = true := by
      by_contra hcon
      simp at hcon
      exact hst (by simp [hcon])
    simp [read_efficiency_factors, is_norm_file_flag w hn, Bind.bind, Pure.pure, hc]
  · intro msg
    simp only [read_efficiency_factors, Bind.bind, Pure.pure, M.bind, is_norm_file_flag w hn, getW, M.pure]
    simp only [bne_self_eq_false, Bool.or_self, Bool.not_true, Bool.false_eq_true, if_false]
    refine M.bind_no_stir (read_hyperslab _ _) _ w msg (read_hyperslab_no_stir _ _ _ _) ?_
    intro a w1
    simp

/-- Witness for C11: offset (0,1,0) on the example sinogram view raises the offset error, the
canonical selection does not; stride (2,1) on the example efficiency data raises the stride
error. -/
theorem read_selection_checks_witness :
    exampleSinoView.is_sino = true ∧ exampleNormSmall.is_norm = true ∧
    read_sinogram Array3.empty (0, 1, 0) (1, 1, 1) exampleSinoView =
      (Except.error (Err.stir "Only \x7b0,0,0\x7d offset supported. Aborting"), exampleSinoView) ∧
    (read_sinogram Array3.empty (0, 0, 0) (1, 1, 1) exampleSinoView).1 ≠
      Except.error (Err.stir "Only \x7b0,0,0\x7d offset supported. Aborting") ∧
    read_efficiency_factors Array1.empty (0, 0) (2, 1) exampleNormSmall =
      (Except.error (Err.stir "Only \x7b1,1\x7d stride supported. Aborting"), exampleNormSmall) :=
  ⟨by decide!, by decide!,
   ((read_selection_checks exampleSinoView Array3.empty Array1.empty).1 (by decide!)).1
      (0, 1, 0) (1, 1, 1) (by decide),
   ((read_selection_checks exampleSinoView Array3.empty Array1.empty).1 (by decide!)).2.2 _,
   ((read_selection_checks exampleNormSmall Array3.empty Array1.empty).2 (by decide!)).2.1
      (2, 1) (by decide)⟩

/-! ## The tangential flip -/

/-- The hyperslab read leaves the wrapper as it was. -/
theorem read_hyperslab_state (offset count : List Nat) (w : Wrapper) :
    (read_hyperslab offset count w).2 = w := by
  unfold read_hyperslab
  simp only [Bind.bind, Pure.pure, M.bind, getW, M.pure, throwErr]
  cases w.m_dataset_sptr with
  | none => simp
  | some o =>
    cases o with
    | array dims data =>
      simp only []
      cases hyperslab dims offset count with
      | none => simp
      | some positions => simp only []; split_ifs <;> simp
    | _ => simp

/-- A hyperslab read that returns `raw`, as a run. -/
theorem read_hyperslab_run (offset count : List Nat) (w : Wrapper) (raw : List ℚ)
    (h : (read_hyperslab offset count w).1 = Except.ok raw) :
    read_hyperslab offset count w = (Except.ok raw, w) := by
  have hs := read_hyperslab_state offset count w
  rcases hres : read_hyperslab offset count w with ⟨r, w1⟩
  rw [hres] at h hs
  simp only at h hs
  rw [h, hs]

/-- The kind test of `read_geometric_factors` passes without touching the wrapper when the
geometry flag or the normalization flag is set. -/
theorem is_geo_file_flag (w : Wrapper) (h : w.is_geo = true ∨ w.is_norm = true) :
    is_geo_file w = (Except.ok true, w) := by
  rcases h with h | h <;> simp [is_geo_file, Bind.bind, Pure.pure, h]

/-- The member function `read_geometric_factors` with non-zero counts and stride (1,1): the
flipped block when the read succeeds. -/
theorem read_geometric_factors_run (w : Wrapper) (out : Array1) (offset count : Nat × Nat)
    (raw : List ℚ) (hg : w.is_geo = true ∨ w.is_norm = true) (h1 : count.1 ≠ 0) (h2 : count.2 ≠ 0)
    (hread : (read_hyperslab [offset.1, offset.2] [count.1, count.2] w).1 = Except.ok raw) :
    read_geometric_factors out offset count (1, 1) w =
      (Except.ok (Succeeded.yes, flip_tangential count.1 count.2 raw (out.resize (count.1 * count.2))), w) := by
  have hr := read_hyperslab_run _ _ w raw hread
  simp [read_geometric_factors, is_geo_file_flag w hg, Bind.bind, Pure.pure, h1, h2, hr]

/-- The member function `read_efficiency_factors` with the canonical selection: the flipped
block when the read succeeds. -/
theorem read_efficiency_factors_run (w : Wrapper) (out : Array1) (raw : List ℚ)
    (hn : w.is_norm = true)
    (hread : (read_hyperslab [0, 0] [w.m_NX_SUB, w.m_NY_SUB] w).1 = Except.ok raw) :
    read_efficiency_factors out (0, 0) (1, 1) w =
      (Except.ok (Succeeded.yes,
        flip_tangential w.m_NX_SUB w.m_NY_SUB raw (out.resize (w.m_NX_SUB * w.m_NY_SUB))), w) := by
  have hr := read_hyperslab_run _ _ w raw hread
  simp [read_efficiency_factors, is_norm_file_flag w hn, Bind.bind, Pure.pure, hr]

/-- The member function `read_singles` on a valid sample number: the flipped dataset. -/
theorem read_singles_run (w w1 : Wrapper) (out : Array1) (current_id : Nat) (dims : List Nat)
    (raw : List ℚ) (hkind : not_list_and_not_sino w = (Except.ok false, w1))
    (h0 : current_id ≠ 0) (hle : current_id ≤ w1.m_num_singles_samples)
    (hds : w1.file.lookup (w1.m_address ++ toString current_id) = some (H5Object.array dims raw)) :
    (read_singles out current_id w).1 =
      Except.ok (Succeeded.yes,
        flip_tangential w1.m_NX_SUB w1.m_NY_SUB raw (out.resize (w1.m_NX_SUB * w1.m_NY_SUB))) := by
  have hgt : ¬ (current_id > w1.m_num_singles_samples) := by omega
  simp [read_singles, read_whole_dataset, hkind, Bind.bind, Pure.pure, h0, hgt, hds]

/-- C12. The flip loop shared by `read_geometric_factors` (R = count[0], N = count[1]),
`read_efficiency_factors` and `read_singles` (R = m_NX_SUB, N = m_NY_SUB) leaves an output of
R * N elements with `output[ax * N + j] = raw[ax * N + (N - 1 - j)]` for every ax < R and
j < N, and each of the three functions returns that output for the buffer `raw` it read. -/
theorem readers_flip_tangential :
    (∀ (R N : Nat) (raw : List ℚ) (out : Array1),
      (flip_tangential R N raw (out.resize (R * N))).size = R * N ∧
      ∀ ax < R, ∀ j < N,
        (flip_tangential R N raw (out.resize (R * N))).elem (ax * N + j) =
          raw.getD (ax * N + (N - 1 - j)) 0) ∧
    (∀ (w : Wrapper) (out : Array1) (offset count : Nat × Nat) (raw : List ℚ),
      (w.is_geo = true ∨ w.is_norm = true) → count.1 ≠ 0 → count.2 ≠ 0 →
      (read_hyperslab [offset.1, offset.2] [count.1, count.2] w).1 = Except.ok raw →
      (read_geometric_factors out offset count (1, 1) w).1 =
        Except.ok (Succeeded.yes,
          flip_tangential count.1 count.2 raw (out.resize (count.1 * count.2)))) ∧
    (∀ (w : Wrapper) (out : Array1) (raw : List ℚ), w.is_norm = true →
      (read_hyperslab [0, 0] [w.m_NX_SUB, w.m_NY_SUB] w).1 = Except.ok raw →
      (read_efficiency_factors out (0, 0) (1, 1) w).1 =
        Except.ok (Succeeded.yes,
          flip_tangential w.m_NX_SUB w.m_NY_SUB raw (out.resize (w.m_NX_SUB * w.m_NY_SUB)))) ∧
    (∀ (w w1 : Wrapper) (out : Array1) (current_id : Nat) (dims : List Nat) (raw : List ℚ),
      not_list_and_not_sino w = (Except.ok false, w1) →
      current_id ≠ 0 → current_id ≤ w1.m_num_singles_samples →
      w1.file.lookup (w1.m_address ++ toString current_id) = some (H5Object.array dims raw) →
      (read_singles out current_id w).1 =
        Except.ok (Succeeded.yes,
          flip_tangential w1.m_NX_SUB w1.m_NY_SUB raw (out.resize (w1.m_NX_SUB * w1.m_NY_SUB)))) := by
  refine ⟨?_, ?_, ?_, ?_⟩
  · intro R N raw out
    refine ⟨?_, ?_⟩
    · rw [flip_tangential_size]
      rfl
    · intro ax hax j hj
      exact flip_tangential_elem R N raw _ ax j hax hj
  · intro w out offset count raw hg h1 h2 hread
    rw [read_geometric_factors_run w out offset count raw hg h1 h2 hread]
  · intro w out raw hn hread
    rw [read_efficiency_factors_run w out raw hn hread]
  · intro w w1 out current_id dims raw hkind h0 hle hds
    exact read_singles_run w w1 out current_id dims raw hkind h0 hle hds

/-- Witness for C12: the three readers on the example payloads, and the flipped elements of the
second singles sample. -/
theorem readers_flip_tangential_witness :
    (read_geometric_factors Array1.empty (0, 0) (2, 3) (1, 1) exampleGeoSlice).1 =
      Except.ok (Succeeded.yes, flip_tangential 2 3 exampleData (Array1.empty.resize (2 * 3))) ∧
    (read_efficiency_factors Array1.empty (0, 0) (1, 1) exampleNormSmall).1 =
      Except.ok (Succeeded.yes,
        flip_tangential exampleNormSmall.m_NX_SUB exampleNormSmall.m_NY_SUB [0, 1, 4, 5]
          (Array1.empty.resize (exampleNormSmall.m_NX_SUB * exampleNormSmall.m_NY_SUB))) ∧
    (read_singles Array1.empty 2 exampleSinoSingles).1 =
      Except.ok (Succeeded.yes,
        flip_tangential (not_list_and_not_sino exampleSinoSingles).2.m_NX_SUB
          (not_list_and_not_sino exampleSinoSingles).2.m_NY_SUB [10, 11, 12, 13, 14, 15]
          (Array1.empty.resize ((not_list_and_not_sino exampleSinoSingles).2.m_NX_SUB *
            (not_list_and_not_sino exampleSinoSingles).2.m_NY_SUB))) ∧
    (flip_tangential 2 3 [10, 11, 12, 13, 14, 15] (Array1.empty.resize (2 * 3))).size = 2 * 3 ∧
    (flip_tangential 2 3 [10, 11, 12, 13, 14, 15] (Array1.empty.resize (2 * 3))).elem (1 * 3 + 0) =
      ([10, 11, 12, 13, 14, 15] : List ℚ).getD (1 * 3 + (3 - 1 - 0)) 0 :=
  ⟨readers_flip_tangential.2.1 exampleGeoSlice Array1.empty (0, 0) (2, 3) exampleData
      (by decide!) (by decide) (by decide) (by decide!),
   readers_flip_tangential.2.2.1 exampleNormSmall Array1.empty [0, 1, 4, 5] (by decide!) (by decide!),
   readers_flip_tangential.2.2.2 exampleSinoSingles (not_list_and_not_sino exampleSinoSingles).2
      Array1.empty 2 [2, 3]
      [10, 11, 12, 13, 14, 15] (by decide!) (by decide) (by decide!) (by decide!),
   (readers_flip_tangential.1 2 3 [10, 11, 12, 13, 14, 15] Array1.empty).1,
   (readers_flip_tangential.1 2 3 [10, 11, 12, 13, 14, 15] Array1.empty).2 1 (by decide) 0 (by decide)⟩

/-! ## The copy of a sinogram view -/

/-- Inside the extents the index `i * NX * NY + j * NX + k` stays below `NX * NY * NZ`. -/
theorem sinogram_index_lt (NX NY NZ i j k : Nat) (hi : i < NZ) (hj : j < NY) (hk : k < NX) :
    i * NX * NY + j * NX + k < NX * NY * NZ := by
  have h1 : j * NX + k < NY * NX := by
    calc j * NX + k < j * NX + NX := by omega
      _ = (j + 1) * NX := by ring
      _ ≤ NY * NX := Nat.mul_le_mul_right NX hj
  have h2 : i * (NX * NY) + NX * NY ≤ NZ * (NX * NY) := by
    calc i * (NX * NY) + NX * NY = (i + 1) * (NX * NY) := by ring
      _ ≤ NZ * (NX * NY) := Nat.mul_le_mul_right (NX * NY) hi
  have e1 : i * NX * NY = i * (NX * NY) := by ring
  have e2 : NX * NY * NZ = NZ * (NX * NY) := by ring
  have e3 : NY * NX = NX * NY := by ring
  omega

/-- Without overflow of the `unsigned int` index, the copy loop of `read_sinogram` writes the
buffer element at `i * NX * NY + j * NX + k`. -/
theorem read_sinogram_copy_elem_small (NX NY NZ : Nat) (aux : List ℚ) (out : Array3) (i j k : Nat)
    (hi : i < NZ) (hj : j < NY) (hk : k < NX) (hsize : NX * NY * NZ ≤ 2 ^ 32) :
    (read_sinogram_copy NX NY NZ aux out).elem i j k = aux.getD (i * NX * NY + j * NX + k) 0 := by
  rw [read_sinogram_copy_elem NX NY NZ aux out i j k hi hj hk]
  have hlt := sinogram_index_lt NX NY NZ i j k hi hj hk
  have h1 : i * NX * NY < 2 ^ 32 := by omega
  have h2 : j * NX < 2 ^ 32 := by omega
  have h3 : i * NX * NY + j * NX + k < 2 ^ 32 := by omega
  rw [Nat.mod_eq_of_lt h1, Nat.mod_eq_of_lt h2, Nat.mod_eq_of_lt h3]

/-- The member function `read_sinogram` with the canonical selection on a version 9 sinogram:
the copy of the buffer read. -/
theorem read_sinogram_run (w : Wrapper) (out : Array3) (raw : List ℚ)
    (hs : w.is_sino = true) (hv : w.rdf_ver = 9)
    (hread : (read_hyperslab [0, 0, 0] [w.m_NX_SUB, w.m_NY_SUB, w.m_NZ_SUB] w).1 = Except.ok raw) :
    read_sinogram out (0, 0, 0) (1, 1, 1) w =
      (Except.ok (Succeeded.yes,
        read_sinogram_copy w.m_NX_SUB w.m_NY_SUB w.m_NZ_SUB raw
          (out.resize w.m_NZ_SUB w.m_NY_SUB w.m_NX_SUB)), w) := by
  have hr := read_hyperslab_run _ _ w raw hread
  simp [read_sinogram, is_sino_file_flag w hs, Bind.bind, Pure.pure, hr, hv]

/-- The failing input of C13: on the example view (raw extents (2,1,3), data 0 to 5)
`read_sinogram` returns the buffer in its stored order, which is not the buffer with the last
axis reversed. -/
theorem read_sinogram_last_axis_not_reversed :
    (read_hyperslab [0, 0, 0] [2, 1, 3] exampleSinoView).1 = Except.ok exampleData ∧
    ((read_sinogram Array3.empty (0, 0, 0) (1, 1, 1) exampleSinoView).1.map
      fun r => (r.1, r.2.toList)) = Except.ok (Succeeded.yes, [[[0, 1]], [[2, 3]], [[4, 5]]]) ∧
    ((read_sinogram Array3.empty (0, 0, 0) (1, 1, 1) exampleSinoView).1.map
      fun r => decide (last_axis_reversed r.2 exampleData)) = Except.ok false := by
  decide!

/-- C13 (what the code does). On a version 9 sinogram, `read_sinogram` with the canonical
selection does not reverse the last axis, unlike the three sibling readers, which flip it:
whenever the index arithmetic does not overflow, the output is the buffer read viewed with
the extents of the output, `output[i][j][k] = raw[i][j][k]` and not `raw[i][j][N-1-k]`. -/
theorem read_sinogram_keeps_last_axis (w : Wrapper) (out : Array3) (raw : List ℚ)
    (hs : w.is_sino = true) (hv : w.rdf_ver = 9)
    (hread : (read_hyperslab [0, 0, 0] [w.m_NX_SUB, w.m_NY_SUB, w.m_NZ_SUB] w).1 = Except.ok raw)
    (hsize : w.m_NX_SUB * w.m_NY_SUB * w.m_NZ_SUB ≤ 2 ^ 32) :
    ∃ o, read_sinogram out (0, 0, 0) (1, 1, 1) w = (Except.ok (Succeeded.yes, o), w) ∧
      ∀ i < o.n0, ∀ j < o.n1, ∀ k < o.n2, o.elem i j k = raw.getD ((i * o.n1 + j) * o.n2 + k) 0 := by
  refine ⟨_, read_sinogram_run w out raw hs hv hread, ?_⟩
  simp only [read_sinogram_copy_extents]
  intro i hi j hj k hk
  change i < w.m_NZ_SUB at hi
  change j < w.m_NY_SUB at hj
  change k < w.m_NX_SUB at hk
  rw [read_sinogram_copy_elem_small _ _ _ _ _ i j k hi hj hk hsize]
  change raw.getD _ 0 = raw.getD ((i * w.m_NY_SUB + j) * w.m_NX_SUB + k) 0
  congr 1
  ring

/-- C13 on the example view: the output is the buffer in its stored order,
`[[[0,1]],[[2,3]],[[4,5]]]`, and not the buffer with the last axis reversed. -/
theorem read_sinogram_keeps_last_axis_witness :
    (∃ o, read_sinogram Array3.empty (0, 0, 0) (1, 1, 1) exampleSinoView =
        (Except.ok (Succeeded.yes, o), exampleSinoView) ∧
      ∀ i < o.n0, ∀ j < o.n1, ∀ k < o.n2,
        o.elem i j k = exampleData.getD ((i * o.n1 + j) * o.n2 + k) 0) ∧
    ((read_sinogram Array3.empty (0, 0, 0) (1, 1, 1) exampleSinoView).1.map
      fun r => (r.1, r.2.toList)) = Except.ok (Succeeded.yes, [[[0, 1]], [[2, 3]], [[4, 5]]]) ∧
    ((read_sinogram Array3.empty (0, 0, 0) (1, 1, 1) exampleSinoView).1.map
      fun r => decide (last_axis_reversed r.2 exampleData)) = Except.ok false :=
  ⟨read_sinogram_keeps_last_axis exampleSinoView Array3.empty exampleData
    (by decide!) (by decide!) (by decide!) (by decide!), by decide!, by decide!⟩

/-! ## Axes of a sinogram view, offsets of the geometric factors -/

/-- A position of a row-major `(NX, NY, NZ)` array from its linear index. -/
theorem raw3d_of_linear (NY NZ : Nat) (raw : List ℚ) (L : Nat) :
    raw3d NY NZ raw (L / (NY * NZ)) (L / NZ % NY) (L % NZ) = raw.getD L 0 := by
  unfold raw3d
  congr 1
  have h1 : L / (NY * NZ) = L / NZ / NY := by
    rw [Nat.mul_comm, Nat.div_div_eq_div_mul]
  rw [h1]
  have h2 := Nat.div_add_mod (L / NZ) NY
  have h3 := Nat.div_add_mod L NZ
  calc (L / NZ / NY * NY + L / NZ % NY) * NZ + L % NZ
      = (NY * (L / NZ / NY) + L / NZ % NY) * NZ + L % NZ := by ring
    _ = L / NZ * NZ + L % NZ := by rw [h2]
    _ = NZ * (L / NZ) + L % NZ := by ring
    _ = L := h3

/-- The failing input of C14: on the example view (raw extents (2,1,3), data 0 to 5) the output of
`read_sinogram` has extents (3,1,2) and holds the buffer in its stored order; it is neither the
transpose of the raw (NX,NY,NZ) array nor that transpose with the last axis reversed:
`output[0][0][1]` is 1, the raw element with NX index 1 is 3, the one with NX index 0 is 0. -/
theorem read_sinogram_axes_not_permuted :
    (read_hyperslab [0, 0, 0] [2, 1, 3] exampleSinoView).1 = Except.ok exampleData ∧
    ((read_sinogram Array3.empty (0, 0, 0) (1, 1, 1) exampleSinoView).1.map
      fun r => (r.2.n0, r.2.n1, r.2.n2, r.2.elem 0 0 1)) = Except.ok (3, 1, 2, 1) ∧
    raw3d 1 3 exampleData 1 0 0 = 3 ∧ raw3d 1 3 exampleData 0 0 0 = 0 ∧
    ((read_sinogram Array3.empty (0, 0, 0) (1, 1, 1) exampleSinoView).1.map
      fun r => (decide (axes_permuted r.2 exampleData),
        decide (axes_permuted_and_reversed r.2 exampleData))) = Except.ok (false, false) := by
  decide!

/-- C14 (what the code does). On a version 9 sinogram, `read_sinogram` with the canonical
selection gives the output the extents (m_NZ_SUB, m_NY_SUB, m_NX_SUB) but does not transpose,
although its comment says the output needs to be transposed: it fills the output with the
buffer in its stored order.  Whenever the index arithmetic does not overflow, `output[z][y][x]` is the buffer
element at linear position `L = z * NX * NY + y * NX + x`, which in the raw (NX, NY, NZ) array
is the element with NX index `L / (NY * NZ)`, NY index `L / NZ % NY` and NZ index `L % NZ`. -/
theorem read_sinogram_reshapes (w : Wrapper) (out : Array3) (raw : List ℚ)
    (hs : w.is_sino = true) (hv : w.rdf_ver = 9)
    (hread : (read_hyperslab [0, 0, 0] [w.m_NX_SUB, w.m_NY_SUB, w.m_NZ_SUB] w).1 = Except.ok raw)
    (hsize : w.m_NX_SUB * w.m_NY_SUB * w.m_NZ_SUB ≤ 2 ^ 32) :
    ∃ o, read_sinogram out (0, 0, 0) (1, 1, 1) w = (Except.ok (Succeeded.yes, o), w) ∧
      o.n0 = w.m_NZ_SUB ∧ o.n1 = w.m_NY_SUB ∧ o.n2 = w.m_NX_SUB ∧
      ∀ z < w.m_NZ_SUB, ∀ y < w.m_NY_SUB, ∀ x < w.m_NX_SUB,
        o.elem z y x = raw.getD (z * w.m_NX_SUB * w.m_NY_SUB + y * w.m_NX_SUB + x) 0 ∧
        o.elem z y x =
          raw3d w.m_NY_SUB w.m_NZ_SUB raw
            ((z * w.m_NX_SUB * w.m_NY_SUB + y * w.m_NX_SUB + x) / (w.m_NY_SUB * w.m_NZ_SUB))
            ((z * w.m_NX_SUB * w.m_NY_SUB + y * w.m_NX_SUB + x) / w.m_NZ_SUB % w.m_NY_SUB)
            ((z * w.m_NX_SUB * w.m_NY_SUB + y * w.m_NX_SUB + x) % w.m_NZ_SUB) := by
  refine ⟨_, read_sinogram_run w out raw hs hv hread, ?_, ?_, ?_, ?_⟩
  · exact (read_sinogram_copy_extents _ _ _ _ _).1
  · exact (read_sinogram_copy_extents _ _ _ _ _).2.1
  · exact (read_sinogram_copy_extents _ _ _ _ _).2.2
  · intro z hz y hy x hx
    rw [raw3d_of_linear]
    exact ⟨read_sinogram_copy_elem_small _ _ _ _ _ z y x hz hy hx hsize,
      read_sinogram_copy_elem_small _ _ _ _ _ z y x hz hy hx hsize⟩

/-- C14 on the example view: the output has the extents (3, 1, 2) and holds the buffer in
its stored order; it is not the transpose of the raw (2, 1, 3) array, with or without the
reversal of the last axis. -/
theorem read_sinogram_reshapes_witness :
    (∃ o, read_sinogram Array3.empty (0, 0, 0) (1, 1, 1) exampleSinoView =
        (Except.ok (Succeeded.yes, o), exampleSinoView) ∧
      o.n0 = exampleSinoView.m_NZ_SUB ∧ o.n1 = exampleSinoView.m_NY_SUB ∧
      o.n2 = exampleSinoView.m_NX_SUB ∧
      ∀ z < exampleSinoView.m_NZ_SUB, ∀ y < exampleSinoView.m_NY_SUB, ∀ x < exampleSinoView.m_NX_SUB,
        o.elem z y x = exampleData.getD (z * exampleSinoView.m_NX_SUB * exampleSinoView.m_NY_SUB +
          y * exampleSinoView.m_NX_SUB + x) 0 ∧
        o.elem z y x =
          raw3d exampleSinoView.m_NY_SUB exampleSinoView.m_NZ_SUB exampleData
            ((z * exampleSinoView.m_NX_SUB * exampleSinoView.m_NY_SUB +
              y * exampleSinoView.m_NX_SUB + x) / (exampleSinoView.m_NY_SUB * exampleSinoView.m_NZ_SUB))
            ((z * exampleSinoView.m_NX_SUB * exampleSinoView.m_NY_SUB +
              y * exampleSinoView.m_NX_SUB + x) / exampleSinoView.m_NZ_SUB % exampleSinoView.m_NY_SUB)
            ((z * exampleSinoView.m_NX_SUB * exampleSinoView.m_NY_SUB +
              y * exampleSinoView.m_NX_SUB + x) % exampleSinoView.m_NZ_SUB)) ∧
    ((read_sinogram Array3.empty (0, 0, 0) (1, 1, 1) exampleSinoView).1.map
      fun r => (r.2.n0, r.2.n1, r.2.n2, r.2.elem 0 0 1)) = Except.ok (3, 1, 2, 1) ∧
    raw3d 1 3 exampleData 1 0 0 = 3 ∧
    ((read_sinogram Array3.empty (0, 0, 0) (1, 1, 1) exampleSinoView).1.map
      fun r => (decide (axes_permuted r.2 exampleData),
        decide (axes_permuted_and_reversed r.2 exampleData))) = Except.ok (false, false) :=
  ⟨read_sinogram_reshapes exampleSinoView Array3.empty exampleData
    (by decide!) (by decide!) (by decide!) (by decide!), by decide!, by decide!, by decide!⟩

/-- Counterexample to C15: on the example geometry slice (extents (2,3), data 0 to 5)
`read_geometric_factors` with offset (1,0), count (1,3) and stride (1,1) raises nothing: it
returns the second row, flipped. -/
theorem read_geometric_factors_accepts_offset :
    ((read_geometric_factors Array1.empty (1, 0) (1, 3) (1, 1) exampleGeoSlice).1.map
      fun r => (r.1, r.2.toList)) = Except.ok (Succeeded.yes, [5, 4, 3]) := by
  decide!

/-- C15, amended. On a file classified as geometry or normalization, `read_geometric_factors`
does not restrict the offset: it raises an error of the wrapper exactly when a count is zero
("Requested zero data to read") or, with non-zero counts, when the stride is not (1,1); with
non-zero counts and stride (1,1) it reads, for every offset, the count[0] x count[1] block
that starts at the offset and returns it flipped, whenever the container yields that block. -/
theorem read_geometric_factors_selection (w : Wrapper) (out : Array1)
    (offset count stride : Nat × Nat) (hg : w.is_geo = true ∨ w.is_norm = true) :
    ((count.1 = 0 ∨ count.2 = 0) →
      read_geometric_factors out offset count stride w =
        (Except.error (Err.stir "Requested zero data to read. Aborting"), w)) ∧
    (count.1 ≠ 0 → count.2 ≠ 0 → stride ≠ (1, 1) →
      read_geometric_factors out offset count stride w =
        (Except.error (Err.stir "Only \x7b1,1\x7d stride supported. Aborting"), w)) ∧
    (count.1 ≠ 0 → count.2 ≠ 0 → stride = (1, 1) →
      (∀ msg, (read_geometric_factors out offset count stride w).1 ≠ Except.error (Err.stir msg)) ∧
      ∀ raw, (read_hyperslab [offset.1, offset.2] [count.1, count.2] w).1 = Except.ok raw →
        read_geometric_factors out offset count stride w =
          (Except.ok (Succeeded.yes,
            flip_tangential count.1 count.2 raw (out.resize (count.1 * count.2))), w)) := by
  refine ⟨?_, ?_, ?_⟩
  · intro hz
    have hc : (count.1 == 0 || count.2 == 0) = true := by
      rcases hz with h | h <;> simp [h]
    simp [read_geometric_factors, is_geo_file_flag w hg, Bind.bind, Pure.pure, hc]
  · intro h1 h2 hst
    obtain ⟨a, b⟩ := stride
    have hc : (a != 1 || b != 1) = true := by
      by_contra hcon
      simp at hcon
      exact hst (by simp [hcon])
    simp [read_geometric_factors, is_geo_file_flag w hg, Bind.bind, Pure.pure, h1, h2, hc]
  · intro h1 h2 hst
    subst hst
    refine ⟨?_, fun raw hread => read_geometric_factors_run w out offset count raw hg h1 h2 hread⟩
    intro msg
    rcases hres : read_hyperslab [offset.1, offset.2] [count.1, count.2] w with ⟨r, w1⟩
    cases r with
    | ok raw =>
      rw [read_geometric_factors_run w out offset count raw hg h1 h2 (by rw [hres])]
      simp
    | error e =>
      have hne := read_hyperslab_no_stir [offset.1, offset.2] [count.1, count.2] w msg
      rw [hres] at hne
      have hne1 : e ≠ Err.stir msg := by simpa using hne
      simp [read_geometric_factors, is_geo_file_flag w hg, Bind.bind, Pure.pure, h1, h2, hres, hne1]

/-- Witness for C15, amended: the example geometry slice read at offset (1,0). -/
theorem read_geometric_factors_selection_witness :
    (exampleGeoSlice.is_geo = true ∨ exampleGeoSlice.is_norm = true) ∧
    read_geometric_factors Array1.empty (1, 0) (1, 3) (1, 1) exampleGeoSlice =
      (Except.ok (Succeeded.yes, flip_tangential 1 3 [3, 4, 5] (Array1.empty.resize (1 * 3))),
        exampleGeoSlice) ∧
    read_geometric_factors Array1.empty (1, 0) (1, 3) (2, 1) exampleGeoSlice =
      (Except.error (Err.stir "Only \x7b1,1\x7d stride supported. Aborting"), exampleGeoSlice) :=
  ⟨by decide!,
   ((read_geometric_factors_selection exampleGeoSlice Array1.empty (1, 0) (1, 3) (1, 1)
      (by decide!)).2.2 (by decide) (by decide) rfl).2 [3, 4, 5] (by decide!),
   (read_geometric_factors_selection exampleGeoSlice Array1.empty (1, 0) (1, 3) (2, 1)
      (by decide!)).2.1 (by decide) (by decide) (by decide)⟩

/-! ## Timing resolution and number of TOF bins -/

/-- The setters of lines 360 to 371 leave the timing resolution alone. -/
theorem set_scanner_timing_resolution (v : ScannerLocals) (b : Bool) (s : Scanner) :
    (set_scanner v b s).timing_resolution = s.timing_resolution := rfl

/-- The ring-radius adjustment leaves the timing resolution alone. -/
theorem adjust_ring_radius_timing_resolution (d : Float32) (s : Scanner) :
    (adjust_ring_radius d s).timing_resolution = s.timing_resolution := by
  unfold adjust_ring_radius
  split <;> rfl

/-- The TOF-bin-size adjustment leaves the timing resolution alone. -/
theorem adjust_size_of_timing_pos_timing_resolution (m : Float32) (s : Scanner) :
    (adjust_size_of_timing_pos m s).timing_resolution = s.timing_resolution := by
  unfold adjust_size_of_timing_pos
  split <;> rfl

/-- The TOF-bin-count adjustment leaves the timing resolution alone. -/
theorem adjust_max_num_timing_poss_timing_resolution (n : Int) (s : Scanner) :
    (adjust_max_num_timing_poss n s).timing_resolution = s.timing_resolution := by
  unfold adjust_max_num_timing_poss
  split <;> rfl

/-- The timing resolution after its adjustment. -/
theorem adjust_timing_resolution_timing_resolution (m : Float32) (s : Scanner) :
    (adjust_timing_resolution m s).timing_resolution =
      if m > Float32.ofInt 0 ∧ Float32.abs (s.timing_resolution - m) > Float32.tenth
        then m else s.timing_resolution := by
  unfold adjust_timing_resolution
  split <;> rfl

/-- Counterexample to C16: the catalog says 390 and the file -1, which is not zero and differs
from 390 by more than `.1F`, yet the resolved timing resolution is 390. -/
theorem timing_resolution_negative_not_applied :
    exampleNegativeTiming.file.lookup "/HeaderData/SystemGeometry/timingResolutionInPico"
      = some (H5Object.float32 (-1)) ∧
    exampleEnv.get_scanner_from_name "GE Signa PET/MR" = some exampleScanner ∧
    exampleScanner.timing_resolution = Float32.finite 390 ∧
    Float32.ofRat (-1) = Float32.finite (-1) ∧
    Float32.abs (exampleScanner.timing_resolution - Float32.ofRat (-1)) > Float32.tenth ∧
    ((get_scanner_from_HDF5 exampleEnv exampleNegativeTiming).1.map
      fun s => s.timing_resolution) = Except.ok (Float32.finite 390) := by
  decide!

/-- C16, amended. For a catalog entry with timing resolution `c` and a file whose
`timingResolutionInPico`, read into a `float`, is `m`, the scanner that
`get_scanner_from_HDF5` returns has timing resolution `m` when `m > 0` and
`fabs(c - m) > .1F`, and `c` otherwise: the override is skipped for every recorded value that
is zero or negative; the timing-resolution warning is emitted once when the value is replaced
and not at all otherwise.  The difference and the bound are those of `float` arithmetic. -/
theorem timing_resolution_override (env : Env) (w : Wrapper) (h : ScannerHeader) (cat : Scanner)
    (hh : w.has_scanner_header h)
    (hcat : env.get_scanner_from_name h.scannerDesc = some cat) :
    ∃ s, (get_scanner_from_HDF5 env w).1 = Except.ok s ∧
      s.timing_resolution =
        (if Float32.ofRat h.timingResolutionInPico > Float32.ofInt 0 ∧
            Float32.abs (cat.timing_resolution - Float32.ofRat h.timingResolutionInPico)
              > Float32.tenth
          then Float32.ofRat h.timingResolutionInPico else cat.timing_resolution) ∧
      (h.timingResolutionInPico ≤ 0 → s.timing_resolution = cat.timing_resolution) ∧
      (get_scanner_from_HDF5 env w).2.warnings.count Warning.timing_resolution =
        w.warnings.count Warning.timing_resolution +
          (if Float32.ofRat h.timingResolutionInPico > Float32.ofInt 0 ∧
              Float32.abs (cat.timing_resolution - Float32.ofRat h.timingResolutionInPico)
                > Float32.tenth then 1 else 0) := by
  obtain ⟨ps, hrun⟩ := get_scanner_from_HDF5_run env w h cat hh hcat
  have hm : h.locals.timingResolutionInPico = Float32.ofRat h.timingResolutionInPico := rfl
  have hres : (resolved_scanner h.locals (w.is_list || h.isListFile % 2 ^ 32 != 0) cat).timing_resolution =
      (if Float32.ofRat h.timingResolutionInPico > Float32.ofInt 0 ∧
          Float32.abs (cat.timing_resolution - Float32.ofRat h.timingResolutionInPico)
            > Float32.tenth
        then Float32.ofRat h.timingResolutionInPico else cat.timing_resolution) := by
    simp only [resolved_scanner, adjust_max_num_timing_poss_timing_resolution,
      adjust_size_of_timing_pos_timing_resolution, adjust_timing_resolution_timing_resolution,
      adjust_ring_radius_timing_resolution, set_scanner_timing_resolution, hm]
  rw [hrun]
  refine ⟨_, rfl, hres, ?_, ?_⟩
  · intro hle
    rw [hres, if_neg]
    intro hcon
    exact Float32.ofRat_not_pos _ hle hcon.1
  · simp only [resolved_warnings, List.count_append, count_ite_singleton,
      adjust_ring_radius_timing_resolution, set_scanner_timing_resolution, hm]
    simp

set_option maxHeartbeats 4000000 in
/-- Witness for C16, amended.  The catalog says 390 and the file 385: the scanner gets 385
and one warning is emitted.  On the boundary example the catalog says 0 and the file `.1F`:
the difference is not above `.1F`, the catalog value stays and nothing is emitted. -/
theorem timing_resolution_override_witness :
    (∃ s, (get_scanner_from_HDF5 exampleEnv examplePositiveTiming).1 = Except.ok s ∧
      s.timing_resolution = Float32.finite 385 ∧
      (get_scanner_from_HDF5 exampleEnv examplePositiveTiming).2.warnings.count
          Warning.timing_resolution =
        examplePositiveTiming.warnings.count Warning.timing_resolution + 1) ∧
    (∃ s, (get_scanner_from_HDF5 exampleEnvZero exampleBoundary).1 = Except.ok s ∧
      s.timing_resolution = Float32.finite 0 ∧
      (get_scanner_from_HDF5 exampleEnvZero exampleBoundary).2.warnings.count
          Warning.timing_resolution =
        exampleBoundary.warnings.count Warning.timing_resolution + 0) ∧
    Float32.ofRat exampleBoundaryHeader.timingResolutionInPico = Float32.tenth :=
  ⟨by
    obtain ⟨s, h1, h2, -, h4⟩ := timing_resolution_override exampleEnv examplePositiveTiming
      examplePositiveTimingHeader exampleScanner (by decide!) (by rfl)
    have hc : Float32.ofRat examplePositiveTimingHeader.timingResolutionInPico > Float32.ofInt 0 ∧
        Float32.abs (exampleScanner.timing_resolution
          - Float32.ofRat examplePositiveTimingHeader.timingResolutionInPico) > Float32.tenth := by
      decide!
    have hv : Float32.ofRat examplePositiveTimingHeader.timingResolutionInPico
        = Float32.finite 385 := by decide!
    rw [if_pos hc] at h2 h4
    rw [hv] at h2
    exact ⟨s, h1, h2, h4⟩,
   by
    obtain ⟨s, h1, h2, -, h4⟩ := timing_resolution_override exampleEnvZero exampleBoundary
      exampleBoundaryHeader exampleScannerZero (by decide!) (by rfl)
    have hc : ¬ (Float32.ofRat exampleBoundaryHeader.timingResolutionInPico > Float32.ofInt 0 ∧
        Float32.abs (exampleScannerZero.timing_resolution
          - Float32.ofRat exampleBoundaryHeader.timingResolutionInPico) > Float32.tenth) := by
      decide!
    have hv : exampleScannerZero.timing_resolution = Float32.finite 0 := by decide!
    rw [if_neg hc] at h2 h4
    rw [hv] at h2
    exact ⟨s, h1, h2, h4⟩,
   by decide!⟩

/-- Values in the range of `int` are not changed by the reduction to 32 bits. -/
theorem wrap_int32_of_range (x : Int) (h1 : -2 ^ 31 ≤ x) (h2 : x < 2 ^ 31) : wrap_int32 x = x := by
  unfold wrap_int32
  norm_num at h1 h2 ⊢
  omega

set_option maxHeartbeats 4000000 in
/-- With a readable exam header, `initialise_exam_info` returns and leaves the `ExamInfo`
object computed from the header values. -/
theorem initialise_exam_info_run (env : Env) (w : Wrapper) (h : ExamHeader)
    (hh : w.has_exam_header h) :
    initialise_exam_info env w =
      (Except.ok (), { w with exam_info_sptr := some (h.exam_info env),
                              probes := w.probes ++ exam_info_probes }) := by
  obtain ⟨hopen, h1, h2, h3, h4, h5, h6, h7, h8, h9, h10⟩ := hh
  simp [initialise_exam_info, Bind.bind, Pure.pure, h1, h2, h3, h4, h5, h6, h7, h8, h9, h10,
    ExamHeader.exam_info, exam_info_probes]

/-- C18. With a readable exam header, `initialise_exam_info` produces exactly one time frame;
its start is `frameStartTime - scanStartTime` in 32-bit unsigned arithmetic, and its length is
the quotient of the integer division of `frameDuration` by 1000, not `frameDuration / 1000`
seconds: the remainder of the division is dropped. -/
theorem initialise_exam_info_time_frame (env : Env) (w : Wrapper) (h : ExamHeader)
    (hh : w.has_exam_header h) :
    ∃ w1 e, initialise_exam_info env w = (Except.ok (), w1) ∧ w1.exam_info_sptr = some e ∧
      e.time_frame_definitions =
        [((((h.frameStartTime % 2 ^ 32 + 2 ^ 32 - h.scanStartTime % 2 ^ 32) % 2 ^ 32 : Nat) : ℚ),
          (((h.frameStartTime % 2 ^ 32 + 2 ^ 32 - h.scanStartTime % 2 ^ 32) % 2 ^ 32 : Nat) : ℚ)
            + ((h.frameDuration % 2 ^ 32 / 1000 : Nat) : ℚ))] :=
  ⟨_, _, initialise_exam_info_run env w h hh, rfl, rfl⟩

/-- C18 on the sinogram example: `frameDuration = 1500` gives the frame from 60 s to 61 s,
of length 1 s and not 1.5 s. -/
theorem initialise_exam_info_time_frame_witness :
    (∃ w1 e, initialise_exam_info exampleEnv exampleClassifiedSino = (Except.ok (), w1) ∧
      w1.exam_info_sptr = some e ∧
      e.time_frame_definitions =
        [((((1500000060 % 2 ^ 32 + 2 ^ 32 - 1500000000 % 2 ^ 32) % 2 ^ 32 : Nat) : ℚ),
          (((1500000060 % 2 ^ 32 + 2 ^ 32 - 1500000000 % 2 ^ 32) % 2 ^ 32 : Nat) : ℚ)
            + ((1500 % 2 ^ 32 / 1000 : Nat) : ℚ))]) ∧
    ((initialise_exam_info exampleEnv exampleClassifiedSino).2.exam_info_sptr.map
      fun e => e.time_frame_definitions) = some [(60, 61)] ∧
    (61 : ℚ) - 60 ≠ 1500 / 1000 :=
  ⟨initialise_exam_info_time_frame exampleEnv exampleClassifiedSino exampleExamHeader (by decide!),
   by decide!, by decide!⟩

/-- C19. With a readable exam header and distinct enumerators, `initialise_exam_info` returns
for every pair of codes: `patientEntry` equal to ACQ_HEAD_FIRST gives `head_in`, equal to
ACQ_FEET_FIRST gives `feet_in`, every other code `unknown_orientation`; `patientPosition` equal
to ACQ_SUPINE, ACQ_PRONE, ACQ_LEFT_DECUB, ACQ_RIGHT_DECUB gives `supine`, `prone`, `left`,
`right`, every other code `unknown_rotation`; the orientation is decided by `patientEntry`
alone and the rotation by `patientPosition` alone. -/
theorem patient_position_mapping (env : Env) (w : Wrapper) (h : ExamHeader)
    (hh : w.has_exam_header h)
    (hentries : env.ACQ_HEAD_FIRST ≠ env.ACQ_FEET_FIRST)
    (hpositions : [env.ACQ_SUPINE, env.ACQ_PRONE, env.ACQ_LEFT_DECUB, env.ACQ_RIGHT_DECUB].Nodup) :
    ∃ w1 e, initialise_exam_info env w = (Except.ok (), w1) ∧ w1.exam_info_sptr = some e ∧
      (h.patientEntry % 2 ^ 32 = env.ACQ_HEAD_FIRST →
        e.patient_position.orientation = OrientationValue.head_in) ∧
      (h.patientEntry % 2 ^ 32 = env.ACQ_FEET_FIRST →
        e.patient_position.orientation = OrientationValue.feet_in) ∧
      (h.patientEntry % 2 ^ 32 ≠ env.ACQ_HEAD_FIRST → h.patientEntry % 2 ^ 32 ≠ env.ACQ_FEET_FIRST →
        e.patient_position.orientation = OrientationValue.unknown_orientation) ∧
      (h.patientPosition % 2 ^ 32 = env.ACQ_SUPINE →
        e.patient_position.rotation = RotationValue.supine) ∧
      (h.patientPosition % 2 ^ 32 = env.ACQ_PRONE →
        e.patient_position.rotation = RotationValue.prone) ∧
      (h.patientPosition % 2 ^ 32 = env.ACQ_LEFT_DECUB →
        e.patient_position.rotation = RotationValue.left) ∧
      (h.patientPosition % 2 ^ 32 = env.ACQ_RIGHT_DECUB →
        e.patient_position.rotation = RotationValue.right) ∧
      (h.patientPosition % 2 ^ 32 ∉
          [env.ACQ_SUPINE, env.ACQ_PRONE, env.ACQ_LEFT_DECUB, env.ACQ_RIGHT_DECUB] →
        e.patient_position.rotation = RotationValue.unknown_rotation) := by
  refine ⟨_, _, initialise_exam_info_run env w h hh, rfl, ?_⟩
  simp only [List.nodup_cons, List.mem_cons, List.mem_singleton, List.not_mem_nil, or_false,
    not_or, List.nodup_nil, and_true, not_false_eq_true] at hpositions
  obtain ⟨⟨h12, h13, h14⟩, ⟨h23, h24⟩, h34⟩ := hpositions
  simp only [ExamHeader.exam_info]
  generalize h.patientEntry % 2 ^ 32 = pe
  generalize h.patientPosition % 2 ^ 32 = pp
  refine ⟨?_, ?_, ?_, ?_, ?_, ?_, ?_, ?_⟩
  · intro he; simp [he]
  · intro he; simp [he, Ne.symm hentries]
  · intro he1 he2; simp [he1, he2]
  · intro hp; simp [hp]
  · intro hp; simp [hp, Ne.symm h12]
  · intro hp; simp [hp, Ne.symm h13, Ne.symm h23]
  · intro hp; simp [hp, Ne.symm h14, Ne.symm h24, Ne.symm h34]
  · intro hp
    simp only [List.mem_cons, List.mem_singleton, List.not_mem_nil, or_false, not_or] at hp
    simp [hp.1, hp.2.1, hp.2.2.1, hp.2.2.2]

/-- Witness for C19: the sinogram example, whose codes 0 and 0 are head first and supine. -/
theorem patient_position_mapping_witness :
    ∃ w1 e, initialise_exam_info exampleEnv exampleClassifiedSino = (Except.ok (), w1) ∧
      w1.exam_info_sptr = some e ∧
      (0 % 2 ^ 32 = exampleEnv.ACQ_HEAD_FIRST →
        e.patient_position.orientation = OrientationValue.head_in) ∧
      (0 % 2 ^ 32 = exampleEnv.ACQ_FEET_FIRST →
        e.patient_position.orientation = OrientationValue.feet_in) ∧
      (0 % 2 ^ 32 ≠ exampleEnv.ACQ_HEAD_FIRST → 0 % 2 ^ 32 ≠ exampleEnv.ACQ_FEET_FIRST →
        e.patient_position.orientation = OrientationValue.unknown_orientation) ∧
      (0 % 2 ^ 32 = exampleEnv.ACQ_SUPINE →
        e.patient_position.rotation = RotationValue.supine) ∧
      (0 % 2 ^ 32 = exampleEnv.ACQ_PRONE →
        e.patient_position.rotation = RotationValue.prone) ∧
      (0 % 2 ^ 32 = exampleEnv.ACQ_LEFT_DECUB →
        e.patient_position.rotation = RotationValue.left) ∧
      (0 % 2 ^ 32 = exampleEnv.ACQ_RIGHT_DECUB →
        e.patient_position.rotation = RotationValue.right) ∧
      (0 % 2 ^ 32 ∉ [exampleEnv.ACQ_SUPINE, exampleEnv.ACQ_PRONE, exampleEnv.ACQ_LEFT_DECUB,
          exampleEnv.ACQ_RIGHT_DECUB] →
        e.patient_position.rotation = RotationValue.unknown_rotation) :=
  patient_position_mapping exampleEnv exampleClassifiedSino exampleExamHeader
    (by decide!) (by decide) (by decide)

/-! ## Projection geometry (initialise_proj_data_info_from_HDF5) -/

/-- The reduction to 32 bits gives a value in the range of `int`. -/
theorem wrap_int32_range (x : Int) : -2 ^ 31 ≤ wrap_int32 x ∧ wrap_int32 x < 2 ^ 31 := by
  unfold wrap_int32
  norm_num
  omega

/-- The adjustments after the setters leave the number of rings alone. -/
theorem resolved_scanner_num_rings (v : ScannerLocals) (b : Bool) (s : Scanner) :
    (resolved_scanner v b s).num_rings = v.num_rings := by
  unfold resolved_scanner adjust_max_num_timing_poss adjust_size_of_timing_pos
    adjust_timing_resolution adjust_ring_radius
  split_ifs <;> rfl

set_option maxHeartbeats 4000000 in
/-- With a readable scanner header, a catalog entry and readable `numTOF_bins`,
`absTableLongitude` and `tableElevation`, `initialise_proj_data_info_from_HDF5` returns and
leaves the geometry constructed from the resolved scanner. -/
theorem initialise_proj_data_info_from_HDF5_run (env : Env) (w : Wrapper) (h : ScannerHeader)
    (cat : Scanner) (t : Nat) (a b : Int)
    (hh : w.has_scanner_header h)
    (hcat : env.get_scanner_from_name h.scannerDesc = some cat)
    (ht : w.file.lookup "/HeaderData/Sorter/numTOF_bins" = some (H5Object.uint32 t))
    (ha : w.file.lookup "/HeaderData/AcqParameters/LandmarkParameters/absTableLongitude"
      = some (H5Object.int32 a))
    (hb : w.file.lookup "/HeaderData/AcqParameters/LandmarkParameters/tableElevation"
      = some (H5Object.int32 b)) :
    ∃ w1, initialise_proj_data_info_from_HDF5 env w = (Except.ok (), w1) ∧
      w1.proj_data_info_sptr = some
        { scanner_sptr := resolved_scanner h.locals (w.is_list || h.isListFile % 2 ^ 32 != 0) cat,
          span := 2,
          max_delta := wrap_int32
            ((resolved_scanner h.locals (w.is_list || h.isListFile % 2 ^ 32 != 0) cat).num_rings - 1),
          num_views := Int.tdiv
            (resolved_scanner h.locals (w.is_list || h.isListFile % 2 ^ 32 != 0) cat).num_detectors_per_ring 2,
          num_tangential_poss :=
            (resolved_scanner h.locals (w.is_list || h.isListFile % 2 ^ 32 != 0) cat).max_num_non_arccorrected_bins,
          arc_corrected := false,
          tof_mash_factor := if (w.is_list || h.isListFile % 2 ^ 32 != 0) then 1 else 0,
          bed_position_horizontal := (wrap_int32 a : ℚ) / 10,
          bed_position_vertical := (wrap_int32 b : ℚ) / 10 } := by
  obtain ⟨ps, hrun⟩ := get_scanner_from_HDF5_run env w h cat hh hcat
  have hopen : w.file.id_open = true := hh.1
  have hl : w.file.lookup "/HeaderData/RDFConfiguration/isListFile" = some (H5Object.uint32 h.isListFile) := by
    unfold Wrapper.has_scanner_header at hh
    exact hh.2.2.2.2.2.2.2.2.2.2.2.2.2.2.2.2.2.2.2.2.2
  cases hf : w.is_list <;> by_cases htt : t % 4294967296 > 1 <;>
    by_cases hll : h.isListFile % 4294967296 = 0 <;>
    simp [initialise_proj_data_info_from_HDF5, is_list_file, Bind.bind, Pure.pure, hrun, hopen, hl,
      ht, ha, hb, hf, htt, hll]

/-- C20. With a readable scanner header, a catalog entry and readable `numTOF_bins`,
`absTableLongitude` and `tableElevation`, `initialise_proj_data_info_from_HDF5` constructs,
for the scanner `s` that `get_scanner_from_HDF5` resolves with `R` rings, `D` detectors per
ring and `B` maximum non-arc-corrected bins, the projection geometry with that scanner,
span 2, maximum ring difference `R - 1`, `D / 2` views (integer division), `B` tangential
positions and `arc_corrected = false`, whatever else the container holds. -/
theorem initialise_proj_data_info_geometry (env : Env) (w : Wrapper) (h : ScannerHeader)
    (cat : Scanner) (t : Nat) (a b : Int)
    (hh : w.has_scanner_header h)
    (hcat : env.get_scanner_from_name h.scannerDesc = some cat)
    (ht : w.file.lookup "/HeaderData/Sorter/numTOF_bins" = some (H5Object.uint32 t))
    (ha : w.file.lookup "/HeaderData/AcqParameters/LandmarkParameters/absTableLongitude"
      = some (H5Object.int32 a))
    (hb : w.file.lookup "/HeaderData/AcqParameters/LandmarkParameters/tableElevation"
      = some (H5Object.int32 b)) :
    ∃ s w1 p, (get_scanner_from_HDF5 env w).1 = Except.ok s ∧
      initialise_proj_data_info_from_HDF5 env w = (Except.ok (), w1) ∧
      w1.proj_data_info_sptr = some p ∧
      p.scanner_sptr = s ∧ p.span = 2 ∧
      p.max_delta = wrap_int32 (s.num_rings - 1) ∧
      (s.num_rings ≠ -2 ^ 31 → p.max_delta = s.num_rings - 1) ∧
      p.num_views = Int.tdiv s.num_detectors_per_ring 2 ∧
      p.num_tangential_poss = s.max_num_non_arccorrected_bins ∧
      p.arc_corrected = false := by
  obtain ⟨ps, hrun⟩ := get_scanner_from_HDF5_run env w h cat hh hcat
  obtain ⟨w1, hw1, hp⟩ := initialise_proj_data_info_from_HDF5_run env w h cat t a b hh hcat ht ha hb
  refine ⟨_, w1, _, by rw [hrun], hw1, hp, rfl, rfl, rfl, ?_, rfl, rfl, rfl⟩
  intro hne
  show wrap_int32 _ = _
  rw [resolved_scanner_num_rings] at hne ⊢
  have hr : -2 ^ 31 ≤ h.locals.num_rings ∧ h.locals.num_rings < 2 ^ 31 := wrap_int32_range _
  apply wrap_int32_of_range
  · have h1 := hr.1
    norm_num at h1 hne ⊢
    omega
  · have h2 := hr.2
    norm_num at h2 ⊢
    omega

/-- Witness for C20: the sinogram example has 45 rings, 448 detectors per ring and 357 bins,
so the geometry has maximum ring difference 44, 224 views and 357 tangential positions. -/
theorem initialise_proj_data_info_geometry_witness :
    (∃ s w1 p, (get_scanner_from_HDF5 exampleEnv exampleClassifiedSino).1 = Except.ok s ∧
      initialise_proj_data_info_from_HDF5 exampleEnv exampleClassifiedSino = (Except.ok (), w1) ∧
      w1.proj_data_info_sptr = some p ∧
      p.scanner_sptr = s ∧ p.span = 2 ∧
      p.max_delta = wrap_int32 (s.num_rings - 1) ∧
      (s.num_rings ≠ -2 ^ 31 → p.max_delta = s.num_rings - 1) ∧
      p.num_views = Int.tdiv s.num_detectors_per_ring 2 ∧
      p.num_tangential_poss = s.max_num_non_arccorrected_bins ∧
      p.arc_corrected = false) ∧
    ((initialise_proj_data_info_from_HDF5 exampleEnv exampleClassifiedSino).2.proj_data_info_sptr.map
      fun p => (p.span, p.max_delta, p.num_views, p.num_tangential_poss, p.arc_corrected)) =
      some (2, 44, 224, 357, false) :=
  ⟨initialise_proj_data_info_geometry exampleEnv exampleClassifiedSino exampleScannerHeader
      exampleScanner 1 1250 (-300) (by decide!) (by rfl) (by decide) (by decide) (by decide),
   by decide!⟩

/-! ## Positions and pairs (PatientPosition) -/

/-- With the enumerators in the order that `get_position` relies on, the value returned for
a pair that is not one of the eight named positions is that of `unknown_position`, and
for a named pair it is `orientation * 4 + rotation`. -/
theorem PatientPosition.get_position_eq (c : PatientPositionEnums) (hc : c.ordered)
    (pp : PatientPosition) :
    pp.get_position c =
      if pp.is_named then c.orientation pp.orientation * 4 + c.rotation pp.rotation
      else c.position PositionValue.unknown_position := by
  obtain ⟨h1, h2, h3, h4, h5, h6, h7, h8, _⟩ := hc
  obtain ⟨o, r⟩ := pp
  unfold PatientPosition.get_position PatientPosition.is_named
  cases o <;> cases r <;> simp <;> omega

/-- The value returned for a named pair is not that of `unknown_position`. -/
theorem PatientPosition.get_position_named (c : PatientPositionEnums) (hc : c.ordered)
    (pp : PatientPosition) (hn : pp.is_named) :
    pp.get_position c ≠ c.position PositionValue.unknown_position := by
  rw [PatientPosition.get_position_eq c hc pp, if_pos hn]
  obtain ⟨_, _, _, _, _, _, _, _, e1, e2, e3, e4, e5, e6, e7, e8, hu⟩ := hc
  simp only [List.mem_cons, List.mem_singleton, List.not_mem_nil, or_false, not_or] at hu
  obtain ⟨o, r⟩ := pp
  obtain ⟨ho, hr⟩ := hn
  simp only at ho hr
  rcases ho with ho | ho <;> rcases hr with hr | hr | hr | hr <;> subst ho <;> subst hr <;>
    simp only <;> omega

/-- C29. With the enumerators of `stir/PatientPosition.h` in the order that `get_position`
relies on: for each of the nine position values `p`, `PatientPosition(p).get_position()`
is `p`; for every pair of an orientation and a rotation, `get_position()` is
`unknown_position` exactly when the orientation is neither `head_in` nor `feet_in` or the
rotation is none of `supine`, `prone`, `right`, `left`, and then `get_position_as_string()`
is "unknown"; so the position that `initialise_exam_info` leaves for a `patientEntry` or
`patientPosition` code that it does not recognise is unknown. -/
theorem patient_position_round_trip (c : PatientPositionEnums) (hc : c.ordered) :
    (∀ p : PositionValue, (PatientPosition.ofPosition p).get_position c = c.position p) ∧
    (∀ pp : PatientPosition,
      pp.get_position c = c.position PositionValue.unknown_position ↔ ¬ pp.is_named) ∧
    (∀ pp : PatientPosition, ¬ pp.is_named → pp.get_position_as_string c = "unknown") ∧
    (∀ (env : Env) (w : Wrapper) (h : ExamHeader), w.has_exam_header h →
      ((h.patientEntry % 2 ^ 32 ≠ env.ACQ_HEAD_FIRST ∧ h.patientEntry % 2 ^ 32 ≠ env.ACQ_FEET_FIRST) ∨
        h.patientPosition % 2 ^ 32 ∉
          [env.ACQ_SUPINE, env.ACQ_PRONE, env.ACQ_LEFT_DECUB, env.ACQ_RIGHT_DECUB]) →
      ∃ w1 e, initialise_exam_info env w = (Except.ok (), w1) ∧ w1.exam_info_sptr = some e ∧
        e.patient_position.get_position c = c.position PositionValue.unknown_position ∧
        e.patient_position.get_position_as_string c = "unknown") := by
  have hiff : ∀ pp : PatientPosition,
      pp.get_position c = c.position PositionValue.unknown_position ↔ ¬ pp.is_named := by
    intro pp
    constructor
    · intro h hn
      exact PatientPosition.get_position_named c hc pp hn h
    · intro hn
      rw [PatientPosition.get_position_eq c hc pp, if_neg hn]
  have hstr : ∀ pp : PatientPosition, ¬ pp.is_named → pp.get_position_as_string c = "unknown" := by
    intro pp hn
    have hu := (hiff pp).mpr hn
    obtain ⟨_, _, _, _, _, _, _, _, _, _, _, _, _, _, _, _, hmem⟩ := hc
    simp only [List.mem_cons, List.mem_singleton, List.not_mem_nil, or_false, not_or] at hmem
    unfold PatientPosition.get_position_as_string
    rw [hu]
    simp [hmem]
  refine ⟨?_, hiff, hstr, ?_⟩
  · intro p
    rw [PatientPosition.get_position_eq c hc]
    obtain ⟨_, _, _, _, _, _, _, _, e1, e2, e3, e4, e5, e6, e7, e8, hu⟩ := hc
    cases p <;> simp [PatientPosition.ofPosition, PatientPosition.is_named, *]
  · intro env w h hh hcode
    have hn : ¬ (h.exam_info env).patient_position.is_named := by
      simp only [ExamHeader.exam_info, PatientPosition.is_named]
      revert hcode
      generalize h.patientEntry % 2 ^ 32 = pe
      generalize h.patientPosition % 2 ^ 32 = pp
      intro hcode
      rcases hcode with ⟨he1, he2⟩ | hp
      · simp [he1, he2]
      · simp only [List.mem_cons, List.mem_singleton, List.not_mem_nil, or_false, not_or] at hp
        simp [hp.1, hp.2.1, hp.2.2.1, hp.2.2.2]
    exact ⟨_, _, initialise_exam_info_run env w h hh, rfl, (hiff _).mpr hn, hstr _ hn⟩

/-- Witness for C29: the enumerators numbered from 0 in the order of the header; `FFDL` comes
back as `FFDL`, and feet first with an unknown rotation gives `unknown_position`. -/
theorem patient_position_round_trip_witness :
    exampleEnums.ordered ∧
    (PatientPosition.ofPosition PositionValue.FFDL).get_position exampleEnums
      = exampleEnums.position PositionValue.FFDL ∧
    (({ orientation := OrientationValue.feet_in, rotation := RotationValue.unknown_rotation } :
        PatientPosition).get_position exampleEnums
      = exampleEnums.position PositionValue.unknown_position ↔
      ¬ ({ orientation := OrientationValue.feet_in, rotation := RotationValue.unknown_rotation } :
        PatientPosition).is_named) :=
  ⟨by decide, (patient_position_round_trip exampleEnums (by decide)).1 PositionValue.FFDL,
   (patient_position_round_trip exampleEnums (by decide)).2.1 _⟩

/-! ## Initialisation on another kind of file, geometry type, frame start -/

/-- Counterexample to C21: on the classified examples, `initialise_listmode_data` on the
sinogram file, `initialise_proj_data` on the list-mode file and
`initialise_efficiency_factors` on the geometry file each raise the fatal error; none
returns `no`. -/
theorem initialise_on_other_kind_raises :
    exampleClassifiedSino.rdf_ver = 9 ∧ exampleClassifiedList.rdf_ver = 9 ∧
    exampleClassifiedGeo.rdf_ver = 9 ∧
    exampleClassifiedSino.flags = (false, true, false, false) ∧
    exampleClassifiedList.flags = (true, false, false, false) ∧
    exampleClassifiedGeo.flags = (false, false, true, false) ∧
    (initialise_listmode_data exampleEnv exampleClassifiedSino).1 =
      Except.error (Err.stir "The file provided is not listmode. Aborting") ∧
    (initialise_proj_data exampleEnv 1 exampleClassifiedList).1 =
      Except.error (Err.stir "The file provided is not sinogram data. Aborting") ∧
    (initialise_efficiency_factors exampleEnv exampleClassifiedGeo).1 =
      Except.error (Err.stir "The file provided is not norm data. Aborting") := by
  decide

/-- A sequence keeps the recorded version when its parts do. -/
theorem M.bind_keeps_rdf_ver {α β : Type} {m : M α} {k : α → M β}
    (hm : ∀ w, (m w).2.rdf_ver = w.rdf_ver) (hk : ∀ a w, (k a w).2.rdf_ver = w.rdf_ver) :
    ∀ w, (M.bind m k w).2.rdf_ver = w.rdf_ver := by
  intro w
  have h1 := hm w
  unfold M.bind
  rcases hr : m w with ⟨r, w1⟩
  rw [hr] at h1
  cases r with
  | ok a => simp only; rw [hk a w1]; exact h1
  | error e => exact h1

/-- A conditional keeps the recorded version when its branches do. -/
theorem M.ite_keeps_rdf_ver {α : Type} {c : Prop} [Decidable c] {A B : M α}
    (hA : ∀ w, (A w).2.rdf_ver = w.rdf_ver) (hB : ∀ w, (B w).2.rdf_ver = w.rdf_ver) :
    ∀ w, ((if c then A else B) w).2.rdf_ver = w.rdf_ver := by
  intro w
  split
  · exact hA w
  · exact hB w

/-- Returning keeps the recorded version. -/
theorem M.pure_keeps_rdf_ver {α : Type} (a : α) : ∀ w, (M.pure a w).2.rdf_ver = w.rdf_ver :=
  fun _ => rfl

/-- Reading the wrapper keeps the recorded version. -/
theorem getW_keeps_rdf_ver : ∀ w, (getW w).2.rdf_ver = w.rdf_ver :=
  fun _ => rfl

/-- Throwing keeps the recorded version. -/
theorem error_keeps_rdf_ver {α : Type} (msg : String) :
    ∀ w, ((error msg : M α) w).2.rdf_ver = w.rdf_ver :=
  fun _ => rfl

/-- Throwing keeps the recorded version. -/
theorem throwErr_keeps_rdf_ver {α : Type} (e : Err) :
    ∀ w, ((throwErr e : M α) w).2.rdf_ver = w.rdf_ver :=
  fun _ => rfl

/-- An update of the wrapper that keeps the recorded version. -/
theorem modifyW_keeps_rdf_ver (f : Wrapper → Wrapper) (hf : ∀ w, (f w).rdf_ver = w.rdf_ver) :
    ∀ w, (modifyW f w).2.rdf_ver = w.rdf_ver :=
  hf

/-- The call `openDataSet` keeps the recorded version. -/
theorem openDataSet_keeps_rdf_ver (path : String) :
    ∀ w, (openDataSet path w).2.rdf_ver = w.rdf_ver := by
  intro w
  simp only [openDataSet, probe, Bind.bind, Pure.pure, M.bind, modifyW, getW]
  rcases w.file.lookup path with _ | (_|_|_|_|_|_) <;> rfl

/-- Reading an open dataset keeps the recorded version. -/
theorem read_NATIVE_UINT32_keeps_rdf_ver (path : String) (o : H5Object) :
    ∀ w, (read_NATIVE_UINT32 path o w).2.rdf_ver = w.rdf_ver := by
  intro w
  unfold read_NATIVE_UINT32
  split <;> rfl

/-- The function `read_dataset_uint32` keeps the recorded version. -/
theorem read_dataset_uint32_keeps_rdf_ver (path : String) :
    ∀ w, (read_dataset_uint32 path w).2.rdf_ver = w.rdf_ver := by
  unfold read_dataset_uint32
  simp only [Bind.bind]
  exact M.bind_keeps_rdf_ver (openDataSet_keeps_rdf_ver _)
    (fun o => read_NATIVE_UINT32_keeps_rdf_ver _ o)

/-- The call `H5Lexists` keeps the recorded version. -/
theorem H5Lexists_keeps_rdf_ver (path : String) :
    ∀ w, (H5Lexists path w).2.rdf_ver = w.rdf_ver := by
  intro w
  rfl

/-- The guard on the open file keeps the recorded version. -/
theorem check_open_keeps_rdf_ver : ∀ w, (check_open w).2.rdf_ver = w.rdf_ver := by
  intro w
  simp only [check_open, Bind.bind, Pure.pure, M.bind, getW]
  split <;> rfl

/-- The predicate `is_list_file` keeps the recorded version. -/
theorem is_list_file_keeps_rdf_ver : ∀ w, (is_list_file w).2.rdf_ver = w.rdf_ver := by
  unfold is_list_file
  simp only [Bind.bind, Pure.pure]
  repeat' (first
    | with_reducible exact openDataSet_keeps_rdf_ver _
    | with_reducible exact read_NATIVE_UINT32_keeps_rdf_ver _ _
    | with_reducible exact read_dataset_uint32_keeps_rdf_ver _
    | with_reducible exact H5Lexists_keeps_rdf_ver _
    | with_reducible exact check_open_keeps_rdf_ver
    | with_reducible exact getW_keeps_rdf_ver
    | with_reducible exact M.pure_keeps_rdf_ver _
    | with_reducible exact error_keeps_rdf_ver _
    | with_reducible exact throwErr_keeps_rdf_ver _
    | with_reducible apply M.bind_keeps_rdf_ver
    | with_reducible apply M.ite_keeps_rdf_ver
    | (intro a w; revert w))

/-- The predicate `is_sino_file` keeps the recorded version. -/
theorem is_sino_file_keeps_rdf_ver : ∀ w, (is_sino_file w).2.rdf_ver = w.rdf_ver := by
  unfold is_sino_file
  simp only [Bind.bind, Pure.pure]
  repeat' (first
    | with_reducible exact openDataSet_keeps_rdf_ver _
    | with_reducible exact read_NATIVE_UINT32_keeps_rdf_ver _ _
    | with_reducible exact read_dataset_uint32_keeps_rdf_ver _
    | with_reducible exact H5Lexists_keeps_rdf_ver _
    | with_reducible exact check_open_keeps_rdf_ver
    | with_reducible exact getW_keeps_rdf_ver
    | with_reducible exact M.pure_keeps_rdf_ver _
    | with_reducible exact error_keeps_rdf_ver _
    | with_reducible exact throwErr_keeps_rdf_ver _
    | with_reducible apply M.bind_keeps_rdf_ver
    | with_reducible apply M.ite_keeps_rdf_ver
    | (intro a w; revert w))

/-- The predicate `is_geo_file` keeps the recorded version. -/
theorem is_geo_file_keeps_rdf_ver : ∀ w, (is_geo_file w).2.rdf_ver = w.rdf_ver := by
  unfold is_geo_file
  simp only [Bind.bind, Pure.pure]
  repeat' (first
    | with_reducible exact openDataSet_keeps_rdf_ver _
    | with_reducible exact read_NATIVE_UINT32_keeps_rdf_ver _ _
    | with_reducible exact read_dataset_uint32_keeps_rdf_ver _
    | with_reducible exact H5Lexists_keeps_rdf_ver _
    | with_reducible exact check_open_keeps_rdf_ver
    | with_reducible exact getW_keeps_rdf_ver
    | with_reducible exact M.pure_keeps_rdf_ver _
    | with_reducible exact error_keeps_rdf_ver _
    | with_reducible exact throwErr_keeps_rdf_ver _
    | with_reducible apply M.bind_keeps_rdf_ver
    | with_reducible apply M.ite_keeps_rdf_ver
    | (intro a w; revert w))

/-- The predicate `is_norm_file` keeps the recorded version. -/
theorem is_norm_file_keeps_rdf_ver : ∀ w, (is_norm_file w).2.rdf_ver = w.rdf_ver := by
  unfold is_norm_file
  simp only [Bind.bind, Pure.pure]
  repeat' (first
    | with_reducible exact openDataSet_keeps_rdf_ver _
    | with_reducible exact read_NATIVE_UINT32_keeps_rdf_ver _ _
    | with_reducible exact read_dataset_uint32_keeps_rdf_ver _
    | with_reducible exact H5Lexists_keeps_rdf_ver _
    | with_reducible exact check_open_keeps_rdf_ver
    | with_reducible exact getW_keeps_rdf_ver
    | with_reducible exact M.pure_keeps_rdf_ver _
    | with_reducible exact error_keeps_rdf_ver _
    | with_reducible exact throwErr_keeps_rdf_ver _
    | with_reducible apply M.bind_keeps_rdf_ver
    | with_reducible apply M.ite_keeps_rdf_ver
    | (intro a w; revert w))

/-- The test `not_list_and_not_sino` keeps the recorded version. -/
theorem not_list_and_not_sino_keeps_rdf_ver : ∀ w, (not_list_and_not_sino w).2.rdf_ver = w.rdf_ver := by
  unfold not_list_and_not_sino
  simp only [Bind.bind, Pure.pure]
  repeat' (first
    | with_reducible exact is_list_file_keeps_rdf_ver
    | with_reducible exact is_sino_file_keeps_rdf_ver
    | with_reducible exact openDataSet_keeps_rdf_ver _
    | with_reducible exact read_NATIVE_UINT32_keeps_rdf_ver _ _
    | with_reducible exact read_dataset_uint32_keeps_rdf_ver _
    | with_reducible exact H5Lexists_keeps_rdf_ver _
    | with_reducible exact check_open_keeps_rdf_ver
    | with_reducible exact getW_keeps_rdf_ver
    | with_reducible exact M.pure_keeps_rdf_ver _
    | with_reducible exact error_keeps_rdf_ver _
    | with_reducible exact throwErr_keeps_rdf_ver _
    | with_reducible apply M.bind_keeps_rdf_ver
    | with_reducible apply M.ite_keeps_rdf_ver
    | (intro a w; revert w))

/-- The rank check keeps the recorded version. -/
theorem check_rank_keeps_rdf_ver (env : Env) (rank : Nat) : ∀ w, (check_rank env rank w).2.rdf_ver = w.rdf_ver := by
  unfold check_rank
  simp only [Bind.bind, Pure.pure]
  repeat' (first
    | with_reducible exact openDataSet_keeps_rdf_ver _
    | with_reducible exact read_NATIVE_UINT32_keeps_rdf_ver _ _
    | with_reducible exact read_dataset_uint32_keeps_rdf_ver _
    | with_reducible exact H5Lexists_keeps_rdf_ver _
    | with_reducible exact check_open_keeps_rdf_ver
    | with_reducible exact getW_keeps_rdf_ver
    | with_reducible exact M.pure_keeps_rdf_ver _
    | with_reducible exact error_keeps_rdf_ver _
    | with_reducible exact throwErr_keeps_rdf_ver _
    | with_reducible apply M.bind_keeps_rdf_ver
    | with_reducible apply M.ite_keeps_rdf_ver)

/-- The assignment of the extents keeps the recorded version. -/
theorem set_SUB_keeps_rdf_ver (nx ny nz : Nat) : ∀ w, (set_SUB nx ny nz w).2.rdf_ver = w.rdf_ver := by
  unfold set_SUB
  simp only [Bind.bind, Pure.pure]
  repeat' (first
    | with_reducible exact openDataSet_keeps_rdf_ver _
    | with_reducible exact read_NATIVE_UINT32_keeps_rdf_ver _ _
    | with_reducible exact read_dataset_uint32_keeps_rdf_ver _
    | with_reducible exact H5Lexists_keeps_rdf_ver _
    | with_reducible exact check_open_keeps_rdf_ver
    | with_reducible exact getW_keeps_rdf_ver
    | with_reducible exact M.pure_keeps_rdf_ver _
    | with_reducible exact error_keeps_rdf_ver _
    | with_reducible exact throwErr_keeps_rdf_ver _
    | (with_reducible apply modifyW_keeps_rdf_ver; exact fun _ => rfl)
    | with_reducible apply M.bind_keeps_rdf_ver
    | with_reducible apply M.ite_keeps_rdf_ver
    | (intro a w; revert w))

/-- The function `get_scanner_sptr` keeps the recorded version. -/
theorem get_scanner_sptr_keeps_rdf_ver : ∀ w, (get_scanner_sptr w).2.rdf_ver = w.rdf_ver := by
  intro w
  simp only [get_scanner_sptr, Bind.bind, Pure.pure, M.bind, getW]
  cases w.proj_data_info_sptr <;> rfl

/-- The view-number test keeps the recorded version. -/
theorem view_num_is_incorrect_keeps_rdf_ver (view_num : Nat) : ∀ w, (view_num_is_incorrect view_num w).2.rdf_ver = w.rdf_ver := by
  unfold view_num_is_incorrect
  simp only [Bind.bind, Pure.pure]
  repeat' (first
    | with_reducible exact get_scanner_sptr_keeps_rdf_ver
    | with_reducible exact openDataSet_keeps_rdf_ver _
    | with_reducible exact read_NATIVE_UINT32_keeps_rdf_ver _ _
    | with_reducible exact read_dataset_uint32_keeps_rdf_ver _
    | with_reducible exact H5Lexists_keeps_rdf_ver _
    | with_reducible exact check_open_keeps_rdf_ver
    | with_reducible exact getW_keeps_rdf_ver
    | with_reducible exact M.pure_keeps_rdf_ver _
    | with_reducible exact error_keeps_rdf_ver _
    | with_reducible exact throwErr_keeps_rdf_ver _
    | with_reducible apply M.bind_keeps_rdf_ver
    | with_reducible apply M.ite_keeps_rdf_ver
    | (intro a w; revert w))

/-- The function `initialise_listmode_data` keeps the recorded version. -/
theorem initialise_listmode_data_keeps_rdf_ver (env : Env) : ∀ w, (initialise_listmode_data env w).2.rdf_ver = w.rdf_ver := by
  unfold initialise_listmode_data
  simp only [Bind.bind, Pure.pure]
  repeat' (first
    | with_reducible exact is_list_file_keeps_rdf_ver
    | with_reducible exact is_sino_file_keeps_rdf_ver
    | with_reducible exact is_geo_file_keeps_rdf_ver
    | with_reducible exact is_norm_file_keeps_rdf_ver
    | with_reducible exact not_list_and_not_sino_keeps_rdf_ver
    | with_reducible exact check_rank_keeps_rdf_ver _ _
    | with_reducible exact set_SUB_keeps_rdf_ver _ _ _
    | with_reducible exact view_num_is_incorrect_keeps_rdf_ver _
    | with_reducible exact openDataSet_keeps_rdf_ver _
    | with_reducible exact read_NATIVE_UINT32_keeps_rdf_ver _ _
    | with_reducible exact read_dataset_uint32_keeps_rdf_ver _
    | with_reducible exact H5Lexists_keeps_rdf_ver _
    | with_reducible exact check_open_keeps_rdf_ver
    | with_reducible exact getW_keeps_rdf_ver
    | with_reducible exact M.pure_keeps_rdf_ver _
    | with_reducible exact error_keeps_rdf_ver _
    | with_reducible exact throwErr_keeps_rdf_ver _
    | (with_reducible apply modifyW_keeps_rdf_ver; exact fun _ => rfl)
    | with_reducible apply M.bind_keeps_rdf_ver
    | with_reducible apply M.ite_keeps_rdf_ver
    | (intro a w; revert w))

/-- The function `initialise_singles_data` keeps the recorded version. -/
theorem initialise_singles_data_keeps_rdf_ver (env : Env) : ∀ w, (initialise_singles_data env w).2.rdf_ver = w.rdf_ver := by
  unfold initialise_singles_data
  simp only [Bind.bind, Pure.pure]
  repeat' (first
    | with_reducible exact is_list_file_keeps_rdf_ver
    | with_reducible exact is_sino_file_keeps_rdf_ver
    | with_reducible exact is_geo_file_keeps_rdf_ver
    | with_reducible exact is_norm_file_keeps_rdf_ver
    | with_reducible exact not_list_and_not_sino_keeps_rdf_ver
    | with_reducible exact check_rank_keeps_rdf_ver _ _
    | with_reducible exact set_SUB_keeps_rdf_ver _ _ _
    | with_reducible exact view_num_is_incorrect_keeps_rdf_ver _
    | with_reducible exact openDataSet_keeps_rdf_ver _
    | with_reducible exact read_NATIVE_UINT32_keeps_rdf_ver _ _
    | with_reducible exact read_dataset_uint32_keeps_rdf_ver _
    | with_reducible exact H5Lexists_keeps_rdf_ver _
    | with_reducible exact check_open_keeps_rdf_ver
    | with_reducible exact getW_keeps_rdf_ver
    | with_reducible exact M.pure_keeps_rdf_ver _
    | with_reducible exact error_keeps_rdf_ver _
    | with_reducible exact throwErr_keeps_rdf_ver _
    | (with_reducible apply modifyW_keeps_rdf_ver; exact fun _ => rfl)
    | with_reducible apply M.bind_keeps_rdf_ver
    | with_reducible apply M.ite_keeps_rdf_ver
    | (intro a w; revert w))

/-- The function `initialise_proj_data` keeps the recorded version. -/
theorem initialise_proj_data_keeps_rdf_ver (env : Env) (view_num : Nat) : ∀ w, (initialise_proj_data env view_num w).2.rdf_ver = w.rdf_ver := by
  unfold initialise_proj_data
  simp only [Bind.bind, Pure.pure]
  repeat' (first
    | with_reducible exact is_list_file_keeps_rdf_ver
    | with_reducible exact is_sino_file_keeps_rdf_ver
    | with_reducible exact is_geo_file_keeps_rdf_ver
    | with_reducible exact is_norm_file_keeps_rdf_ver
    | with_reducible exact not_list_and_not_sino_keeps_rdf_ver
    | with_reducible exact check_rank_keeps_rdf_ver _ _
    | with_reducible exact set_SUB_keeps_rdf_ver _ _ _
    | with_reducible exact view_num_is_incorrect_keeps_rdf_ver _
    | with_reducible exact openDataSet_keeps_rdf_ver _
    | with_reducible exact read_NATIVE_UINT32_keeps_rdf_ver _ _
    | with_reducible exact read_dataset_uint32_keeps_rdf_ver _
    | with_reducible exact H5Lexists_keeps_rdf_ver _
    | with_reducible exact check_open_keeps_rdf_ver
    | with_reducible exact getW_keeps_rdf_ver
    | with_reducible exact M.pure_keeps_rdf_ver _
    | with_reducible exact error_keeps_rdf_ver _
    | with_reducible exact throwErr_keeps_rdf_ver _
    | (with_reducible apply modifyW_keeps_rdf_ver; exact fun _ => rfl)
    | with_reducible apply M.bind_keeps_rdf_ver
    | with_reducible apply M.ite_keeps_rdf_ver
    | (intro a w; revert w))

/-- The function `initialise_geo_factors_data` keeps the recorded version. -/
theorem initialise_geo_factors_data_keeps_rdf_ver (env : Env) (slice_num : Nat) : ∀ w, (initialise_geo_factors_data env slice_num w).2.rdf_ver = w.rdf_ver := by
  unfold initialise_geo_factors_data
  simp only [Bind.bind, Pure.pure]
  repeat' (first
    | with_reducible exact is_list_file_keeps_rdf_ver
    | with_reducible exact is_sino_file_keeps_rdf_ver
    | with_reducible exact is_geo_file_keeps_rdf_ver
    | with_reducible exact is_norm_file_keeps_rdf_ver
    | with_reducible exact not_list_and_not_sino_keeps_rdf_ver
    | with_reducible exact check_rank_keeps_rdf_ver _ _
    | with_reducible exact set_SUB_keeps_rdf_ver _ _ _
    | with_reducible exact view_num_is_incorrect_keeps_rdf_ver _
    | with_reducible exact openDataSet_keeps_rdf_ver _
    | with_reducible exact read_NATIVE_UINT32_keeps_rdf_ver _ _
    | with_reducible exact read_dataset_uint32_keeps_rdf_ver _
    | with_reducible exact H5Lexists_keeps_rdf_ver _
    | with_reducible exact check_open_keeps_rdf_ver
    | with_reducible exact getW_keeps_rdf_ver
    | with_reducible exact M.pure_keeps_rdf_ver _
    | with_reducible exact error_keeps_rdf_ver _
    | with_reducible exact throwErr_keeps_rdf_ver _
    | (with_reducible apply modifyW_keeps_rdf_ver; exact fun _ => rfl)
    | with_reducible apply M.bind_keeps_rdf_ver
    | with_reducible apply M.ite_keeps_rdf_ver
    | (intro a w; revert w))

/-- The function `initialise_efficiency_factors` keeps the recorded version. -/
theorem initialise_efficiency_factors_keeps_rdf_ver (env : Env) : ∀ w, (initialise_efficiency_factors env w).2.rdf_ver = w.rdf_ver := by
  unfold initialise_efficiency_factors
  simp only [Bind.bind, Pure.pure]
  repeat' (first
    | with_reducible exact is_list_file_keeps_rdf_ver
    | with_reducible exact is_sino_file_keeps_rdf_ver
    | with_reducible exact is_geo_file_keeps_rdf_ver
    | with_reducible exact is_norm_file_keeps_rdf_ver
    | with_reducible exact not_list_and_not_sino_keeps_rdf_ver
    | with_reducible exact check_rank_keeps_rdf_ver _ _
    | with_reducible exact set_SUB_keeps_rdf_ver _ _ _
    | with_reducible exact view_num_is_incorrect_keeps_rdf_ver _
    | with_reducible exact openDataSet_keeps_rdf_ver _
    | with_reducible exact read_NATIVE_UINT32_keeps_rdf_ver _ _
    | with_reducible exact read_dataset_uint32_keeps_rdf_ver _
    | with_reducible exact H5Lexists_keeps_rdf_ver _
    | with_reducible exact check_open_keeps_rdf_ver
    | with_reducible exact getW_keeps_rdf_ver
    | with_reducible exact M.pure_keeps_rdf_ver _
    | with_reducible exact error_keeps_rdf_ver _
    | with_reducible exact throwErr_keeps_rdf_ver _
    | (with_reducible apply modifyW_keeps_rdf_ver; exact fun _ => rfl)
    | with_reducible apply M.bind_keeps_rdf_ver
    | with_reducible apply M.ite_keeps_rdf_ver
    | (intro a w; revert w))

/-- A sequence that returns `no` ends in a state whose version is not 9 when its
continuation does. -/
theorem M.bind_no_version {α : Type} {m : M α} {k : α → M Succeeded}
    (hk : ∀ a v w1 w, k a w = (Except.ok v, w1) → v = Succeeded.no → w1.rdf_ver ≠ 9) :
    ∀ v w1 w, M.bind m k w = (Except.ok v, w1) → v = Succeeded.no → w1.rdf_ver ≠ 9 := by
  intro v w1 w h
  obtain ⟨a, w0, -, h2⟩ := M.bind_ok_inv h
  exact hk a v w1 w0 h2

/-- A conditional that returns `no` ends in a state whose version is not 9 when its
branches do. -/
theorem M.ite_no_version {c : Prop} [Decidable c] {A B : M Succeeded}
    (hA : ∀ v w1 w, A w = (Except.ok v, w1) → v = Succeeded.no → w1.rdf_ver ≠ 9)
    (hB : ∀ v w1 w, B w = (Except.ok v, w1) → v = Succeeded.no → w1.rdf_ver ≠ 9) :
    ∀ v w1 w, (if c then A else B) w = (Except.ok v, w1) → v = Succeeded.no → w1.rdf_ver ≠ 9 := by
  intro v w1 w h
  split at h
  · exact hA v w1 w h
  · exact hB v w1 w h

/-- The statement `return Succeeded::yes` does not return `no`. -/
theorem M.pure_yes_no_version :
    ∀ v w1 w, M.pure Succeeded.yes w = (Except.ok v, w1) → v = Succeeded.no → w1.rdf_ver ≠ 9 := by
  intro v w1 w h hv
  simp [M.pure] at h
  rw [hv] at h
  exact absurd h.1 (by decide)

/-- The test `if (rdf_ver == 9) ... else return Succeeded::no` returns `no` in a state whose
version is not 9 when its first branch does. -/
theorem M.version_test_no_version {A : M Succeeded}
    (hA : ∀ v w1 w, A w = (Except.ok v, w1) → v = Succeeded.no → w1.rdf_ver ≠ 9) :
    ∀ v w1 w, M.bind getW (fun x => if (x.rdf_ver == 9) = true then A else M.pure Succeeded.no) w
      = (Except.ok v, w1) → v = Succeeded.no → w1.rdf_ver ≠ 9 := by
  intro v w1 w h
  simp only [M.bind, getW] at h
  split at h
  · exact hA v w1 w h
  · next hc =>
    intro _
    simp [M.pure] at h
    rw [← h.2]
    simpa using hc

/-- When `initialise_listmode_data` returns `no` the version it leaves is not 9. -/
theorem initialise_listmode_data_no_version (env : Env) :
    ∀ v w1 w, initialise_listmode_data env w = (Except.ok v, w1) → v = Succeeded.no → w1.rdf_ver ≠ 9 := by
  unfold initialise_listmode_data
  simp only [Bind.bind, Pure.pure]
  repeat' (first
    | with_reducible apply M.version_test_no_version
    | (with_reducible apply M.bind_no_version; intro _)
    | with_reducible apply M.ite_no_version
    | with_reducible exact M.pure_yes_no_version)

/-- When `initialise_singles_data` returns `no` the version it leaves is not 9. -/
theorem initialise_singles_data_no_version (env : Env) :
    ∀ v w1 w, initialise_singles_data env w = (Except.ok v, w1) → v = Succeeded.no → w1.rdf_ver ≠ 9 := by
  unfold initialise_singles_data
  simp only [Bind.bind, Pure.pure]
  repeat' (first
    | with_reducible apply M.version_test_no_version
    | (with_reducible apply M.bind_no_version; intro _)
    | with_reducible apply M.ite_no_version
    | with_reducible exact M.pure_yes_no_version)

/-- When `initialise_proj_data` returns `no` the version it leaves is not 9. -/
theorem initialise_proj_data_no_version (env : Env) (view_num : Nat) :
    ∀ v w1 w, initialise_proj_data env view_num w = (Except.ok v, w1) → v = Succeeded.no → w1.rdf_ver ≠ 9 := by
  unfold initialise_proj_data
  simp only [Bind.bind, Pure.pure]
  repeat' (first
    | with_reducible apply M.version_test_no_version
    | (with_reducible apply M.bind_no_version; intro _)
    | with_reducible apply M.ite_no_version
    | with_reducible exact M.pure_yes_no_version)

/-- When `initialise_geo_factors_data` returns `no` the version it leaves is not 9. -/
theorem initialise_geo_factors_data_no_version (env : Env) (slice_num : Nat) :
    ∀ v w1 w, initialise_geo_factors_data env slice_num w = (Except.ok v, w1) → v = Succeeded.no → w1.rdf_ver ≠ 9 := by
  unfold initialise_geo_factors_data
  simp only [Bind.bind, Pure.pure]
  repeat' (first
    | with_reducible apply M.version_test_no_version
    | (with_reducible apply M.bind_no_version; intro _)
    | with_reducible apply M.ite_no_version
    | with_reducible exact M.pure_yes_no_version)

/-- When `initialise_efficiency_factors` returns `no` the version it leaves is not 9. -/
theorem initialise_efficiency_factors_no_version (env : Env) :
    ∀ v w1 w, initialise_efficiency_factors env w = (Except.ok v, w1) → v = Succeeded.no → w1.rdf_ver ≠ 9 := by
  unfold initialise_efficiency_factors
  simp only [Bind.bind, Pure.pure]
  repeat' (first
    | with_reducible apply M.version_test_no_version
    | (with_reducible apply M.bind_no_version; intro _)
    | with_reducible apply M.ite_no_version
    | with_reducible exact M.pure_yes_no_version)

/-- When `initialise_listmode_data` returns, `is_list_file` returned true. -/
theorem initialise_listmode_data_returns_kind (env : Env) (w : Wrapper) (v : Succeeded) (w2 : Wrapper)
    (h : initialise_listmode_data env w = (Except.ok v, w2)) : (is_list_file w).1 = Except.ok true := by
  unfold initialise_listmode_data at h
  simp only [Bind.bind, Pure.pure] at h
  obtain ⟨b, w1, hb, h2⟩ := M.bind_ok_inv h
  rw [hb]
  cases b
  · simp at h2
  · simp at h2 ⊢

/-- When `initialise_proj_data` returns, `is_sino_file` returned true. -/
theorem initialise_proj_data_returns_kind (env : Env) (view_num : Nat) (w : Wrapper) (v : Succeeded) (w2 : Wrapper)
    (h : initialise_proj_data env view_num w = (Except.ok v, w2)) : (is_sino_file w).1 = Except.ok true := by
  unfold initialise_proj_data at h
  simp only [Bind.bind, Pure.pure] at h
  obtain ⟨b, w1, hb, h2⟩ := M.bind_ok_inv h
  rw [hb]
  cases b
  · simp at h2
  · simp at h2 ⊢

/-- When `initialise_geo_factors_data` returns, `is_geo_file` returned true. -/
theorem initialise_geo_factors_data_returns_kind (env : Env) (slice_num : Nat) (w : Wrapper) (v : Succeeded) (w2 : Wrapper)
    (h : initialise_geo_factors_data env slice_num w = (Except.ok v, w2)) : (is_geo_file w).1 = Except.ok true := by
  unfold initialise_geo_factors_data at h
  simp only [Bind.bind, Pure.pure] at h
  obtain ⟨b, w1, hb, h2⟩ := M.bind_ok_inv h
  rw [hb]
  cases b
  · simp at h2
  · simp at h2 ⊢

/-- When `initialise_efficiency_factors` returns, `is_norm_file` returned true. -/
theorem initialise_efficiency_factors_returns_kind (env : Env) (w : Wrapper) (v : Succeeded) (w2 : Wrapper)
    (h : initialise_efficiency_factors env w = (Except.ok v, w2)) : (is_norm_file w).1 = Except.ok true := by
  unfold initialise_efficiency_factors at h
  simp only [Bind.bind, Pure.pure] at h
  obtain ⟨b, w1, hb, h2⟩ := M.bind_ok_inv h
  rw [hb]
  cases b
  · simp at h2
  · simp at h2 ⊢

/-- When `initialise_singles_data` returns, the test `!is_list_file() && !is_sino_file()`
was false. -/
theorem initialise_singles_data_returns_kind (env : Env) (w : Wrapper) (v : Succeeded) (w2 : Wrapper)
    (h : initialise_singles_data env w = (Except.ok v, w2)) :
    (not_list_and_not_sino w).1 = Except.ok false := by
  unfold initialise_singles_data at h
  simp only [Bind.bind, Pure.pure] at h
  obtain ⟨b, w1, hb, h2⟩ := M.bind_ok_inv h
  rw [hb]
  cases b
  · rfl
  · simp at h2

/-- C21, amended. On an open file that is not of the kind the operation is for, each
`initialise_*` operation raises its fatal error instead of returning `no`:
`initialise_listmode_data` when the list flag is clear and `isListFile` is 0,
`initialise_proj_data` when the sinogram flag is clear and `/SegmentData/Segment2` is
absent, `initialise_efficiency_factors` when the normalization flag is clear and the
efficiency dataset is absent, `initialise_geo_factors_data` when the geometry and
normalization flags are clear and the first slice is absent, `initialise_singles_data`
when the file is neither list-mode nor sinogram; in general each raises that error whenever
its classification predicate returns false.  The status `no` is returned only when the
predicate of the operation found the file to be of its kind and the recorded major version
is not 9: `initialise_listmode_data`, `initialise_efficiency_factors` and
`initialise_singles_data` return `no` exactly then, `initialise_geo_factors_data` exactly
then for a slice number other than 0, and `initialise_proj_data` at most then. -/
theorem initialise_wrong_kind_raises (env : Env) (w : Wrapper) (hopen : w.file.id_open = true) :
    (w.is_list = false → w.file.uint32_at "/HeaderData/RDFConfiguration/isListFile" = some 0 →
      (initialise_listmode_data env w).1 =
        Except.error (Err.stir "The file provided is not listmode. Aborting")) ∧
    (w.is_sino = false → w.file.has "/SegmentData/Segment2" = false → ∀ view_num,
      (initialise_proj_data env view_num w).1 =
        Except.error (Err.stir "The file provided is not sinogram data. Aborting")) ∧
    (w.is_norm = false → w.file.has "/3DCrystalEfficiency/crystalEfficiency" = false →
      (initialise_efficiency_factors env w).1 =
        Except.error (Err.stir "The file provided is not norm data. Aborting")) ∧
    (w.is_geo = false → w.is_norm = false →
      w.file.has "/SegmentData/Segment4/3D_Norm_Correction/slice1" = false → ∀ slice_num,
      (initialise_geo_factors_data env slice_num w).1 =
        Except.error (Err.stir "The file provided is not geometry data. Aborting")) ∧
    (w.is_list = false → w.file.uint32_at "/HeaderData/RDFConfiguration/isListFile" = some 0 →
      w.is_sino = false → w.file.has "/SegmentData/Segment2" = false →
      (initialise_singles_data env w).1 =
        Except.error (Err.stir "The file provided is not listmode or sinogram data. Aborting")) ∧
    ((is_list_file w).1 = Except.ok false →
      (initialise_listmode_data env w).1 =
        Except.error (Err.stir "The file provided is not listmode. Aborting")) ∧
    ((is_sino_file w).1 = Except.ok false → ∀ view_num,
      (initialise_proj_data env view_num w).1 =
        Except.error (Err.stir "The file provided is not sinogram data. Aborting")) ∧
    ((is_norm_file w).1 = Except.ok false →
      (initialise_efficiency_factors env w).1 =
        Except.error (Err.stir "The file provided is not norm data. Aborting")) ∧
    ((is_geo_file w).1 = Except.ok false → ∀ slice_num,
      (initialise_geo_factors_data env slice_num w).1 =
        Except.error (Err.stir "The file provided is not geometry data. Aborting")) ∧
    ((not_list_and_not_sino w).1 = Except.ok true →
      (initialise_singles_data env w).1 =
        Except.error (Err.stir "The file provided is not listmode or sinogram data. Aborting")) ∧
    ((initialise_listmode_data env w).1 = Except.ok Succeeded.no ↔
      ((is_list_file w).1 = Except.ok true ∧ w.rdf_ver ≠ 9)) ∧
    ((initialise_efficiency_factors env w).1 = Except.ok Succeeded.no ↔
      ((is_norm_file w).1 = Except.ok true ∧ w.rdf_ver ≠ 9)) ∧
    ((initialise_singles_data env w).1 = Except.ok Succeeded.no ↔
      ((not_list_and_not_sino w).1 = Except.ok false ∧ w.rdf_ver ≠ 9)) ∧
    (∀ slice_num, (initialise_geo_factors_data env slice_num w).1 = Except.ok Succeeded.no ↔
      ((is_geo_file w).1 = Except.ok true ∧ slice_num ≠ 0 ∧ w.rdf_ver ≠ 9)) ∧
    (∀ view_num, (initialise_proj_data env view_num w).1 = Except.ok Succeeded.no →
      ((is_sino_file w).1 = Except.ok true ∧ w.rdf_ver ≠ 9)) := by
  refine ⟨?_, ?_, ?_, ?_, ?_, ?_, ?_, ?_, ?_, ?_, ?_, ?_, ?_, ?_, ?_⟩
  · intro hf hl
    obtain ⟨l, h1, h2⟩ := H5File.uint32_at_some hl
    simp [initialise_listmode_data, is_list_file, Bind.bind, Pure.pure, hopen, hf, h1, h2]
  · intro hf hs view_num
    have h1 := H5File.has_false hs
    simp [initialise_proj_data, is_sino_file, Bind.bind, Pure.pure, hopen, hf, h1]
  · intro hf hs
    have h1 := H5File.has_false hs
    simp [initialise_efficiency_factors, is_norm_file, Bind.bind, Pure.pure, hopen, hf, h1]
  · intro hg hn hs slice_num
    have h1 := H5File.has_false hs
    simp [initialise_geo_factors_data, is_geo_file, Bind.bind, Pure.pure, hopen, hg, hn, h1]
  · intro hf hl hs hseg
    obtain ⟨l, h1, h2⟩ := H5File.uint32_at_some hl
    have h3 := H5File.has_false hseg
    simp [initialise_singles_data, not_list_and_not_sino, is_list_file, is_sino_file, Bind.bind,
      Pure.pure, hopen, hf, hs, h1, h2, h3]
  · intro hp
    rcases hr : is_list_file w with ⟨r, w1⟩
    rw [hr] at hp
    simp only at hp
    subst hp
    simp [initialise_listmode_data, Bind.bind, Pure.pure, hr]
  · intro hp view_num
    rcases hr : is_sino_file w with ⟨r, w1⟩
    rw [hr] at hp
    simp only at hp
    subst hp
    simp [initialise_proj_data, Bind.bind, Pure.pure, hr]
  · intro hp
    rcases hr : is_norm_file w with ⟨r, w1⟩
    rw [hr] at hp
    simp only at hp
    subst hp
    simp [initialise_efficiency_factors, Bind.bind, Pure.pure, hr]
  · intro hp slice_num
    rcases hr : is_geo_file w with ⟨r, w1⟩
    rw [hr] at hp
    simp only at hp
    subst hp
    simp [initialise_geo_factors_data, Bind.bind, Pure.pure, hr]
  · intro hp
    rcases hr : not_list_and_not_sino w with ⟨r, w1⟩
    rw [hr] at hp
    simp only at hp
    subst hp
    simp [initialise_singles_data, Bind.bind, Pure.pure, hr]
  · constructor
    · intro h
      rcases hres : initialise_listmode_data env w with ⟨r, w2⟩
      rw [hres] at h
      simp only at h
      subst h
      have hv := initialise_listmode_data_no_version env _ _ _ hres rfl
      have hk := initialise_listmode_data_keeps_rdf_ver env w
      rw [hres] at hk
      exact ⟨initialise_listmode_data_returns_kind env w _ _ hres, fun h9 => hv (hk.trans h9)⟩
    · rintro ⟨hp, h9⟩
      rcases hr : is_list_file w with ⟨r, w1⟩
      have hk := is_list_file_keeps_rdf_ver w
      rw [hr] at hp hk
      simp only at hp hk
      subst hp
      have h9' : ¬ w1.rdf_ver = 9 := fun h => h9 (hk ▸ h)
      simp [initialise_listmode_data, Bind.bind, Pure.pure, hr, h9']
  · constructor
    · intro h
      rcases hres : initialise_efficiency_factors env w with ⟨r, w2⟩
      rw [hres] at h
      simp only at h
      subst h
      have hv := initialise_efficiency_factors_no_version env _ _ _ hres rfl
      have hk := initialise_efficiency_factors_keeps_rdf_ver env w
      rw [hres] at hk
      exact ⟨initialise_efficiency_factors_returns_kind env w _ _ hres, fun h9 => hv (hk.trans h9)⟩
    · rintro ⟨hp, h9⟩
      rcases hr : is_norm_file w with ⟨r, w1⟩
      have hk := is_norm_file_keeps_rdf_ver w
      rw [hr] at hp hk
      simp only at hp hk
      subst hp
      have h9' : ¬ w1.rdf_ver = 9 := fun h => h9 (hk ▸ h)
      simp [initialise_efficiency_factors, Bind.bind, Pure.pure, hr, h9']
  · constructor
    · intro h
      rcases hres : initialise_singles_data env w with ⟨r, w2⟩
      rw [hres] at h
      simp only at h
      subst h
      have hv := initialise_singles_data_no_version env _ _ _ hres rfl
      have hk := initialise_singles_data_keeps_rdf_ver env w
      rw [hres] at hk
      exact ⟨initialise_singles_data_returns_kind env w _ _ hres, fun h9 => hv (hk.trans h9)⟩
    · rintro ⟨hp, h9⟩
      rcases hr : not_list_and_not_sino w with ⟨r, w1⟩
      have hk := not_list_and_not_sino_keeps_rdf_ver w
      rw [hr] at hp hk
      simp only at hp hk
      subst hp
      have h9' : ¬ w1.rdf_ver = 9 := fun h => h9 (hk ▸ h)
      simp [initialise_singles_data, Bind.bind, Pure.pure, hr, h9']
  · intro slice_num
    constructor
    · intro h
      rcases hres : initialise_geo_factors_data env slice_num w with ⟨r, w2⟩
      rw [hres] at h
      simp only at h
      subst h
      have hv := initialise_geo_factors_data_no_version env slice_num _ _ _ hres rfl
      have hk := initialise_geo_factors_data_keeps_rdf_ver env slice_num w
      have hkind := initialise_geo_factors_data_returns_kind env slice_num w _ _ hres
      rw [hres] at hk
      refine ⟨hkind, ?_, fun h9 => hv (hk.trans h9)⟩
      intro h0
      rcases hr : is_geo_file w with ⟨r, w1⟩
      rw [hr] at hkind
      simp only at hkind
      subst hkind
      simp [initialise_geo_factors_data, Bind.bind, Pure.pure, hr, h0] at hres
    · rintro ⟨hp, h0, h9⟩
      rcases hr : is_geo_file w with ⟨r, w1⟩
      have hk := is_geo_file_keeps_rdf_ver w
      rw [hr] at hp hk
      simp only at hp hk
      subst hp
      have h9' : ¬ w1.rdf_ver = 9 := fun h => h9 (hk ▸ h)
      simp [initialise_geo_factors_data, Bind.bind, Pure.pure, hr, h9', h0]
  · intro view_num h
    rcases hres : initialise_proj_data env view_num w with ⟨r, w2⟩
    rw [hres] at h
    simp only at h
    subst h
    have hv := initialise_proj_data_no_version env view_num _ _ _ hres rfl
    have hk := initialise_proj_data_keeps_rdf_ver env view_num w
    rw [hres] at hk
    exact ⟨initialise_proj_data_returns_kind env view_num w _ _ hres, fun h9 => hv (hk.trans h9)⟩

set_option maxHeartbeats 4000000 in
/-- Witness for C21, amended: the three classified examples raise; the version-10 example,
whose `check_file` raised on the version and left the flags clear, holds `isListFile = 1`,
so `initialise_listmode_data` returns `no` on it, while `initialise_proj_data` raises. -/
theorem initialise_wrong_kind_raises_witness :
    exampleClassifiedSino.file.id_open = true ∧
    (initialise_listmode_data exampleEnv exampleClassifiedSino).1 =
      Except.error (Err.stir "The file provided is not listmode. Aborting") ∧
    (initialise_proj_data exampleEnv 1 exampleClassifiedList).1 =
      Except.error (Err.stir "The file provided is not sinogram data. Aborting") ∧
    (initialise_efficiency_factors exampleEnv exampleClassifiedGeo).1 =
      Except.error (Err.stir "The file provided is not norm data. Aborting") ∧
    (check_file (Wrapper.fresh exampleVersion10File false false false false)).1 =
      Except.error (Err.stir "Only RDF version 9 supported. Aborting") ∧
    exampleVersion10.rdf_ver = 10 ∧
    exampleVersion10.flags = (false, false, false, false) ∧
    (initialise_listmode_data exampleEnv exampleVersion10).1 = Except.ok Succeeded.no ∧
    (initialise_proj_data exampleEnv 1 exampleVersion10).1 =
      Except.error (Err.stir "The file provided is not sinogram data. Aborting") :=
  ⟨by decide,
   (initialise_wrong_kind_raises exampleEnv exampleClassifiedSino (by decide)).1
      (by decide) (by decide),
   (initialise_wrong_kind_raises exampleEnv exampleClassifiedList (by decide)).2.1
      (by decide) (by decide) 1,
   (initialise_wrong_kind_raises exampleEnv exampleClassifiedGeo (by decide)).2.2.1
      (by decide) (by decide),
   by decide, by decide, by decide,
   (initialise_wrong_kind_raises exampleEnv exampleVersion10 (by decide)).2.2.2.2.2.2.2.2.2.2.1.mpr
      ⟨by decide, by decide⟩,
   (initialise_wrong_kind_raises exampleEnv exampleVersion10 (by decide)).2.2.2.2.2.2.1
      (by decide) 1⟩

/-- C23. The member function `check_geo_type`: when the geometry flag is clear it raises
"Not a geo file. Aborting" and returns nothing; when the flag is set, on an open file
whose `dimension3Size` dataset holds the unsigned 32-bit value `s`, it returns 3 if
`s > 1` and 2 otherwise, so the result is 2 or 3, also for `s = 0`. -/
theorem check_geo_type_result (w : Wrapper) :
    (w.is_geo = false →
      check_geo_type w = (Except.error (Err.stir "Not a geo file. Aborting"), w)) ∧
    (w.is_geo = true → w.file.id_open = true → ∀ s,
      w.file.uint32_at "/HeaderData/Sorter/Segment4/dimension3Size" = some s →
      (check_geo_type w).1 = Except.ok (if s > 1 then 3 else 2) ∧
      ((check_geo_type w).1 = Except.ok 2 ∨ (check_geo_type w).1 = Except.ok 3)) := by
  refine ⟨?_, ?_⟩
  · intro hg
    simp [check_geo_type, Bind.bind, Pure.pure, hg]
  · intro hg hopen s hs
    obtain ⟨v, h1, h2⟩ := H5File.uint32_at_some hs
    have hres : (check_geo_type w).1 = Except.ok (if s > 1 then 3 else 2) := by
      by_cases hgt : s > 1
      · have hgt1 : 1 < v % 4294967296 := by omega
        simp [check_geo_type, Bind.bind, Pure.pure, hg, hopen, h1, hgt, hgt1]
      · have hgt1 : ¬ 1 < v % 4294967296 := by omega
        simp [check_geo_type, Bind.bind, Pure.pure, hg, hopen, h1, hgt, hgt1]
    refine ⟨hres, ?_⟩
    rw [hres]
    by_cases hgt : s > 1
    · right; simp [hgt]
    · left; simp [hgt]

/-- Witness for C23: the geometry example (`dimension3Size = 1`) gives 2, the small
normalization example (`dimension3Size = 16`) gives 3, the sinogram example raises. -/
theorem check_geo_type_result_witness :
    check_geo_type exampleClassifiedSino =
      (Except.error (Err.stir "Not a geo file. Aborting"), exampleClassifiedSino) ∧
    (check_geo_type exampleClassifiedGeo).1 = Except.ok (if 1 > 1 then 3 else 2) ∧
    (check_geo_type exampleNormSmall).1 = Except.ok (if 16 > 1 then 3 else 2) :=
  ⟨(check_geo_type_result exampleClassifiedSino).1 (by decide),
   ((check_geo_type_result exampleClassifiedGeo).2 (by decide) (by decide) 1 (by decide)).1,
   ((check_geo_type_result exampleNormSmall).2 (by decide) (by decide) 16 (by decide)).1⟩

/-- C30. With a readable exam header, the start of the time frame that `initialise_exam_info`
leaves is the natural number `(frameStartTime - scanStartTime) mod 2^32`: it is not
negative, it is `frameStartTime - scanStartTime` when the frame does not start before the
scan, and `2^32 - (scanStartTime - frameStartTime)` when it does. -/
theorem frame_start_unsigned (env : Env) (w : Wrapper) (h : ExamHeader)
    (hh : w.has_exam_header h) :
    ∃ (w1 : Wrapper) (e : ExamInfo) (n : Nat) (stop : ℚ), initialise_exam_info env w = (Except.ok (), w1) ∧ w1.exam_info_sptr = some e ∧
      e.time_frame_definitions = [((n : ℚ), stop)] ∧ (0 : ℚ) ≤ (n : ℚ) ∧
      n = (h.frameStartTime % 2 ^ 32 + 2 ^ 32 - h.scanStartTime % 2 ^ 32) % 2 ^ 32 ∧
      (h.scanStartTime % 2 ^ 32 ≤ h.frameStartTime % 2 ^ 32 →
        n = h.frameStartTime % 2 ^ 32 - h.scanStartTime % 2 ^ 32) ∧
      (h.frameStartTime % 2 ^ 32 < h.scanStartTime % 2 ^ 32 →
        n = 2 ^ 32 - (h.scanStartTime % 2 ^ 32 - h.frameStartTime % 2 ^ 32)) := by
  refine ⟨_, _, _, _, initialise_exam_info_run env w h hh, rfl, rfl, Nat.cast_nonneg _, rfl, ?_, ?_⟩
  · intro hle
    have hf := Nat.mod_lt h.frameStartTime (show 0 < 2 ^ 32 by norm_num)
    have hs := Nat.mod_lt h.scanStartTime (show 0 < 2 ^ 32 by norm_num)
    omega
  · intro hlt
    have hf := Nat.mod_lt h.frameStartTime (show 0 < 2 ^ 32 by norm_num)
    have hs := Nat.mod_lt h.scanStartTime (show 0 < 2 ^ 32 by norm_num)
    omega

/-- Witness for C30: a frame that starts 10 s before the scan start gets the start
4294967286. -/
theorem frame_start_unsigned_witness :
    (∃ (w1 : Wrapper) (e : ExamInfo) (n : Nat) (stop : ℚ), initialise_exam_info exampleEnv exampleEarlyFrame = (Except.ok (), w1) ∧
      w1.exam_info_sptr = some e ∧
      e.time_frame_definitions = [((n : ℚ), stop)] ∧ (0 : ℚ) ≤ (n : ℚ) ∧
      n = (1499999990 % 2 ^ 32 + 2 ^ 32 - 1500000000 % 2 ^ 32) % 2 ^ 32 ∧
      (1500000000 % 2 ^ 32 ≤ 1499999990 % 2 ^ 32 →
        n = 1499999990 % 2 ^ 32 - 1500000000 % 2 ^ 32) ∧
      (1499999990 % 2 ^ 32 < 1500000000 % 2 ^ 32 →
        n = 2 ^ 32 - (1500000000 % 2 ^ 32 - 1499999990 % 2 ^ 32))) ∧
    ((initialise_exam_info exampleEnv exampleEarlyFrame).2.exam_info_sptr.map
      fun e => e.time_frame_definitions) = some [(4294967286, 4294967287)] :=
  ⟨frame_start_unsigned exampleEnv exampleEarlyFrame
      { exampleExamHeader with frameStartTime := 1499999990 } (by decide!),
   by decide!⟩

/-! ## Sinogram views (initialise_proj_data) -/

/-- The bound of the view check for a scanner with `D` detectors per ring. -/
theorem view_limit (D : Nat) (h : D < 2 ^ 31) :
    ((Int.tdiv (D : Int) 2) % 2 ^ 32).toNat = D / 2 := by
  rw [Int.tdiv_eq_ediv (by omega) (by norm_num)]
  omega

/-- The message of the rank check is not the message of the view check. -/
theorem rank_message_ne_view_message (a b c : String) :
    "Dataset dimensions (" ++ a ++ ") bigger than maximum of" ++ b ++ ". This is unexpected, Aborting." ≠
      "internal error in GE HDF5 code: view number " ++ c ++ " is incorrect" := by
  intro h
  have h1 := congrArg (fun s => s.data.head?) h
  simp only [String.data_append, List.append_assoc] at h1
  simp at h1

set_option maxHeartbeats 4000000 in
/-- C22. On a version 9 sinogram file with `compDataSegSize = 0` and a readable
`numTOF_bins`, `initialise_proj_data` raises the view-number error when `view_num` is 0,
before the scanner is looked up.  With a projection geometry whose scanner has `D`
detectors per ring it raises the same error when `view_num > D / 2`; for
`1 ≤ view_num ≤ D / 2` it does not raise that error, it selects the address
`/SegmentData/Segment2/3D_TOF_Sinogram/view<view_num>` when `numTOF_bins > 1` and
`/SegmentData/Segment2/3D_Sinogram/view<view_num>` otherwise, and it returns `yes` when the
dataset at that address exists with a rank of at most `m_max_dataset_dims`.  On a file that
holds such a dataset for every view from 1 to `D / 2`, the call raises an error if and only
if `view_num` is 0 or greater than `D / 2`, and returns `yes` otherwise. -/
theorem initialise_proj_data_view_num (env : Env) (w : Wrapper) (t : Nat) (view_num : Nat)
    (hs : w.is_sino = true) (hv : w.rdf_ver = 9)
    (hc : w.file.uint32_at "/HeaderData/Sorter/Segment2/compDataSegSize" = some 0)
    (ht : w.file.uint32_at "/HeaderData/Sorter/numTOF_bins" = some t) :
    (view_num = 0 →
      (initialise_proj_data env view_num w).1 = Except.error (Err.stir
        ("internal error in GE HDF5 code: view number " ++ toString view_num ++ " is incorrect"))) ∧
    ∀ D : Nat,
      (w.proj_data_info_sptr.map fun p => p.scanner_sptr.num_detectors_per_ring) = some (D : Int) →
      D < 2 ^ 31 →
      (view_num > D / 2 →
        (initialise_proj_data env view_num w).1 = Except.error (Err.stir
          ("internal error in GE HDF5 code: view number " ++ toString view_num ++ " is incorrect"))) ∧
      (1 ≤ view_num → view_num ≤ D / 2 →
        (initialise_proj_data env view_num w).1 ≠ Except.error (Err.stir
          ("internal error in GE HDF5 code: view number " ++ toString view_num ++ " is incorrect")) ∧
        (initialise_proj_data env view_num w).2.m_address =
          (if t > 1 then "/SegmentData/Segment2/3D_TOF_Sinogram/view" ++ toString view_num
            else "/SegmentData/Segment2/3D_Sinogram/view" ++ toString view_num) ∧
        ∀ o, w.file.lookup
            (if t > 1 then "/SegmentData/Segment2/3D_TOF_Sinogram/view" ++ toString view_num
              else "/SegmentData/Segment2/3D_Sinogram/view" ++ toString view_num) = some o →
          o ≠ H5Object.group → o.getSimpleExtentDims.length ≤ env.m_max_dataset_dims →
          (initialise_proj_data env view_num w).1 = Except.ok Succeeded.yes) ∧
      ((∀ v : Nat, 1 ≤ v → v ≤ D / 2 →
          ∃ o, w.file.lookup
              (if t > 1 then "/SegmentData/Segment2/3D_TOF_Sinogram/view" ++ toString v
                else "/SegmentData/Segment2/3D_Sinogram/view" ++ toString v) = some o ∧
            o ≠ H5Object.group ∧ o.getSimpleExtentDims.length ≤ env.m_max_dataset_dims) →
        ((∃ e, (initialise_proj_data env view_num w).1 = Except.error e) ↔
          (view_num = 0 ∨ view_num > D / 2)) ∧
        (1 ≤ view_num → view_num ≤ D / 2 →
          (initialise_proj_data env view_num w).1 = Except.ok Succeeded.yes ∧
          (initialise_proj_data env view_num w).2.m_address =
            (if t > 1 then "/SegmentData/Segment2/3D_TOF_Sinogram/view" ++ toString view_num
              else "/SegmentData/Segment2/3D_Sinogram/view" ++ toString view_num))) := by
  obtain ⟨c, h1, h2⟩ := H5File.uint32_at_some hc
  obtain ⟨t', h3, h4⟩ := H5File.uint32_at_some ht
  have hzero : view_num = 0 →
      (initialise_proj_data env view_num w).1 = Except.error (Err.stir
        ("internal error in GE HDF5 code: view number " ++ toString view_num ++ " is incorrect")) := by
    intro h0
    simp [initialise_proj_data, view_num_is_incorrect, is_sino_file, Bind.bind, Pure.pure, hs, hv,
      h1, h2, h0]
  refine ⟨hzero, ?_⟩
  intro D hpD hDr
  obtain ⟨p, hp, hD⟩ : ∃ p, w.proj_data_info_sptr = some p ∧
      p.scanner_sptr.num_detectors_per_ring = (D : Int) := by
    cases hq : w.proj_data_info_sptr with
    | none => rw [hq] at hpD; simp at hpD
    | some p => rw [hq] at hpD; exact ⟨p, rfl, by simpa using hpD⟩
  have hlim : ((Int.tdiv (D : Int) 2) % 4294967296).toNat = D / 2 := by
    have h0 := view_limit D hDr
    norm_num at h0
    exact h0
  have hbig : view_num > D / 2 →
      (initialise_proj_data env view_num w).1 = Except.error (Err.stir
        ("internal error in GE HDF5 code: view number " ++ toString view_num ++ " is incorrect")) := by
    intro hb
    by_cases h0 : view_num = 0
    · exact hzero h0
    · have hcond : D / 2 < view_num := hb
      simp [initialise_proj_data, view_num_is_incorrect, is_sino_file, get_scanner_sptr, Bind.bind,
        Pure.pure, hs, hv, h1, h2, hp, hD, hlim, h0, hcond]
  have hin : 1 ≤ view_num → view_num ≤ D / 2 →
      (initialise_proj_data env view_num w).1 ≠ Except.error (Err.stir
        ("internal error in GE HDF5 code: view number " ++ toString view_num ++ " is incorrect")) ∧
      (initialise_proj_data env view_num w).2.m_address =
        (if t > 1 then "/SegmentData/Segment2/3D_TOF_Sinogram/view" ++ toString view_num
          else "/SegmentData/Segment2/3D_Sinogram/view" ++ toString view_num) ∧
      ∀ o, w.file.lookup
          (if t > 1 then "/SegmentData/Segment2/3D_TOF_Sinogram/view" ++ toString view_num
            else "/SegmentData/Segment2/3D_Sinogram/view" ++ toString view_num) = some o →
        o ≠ H5Object.group → o.getSimpleExtentDims.length ≤ env.m_max_dataset_dims →
        (initialise_proj_data env view_num w).1 = Except.ok Succeeded.yes := by
    intro hge hle
    have hn0 : ¬ view_num = 0 := by omega
    have hn1 : ¬ D / 2 < view_num := by omega
    by_cases htof : t > 1
    · have htof1 : 1 < t' % 4294967296 := by omega
      rcases hl : w.file.lookup ("/SegmentData/Segment2/3D_TOF_Sinogram/view" ++ toString view_num)
        with _ | o
      · simp [initialise_proj_data, view_num_is_incorrect, is_sino_file, get_scanner_sptr, Bind.bind,
          Pure.pure, hs, hv, h1, h2, hp, hD, hlim, hn0, hn1, h3, htof, htof1, hl]
      · cases o with
        | array dims data =>
          by_cases hr : env.m_max_dataset_dims < dims.length
          · have hr1 : ¬ dims.length ≤ env.m_max_dataset_dims := by omega
            simp [initialise_proj_data, view_num_is_incorrect, is_sino_file, get_scanner_sptr,
              check_rank, set_SUB,
              H5Object.getSimpleExtentDims, Bind.bind, Pure.pure, hs, hv,
              h1, h2, hp, hD, hlim, hn0, hn1, h3, htof, htof1, hl, hr, hr1]
            exact rank_message_ne_view_message _ _ _
          · simp [initialise_proj_data, view_num_is_incorrect, is_sino_file, get_scanner_sptr,
              check_rank, set_SUB,
              H5Object.getSimpleExtentDims, Bind.bind, Pure.pure, hs, hv,
              h1, h2, hp, hD, hlim, hn0, hn1, h3, htof, htof1, hl, hr]
        | _ =>
          simp [initialise_proj_data, view_num_is_incorrect, is_sino_file, get_scanner_sptr,
            check_rank, set_SUB,
            H5Object.getSimpleExtentDims, Bind.bind, Pure.pure, hs, hv,
            h1, h2, hp, hD, hlim, hn0, hn1, h3, htof, htof1, hl]
    · have htof1 : ¬ 1 < t' % 4294967296 := by omega
      rcases hl : w.file.lookup ("/SegmentData/Segment2/3D_Sinogram/view" ++ toString view_num)
        with _ | o
      · simp [initialise_proj_data, view_num_is_incorrect, is_sino_file, get_scanner_sptr, Bind.bind,
          Pure.pure, hs, hv, h1, h2, hp, hD, hlim, hn0, hn1, h3, htof, htof1, hl]
      · cases o with
        | array dims data =>
          by_cases hr : env.m_max_dataset_dims < dims.length
          · have hr1 : ¬ dims.length ≤ env.m_max_dataset_dims := by omega
            simp [initialise_proj_data, view_num_is_incorrect, is_sino_file, get_scanner_sptr,
              check_rank, set_SUB,
              H5Object.getSimpleExtentDims, Bind.bind, Pure.pure, hs, hv,
              h1, h2, hp, hD, hlim, hn0, hn1, h3, htof, htof1, hl, hr, hr1]
            exact rank_message_ne_view_message _ _ _
          · simp [initialise_proj_data, view_num_is_incorrect, is_sino_file, get_scanner_sptr,
              check_rank, set_SUB,
              H5Object.getSimpleExtentDims, Bind.bind, Pure.pure, hs, hv,
              h1, h2, hp, hD, hlim, hn0, hn1, h3, htof, htof1, hl, hr]
        | _ =>
          simp [initialise_proj_data, view_num_is_incorrect, is_sino_file, get_scanner_sptr,
            check_rank, set_SUB,
            H5Object.getSimpleExtentDims, Bind.bind, Pure.pure, hs, hv,
            h1, h2, hp, hD, hlim, hn0, hn1, h3, htof, htof1, hl]
  refine ⟨hbig, hin, ?_⟩
  intro hwf
  have hyes : 1 ≤ view_num → view_num ≤ D / 2 →
      (initialise_proj_data env view_num w).1 = Except.ok Succeeded.yes := by
    intro a b
    obtain ⟨o, ho1, ho2, ho3⟩ := hwf view_num a b
    exact (hin a b).2.2 o ho1 ho2 ho3
  refine ⟨⟨?_, ?_⟩, fun a b => ⟨hyes a b, (hin a b).2.1⟩⟩
  · rintro ⟨e, he⟩
    by_contra hcon
    have hy := hyes (by omega) (by omega)
    rw [hy] at he
    cases he
  · rintro (h0 | hb)
    · exact ⟨_, hzero h0⟩
    · exact ⟨_, hbig hb⟩

set_option maxHeartbeats 4000000 in
/-- Witness for C22.  The opened two-view example has 4 detectors per ring and holds the
views 1 and 2: the views 0 and 3 are rejected with the view-number error, the views 1 and 2
are initialised at their non-TOF addresses and return `yes`.  View 0 is rejected on the
classified file as well, where no projection geometry exists.  With two TOF bins view 1 is
initialised at the TOF address. -/
theorem initialise_proj_data_view_num_witness :
    (exampleOpen exampleTwoViewFile).proj_data_info_sptr.map
      (fun p => p.scanner_sptr.num_detectors_per_ring) = some 4 ∧
    (initialise_proj_data exampleEnv 0 (exampleOpen exampleTwoViewFile)).1 = Except.error (Err.stir
      ("internal error in GE HDF5 code: view number " ++ toString 0 ++ " is incorrect")) ∧
    (initialise_proj_data exampleEnv 3 (exampleOpen exampleTwoViewFile)).1 = Except.error (Err.stir
      ("internal error in GE HDF5 code: view number " ++ toString 3 ++ " is incorrect")) ∧
    ((initialise_proj_data exampleEnv 1 (exampleOpen exampleTwoViewFile)).1 = Except.ok Succeeded.yes ∧
      (initialise_proj_data exampleEnv 1 (exampleOpen exampleTwoViewFile)).2.m_address =
        (if 1 > 1 then "/SegmentData/Segment2/3D_TOF_Sinogram/view" ++ toString 1
          else "/SegmentData/Segment2/3D_Sinogram/view" ++ toString 1)) ∧
    ((initialise_proj_data exampleEnv 2 (exampleOpen exampleTwoViewFile)).1 = Except.ok Succeeded.yes ∧
      (initialise_proj_data exampleEnv 2 (exampleOpen exampleTwoViewFile)).2.m_address =
        (if 1 > 1 then "/SegmentData/Segment2/3D_TOF_Sinogram/view" ++ toString 2
          else "/SegmentData/Segment2/3D_Sinogram/view" ++ toString 2)) ∧
    ((∃ e, (initialise_proj_data exampleEnv 2 (exampleOpen exampleTwoViewFile)).1 = Except.error e) ↔
      (2 = 0 ∨ 2 > 4 / 2)) ∧
    exampleClassifiedSinoView.proj_data_info_sptr = none ∧
    (initialise_proj_data exampleEnv 0 exampleClassifiedSinoView).1 = Except.error (Err.stir
      ("internal error in GE HDF5 code: view number " ++ toString 0 ++ " is incorrect")) ∧
    (initialise_proj_data exampleEnv 1 (exampleOpen exampleTOFSinoFile)).2.m_address =
      (if 2 > 1 then "/SegmentData/Segment2/3D_TOF_Sinogram/view" ++ toString 1
        else "/SegmentData/Segment2/3D_Sinogram/view" ++ toString 1) :=
  have hwf : ∀ v : Nat, 1 ≤ v → v ≤ 4 / 2 →
      ∃ o, (exampleOpen exampleTwoViewFile).file.lookup
          (if 1 > 1 then "/SegmentData/Segment2/3D_TOF_Sinogram/view" ++ toString v
            else "/SegmentData/Segment2/3D_Sinogram/view" ++ toString v) = some o ∧
        o ≠ H5Object.group ∧ o.getSimpleExtentDims.length ≤ exampleEnv.m_max_dataset_dims := by
    intro v h1 h2
    have hv : v = 1 ∨ v = 2 := by omega
    rcases hv with hv | hv <;> subst hv <;>
      exact ⟨H5Object.array [2, 1, 3] exampleData, by decide!, by decide, by decide⟩
  have hD : (exampleOpen exampleTwoViewFile).proj_data_info_sptr.map
      (fun p => p.scanner_sptr.num_detectors_per_ring) = some ((4 : Nat) : Int) := by decide!
  ⟨hD,
   (initialise_proj_data_view_num exampleEnv (exampleOpen exampleTwoViewFile) 1 0
      (by decide!) (by decide!) (by decide!) (by decide!)).1 rfl,
   ((initialise_proj_data_view_num exampleEnv (exampleOpen exampleTwoViewFile) 1 3
      (by decide!) (by decide!) (by decide!) (by decide!)).2 4 hD (by decide)).1 (by decide),
   (((initialise_proj_data_view_num exampleEnv (exampleOpen exampleTwoViewFile) 1 1
      (by decide!) (by decide!) (by decide!) (by decide!)).2 4 hD (by decide)).2.2 hwf).2
      (by decide) (by decide),
   (((initialise_proj_data_view_num exampleEnv (exampleOpen exampleTwoViewFile) 1 2
      (by decide!) (by decide!) (by decide!) (by decide!)).2 4 hD (by decide)).2.2 hwf).2
      (by decide) (by decide),
   (((initialise_proj_data_view_num exampleEnv (exampleOpen exampleTwoViewFile) 1 2
      (by decide!) (by decide!) (by decide!) (by decide!)).2 4 hD (by decide)).2.2 hwf).1,
   by decide!,
   (initialise_proj_data_view_num exampleEnv exampleClassifiedSinoView 1 0
      (by decide!) (by decide!) (by decide!) (by decide!)).1 rfl,
   ((((initialise_proj_data_view_num exampleEnv (exampleOpen exampleTOFSinoFile) 2 1
      (by decide!) (by decide!) (by decide!) (by decide!)).2 448 (by decide!) (by decide)).2.1)
      (by decide) (by decide)).2.1⟩

/-! ## Ring radius and ring counts -/

/-- The quotient of a finite `float` by a finite non-zero `float` is the rounded quotient. -/
theorem Float32.div_finite (a r : ℚ) (hr : r ≠ 0) :
    Float32.finite a / Float32.finite r = Float32.ofRat (a / r) := by
  show Float32.div (Float32.finite a) (Float32.finite r) = _
  simp [Float32.div, hr]

/-- The adjustments after the setters leave the number of detectors per ring alone. -/
theorem resolved_scanner_num_detectors_per_ring (v : ScannerLocals) (b : Bool) (s : Scanner) :
    (resolved_scanner v b s).num_detectors_per_ring = v.num_detectors_per_ring := by
  unfold resolved_scanner adjust_max_num_timing_poss adjust_size_of_timing_pos
    adjust_timing_resolution adjust_ring_radius
  split_ifs <;> rfl

/-- The adjustments after the setters leave the ring spacing alone. -/
theorem resolved_scanner_ring_spacing (v : ScannerLocals) (b : Bool) (s : Scanner) :
    (resolved_scanner v b s).ring_spacing = v.ring_spacing := by
  unfold resolved_scanner adjust_max_num_timing_poss adjust_size_of_timing_pos
    adjust_timing_resolution adjust_ring_radius
  split_ifs <;> rfl

/-- An unsigned value below 2^31 read into an `int` is that value. -/
theorem uint32_as_int_small (n : Nat) (h : n < 2 ^ 31) : uint32_as_int (n % 2 ^ 32) = (n : Int) := by
  unfold uint32_as_int
  have h1 : n % 2 ^ 32 % 2 ^ 32 = n := by omega
  rw [h1, if_pos h]

/-- A product of three counts computed in `int` arithmetic, when nothing overflows. -/
theorem int_product_small (a b c : Nat) (ha : a < 2 ^ 31) (hb : b < 2 ^ 31) (hc : c < 2 ^ 31)
    (hab : a * b < 2 ^ 31) (habc : a * b * c < 2 ^ 31) :
    wrap_int32 (wrap_int32 (uint32_as_int (a % 2 ^ 32) * uint32_as_int (b % 2 ^ 32))
      * uint32_as_int (c % 2 ^ 32)) = ((a * b * c : Nat) : Int) := by
  rw [uint32_as_int_small a ha, uint32_as_int_small b hb, uint32_as_int_small c hc]
  have h1 : wrap_int32 ((a : Int) * (b : Int)) = ((a * b : Nat) : Int) := by
    have e : (a : Int) * (b : Int) = ((a * b : Nat) : Int) := by push_cast; ring
    rw [e]
    exact wrap_int32_of_range _ (le_trans (by norm_num) (Int.natCast_nonneg _)) (by exact_mod_cast hab)
  have e2 : ((a * b : Nat) : Int) * (c : Int) = ((a * b * c : Nat) : Int) := by push_cast; ring
  rw [h1, e2]
  exact wrap_int32_of_range _ (le_trans (by norm_num) (Int.natCast_nonneg _)) (by exact_mod_cast habc)

/-- C25. The scanner that `get_scanner_from_HDF5` returns has, whatever the catalog entry
says, the ring count `axialBlocksPerModule * axialCrystalsPerBlock * axialModulesPerSystem`
and the number of detectors per ring `radialBlocksPerModule * radialCrystalsPerBlock *
radialModulesPerSystem`, both computed in `int` arithmetic and equal to the products of
the counts when these and the products are below 2^31, and the ring spacing
`detectorAxialSize / ring count`, a `float` division of the value read into a `float` by the
converted ring count.  When the ring count is not zero its conversion is a finite non-zero
`float` (the ring count itself up to `2 ^ 24`), and for a finite `detectorAxialSize` the ring
spacing is the quotient of the two, rounded to `float`. -/
theorem ring_counts_resolved (env : Env) (w : Wrapper) (h : ScannerHeader) (cat : Scanner)
    (hh : w.has_scanner_header h)
    (hcat : env.get_scanner_from_name h.scannerDesc = some cat) :
    ∃ s, (get_scanner_from_HDF5 env w).1 = Except.ok s ∧
      s.num_rings =
        wrap_int32 (wrap_int32 (uint32_as_int (h.axialBlocksPerModule % 2 ^ 32)
          * uint32_as_int (h.axialCrystalsPerBlock % 2 ^ 32))
          * uint32_as_int (h.axialModulesPerSystem % 2 ^ 32)) ∧
      s.num_detectors_per_ring =
        wrap_int32 (wrap_int32 (uint32_as_int (h.radialBlocksPerModule % 2 ^ 32)
          * uint32_as_int (h.radialCrystalsPerBlock % 2 ^ 32))
          * uint32_as_int (h.radialModulesPerSystem % 2 ^ 32)) ∧
      s.ring_spacing = Float32.ofRat h.detectorAxialSize / Float32.ofInt s.num_rings ∧
      (s.num_rings ≠ 0 →
        ∃ r : ℚ, r ≠ 0 ∧ Float32.ofInt s.num_rings = Float32.finite r ∧
          (|s.num_rings| ≤ 2 ^ 24 → r = (s.num_rings : ℚ)) ∧
          ∀ a : ℚ, Float32.ofRat h.detectorAxialSize = Float32.finite a →
            s.ring_spacing = Float32.ofRat (a / r)) ∧
      (h.axialBlocksPerModule < 2 ^ 31 → h.axialCrystalsPerBlock < 2 ^ 31 →
        h.axialModulesPerSystem < 2 ^ 31 →
        h.axialBlocksPerModule * h.axialCrystalsPerBlock < 2 ^ 31 →
        h.axialBlocksPerModule * h.axialCrystalsPerBlock * h.axialModulesPerSystem < 2 ^ 31 →
        s.num_rings =
          ((h.axialBlocksPerModule * h.axialCrystalsPerBlock * h.axialModulesPerSystem : Nat) : Int)) ∧
      (h.radialBlocksPerModule < 2 ^ 31 → h.radialCrystalsPerBlock < 2 ^ 31 →
        h.radialModulesPerSystem < 2 ^ 31 →
        h.radialBlocksPerModule * h.radialCrystalsPerBlock < 2 ^ 31 →
        h.radialBlocksPerModule * h.radialCrystalsPerBlock * h.radialModulesPerSystem < 2 ^ 31 →
        s.num_detectors_per_ring =
          ((h.radialBlocksPerModule * h.radialCrystalsPerBlock * h.radialModulesPerSystem : Nat) : Int)) := by
  obtain ⟨ps, hrun⟩ := get_scanner_from_HDF5_run env w h cat hh hcat
  rw [hrun]
  have hsp : (resolved_scanner h.locals (w.is_list || h.isListFile % 2 ^ 32 != 0) cat).ring_spacing
      = Float32.ofRat h.detectorAxialSize / Float32.ofInt
        (resolved_scanner h.locals (w.is_list || h.isListFile % 2 ^ 32 != 0) cat).num_rings := by
    rw [resolved_scanner_ring_spacing, resolved_scanner_num_rings]; rfl
  refine ⟨_, rfl, ?_, ?_, hsp, ?_, ?_, ?_⟩
  · rw [resolved_scanner_num_rings]; rfl
  · rw [resolved_scanner_num_detectors_per_ring]; rfl
  · intro hne
    have hrange : |(resolved_scanner h.locals (w.is_list || h.isListFile % 2 ^ 32 != 0) cat).num_rings|
        ≤ 2 ^ 31 := by
      rw [resolved_scanner_num_rings]
      have hr := wrap_int32_range
        (wrap_int32 (uint32_as_int (h.axialBlocksPerModule % 2 ^ 32)
          * uint32_as_int (h.axialCrystalsPerBlock % 2 ^ 32))
          * uint32_as_int (h.axialModulesPerSystem % 2 ^ 32))
      exact abs_le.mpr ⟨hr.1, hr.2.le⟩
    obtain ⟨r, hr1, hr2⟩ := Float32.ofInt_finite _ hne hrange
    refine ⟨r, hr2, hr1, ?_, ?_⟩
    · intro hsmall
      have hex := Float32.ofInt_exact _ hsmall
      rw [hr1] at hex
      exact Float32.finite.inj hex
    · intro a ha
      rw [hsp, hr1, ha]
      exact Float32.div_finite a r hr2
  · intro h1 h2 h3 h4 h5
    rw [resolved_scanner_num_rings]
    exact int_product_small _ _ _ h1 h2 h3 h4 h5
  · intro h1 h2 h3 h4 h5
    rw [resolved_scanner_num_detectors_per_ring]
    exact int_product_small _ _ _ h1 h2 h3 h4 h5

set_option maxHeartbeats 4000000 in
/-- Witness for C25: the sinogram example has 5 * 9 * 1 = 45 rings, 4 * 4 * 28 = 448
detectors per ring and ring spacing 250 / 45 rounded to `float`, which is 5.55555534. -/
theorem ring_counts_resolved_witness :
    ((get_scanner_from_HDF5 exampleEnv exampleClassifiedSino).1.map
      fun s => (s.num_rings, s.num_detectors_per_ring, s.ring_spacing)) =
        Except.ok (45, 448, Float32.finite (2912711 / 524288)) ∧
    Float32.ofRat (250 / 45) = Float32.finite (2912711 / 524288) ∧
    ∃ s, (get_scanner_from_HDF5 exampleEnv exampleClassifiedSino).1 = Except.ok s ∧
      s.num_rings = ((5 * 9 * 1 : Nat) : Int) ∧ s.num_detectors_per_ring = ((4 * 4 * 28 : Nat) : Int) ∧
      s.ring_spacing = Float32.ofRat exampleScannerHeader.detectorAxialSize / Float32.ofInt s.num_rings :=
  ⟨by decide!, by decide!,
   (ring_counts_resolved exampleEnv exampleClassifiedSino exampleScannerHeader exampleScanner
      (by decide!) (by rfl)).elim fun s hs =>
     ⟨s, hs.1, hs.2.2.2.2.2.1 (by decide) (by decide) (by decide) (by decide) (by decide),
      hs.2.2.2.2.2.2 (by decide) (by decide) (by decide) (by decide) (by decide), hs.2.2.2.1⟩⟩

/-! ## The flip as a permutation -/

/-- The list of the elements of an array holds the element `i` at position `i`. -/
theorem Array1.toList_getD (a : Array1) (i : Nat) (h : i < a.size) :
    a.toList.getD i 0 = a.elem i := by
  unfold Array1.toList
  rw [List.getD_eq_getElem?_getD, List.getElem?_map, List.getElem?_range h]
  rfl

/-- The list of the elements of an array has as many elements as the array. -/
theorem Array1.toList_length (a : Array1) : a.toList.length = a.size := by
  unfold Array1.toList
  rw [List.length_map, List.length_range]

/-- An index below `R * N` is `ax * N + j` for its row and column. -/
theorem row_index_decompose (R N x : Nat) (hx : x < R * N) :
    x / N < R ∧ x % N < N ∧ x / N * N + x % N = x := by
  have hN : 0 < N := by
    rcases Nat.eq_zero_or_pos N with h | h
    · subst h; simp at hx
    · exact h
  refine ⟨?_, Nat.mod_lt _ hN, ?_⟩
  · rw [Nat.div_lt_iff_lt_mul hN]; exact hx
  · rw [Nat.mul_comm]; exact Nat.div_add_mod x N

/-- A write of the flip loop lands inside the output. -/
theorem flip_index_lt (R N ax tan : Nat) (hax : ax < R) (htan : tan < N) :
    ax * N + (N - 1 - tan) < R * N := by
  have h1 : (ax + 1) * N ≤ R * N := Nat.mul_le_mul_right N hax
  rw [Nat.add_mul] at h1
  omega

/-- C28. The index map `(ax, tan) ↦ ax * N + (N - 1 - tan)` of the flip loop of
`read_geometric_factors`, `read_efficiency_factors` and `read_singles` sends the pairs with
`ax < R` and `tan < N` into the indices below `R * N` and reaches each of them from exactly
one pair, so each output element is written exactly once; and the flip undoes itself:
flipping the flipped buffer gives back `raw[x]` at every index `x < R * N`, hence the
buffer `raw` itself when it has `R * N` elements. -/
theorem flip_tangential_involution (R N : Nat) (raw : List ℚ) (out out1 : Array1) :
    (∀ ax < R, ∀ tan < N, ax * N + (N - 1 - tan) < R * N) ∧
    (∀ x < R * N, ∃! p : Nat × Nat, p.1 < R ∧ p.2 < N ∧ p.1 * N + (N - 1 - p.2) = x) ∧
    (∀ x < R * N,
      (flip_tangential R N (flip_tangential R N raw (out.resize (R * N))).toList
        (out1.resize (R * N))).elem x = raw.getD x 0) ∧
    (raw.length = R * N →
      (flip_tangential R N (flip_tangential R N raw (out.resize (R * N))).toList
        (out1.resize (R * N))).toList = raw) := by
  have hinv : ∀ x < R * N,
      (flip_tangential R N (flip_tangential R N raw (out.resize (R * N))).toList
        (out1.resize (R * N))).elem x = raw.getD x 0 := by
    intro x hx
    obtain ⟨hax, hj, hxe⟩ := row_index_decompose R N x hx
    rw [← hxe, flip_tangential_elem R N _ _ (x / N) (x % N) hax hj]
    have hpos := flip_index_lt R N (x / N) (x % N) hax hj
    rw [Array1.toList_getD _ _ (by rw [flip_tangential_size]; exact hpos),
      flip_tangential_elem R N raw _ (x / N) (N - 1 - x % N) hax (by omega)]
    congr 1
    omega
  refine ⟨fun ax hax tan htan => flip_index_lt R N ax tan hax htan, ?_, hinv, ?_⟩
  · intro x hx
    obtain ⟨hax, hj, hxe⟩ := row_index_decompose R N x hx
    refine ⟨(x / N, N - 1 - x % N), ⟨hax, by omega, ?_⟩, ?_⟩
    · show x / N * N + (N - 1 - (N - 1 - x % N)) = x
      omega
    · rintro ⟨a, t⟩ ⟨ha, ht, he⟩
      simp only at ha ht he
      have hu := row_index_unique N a (x / N) (N - 1 - t) (x % N) (by omega) hj (by omega)
      rw [Prod.mk.injEq]
      exact ⟨hu.1, by omega⟩
  · intro hlen
    apply List.ext_getElem
    · rw [Array1.toList_length, flip_tangential_size, hlen]; rfl
    · intro i h1 h2
      have hi : i < R * N := by rw [← hlen]; exact h2
      have e1 := Array1.toList_getD (flip_tangential R N
        (flip_tangential R N raw (out.resize (R * N))).toList (out1.resize (R * N))) i
        (by rw [flip_tangential_size]; exact hi)
      rw [List.getD_eq_getElem _ _ h1] at e1
      rw [e1, hinv i hi, List.getD_eq_getElem _ _ h2]

/-- Witness for C28: two rows of three elements; index 4 is written from the pair (1, 1)
only, and flipping twice gives the buffer back. -/
theorem flip_tangential_involution_witness :
    (∃! p : Nat × Nat, p.1 < 2 ∧ p.2 < 3 ∧ p.1 * 3 + (3 - 1 - p.2) = 4) ∧
    (flip_tangential 2 3 (flip_tangential 2 3 exampleData (Array1.empty.resize (2 * 3))).toList
      (Array1.empty.resize (2 * 3))).toList = exampleData ∧
    (flip_tangential 2 3 exampleData (Array1.empty.resize (2 * 3))).toList = [2, 1, 0, 5, 4, 3] :=
  ⟨(flip_tangential_involution 2 3 exampleData Array1.empty Array1.empty).2.1 4 (by decide),
   (flip_tangential_involution 2 3 exampleData Array1.empty Array1.empty).2.2.2 (by decide),
   by decide!⟩

/-! ## The copy loop as a reshape -/

/-- The buffer `exampleLargeBuffer` holds 0 at position 0 and 1 at position 2^32. -/
theorem exampleLargeBuffer_getD :
    exampleLargeBuffer.getD 0 0 = 0 ∧ exampleLargeBuffer.getD (2 ^ 32) 0 = 1 := by
  unfold exampleLargeBuffer
  constructor
  · rw [List.getD_append _ _ _ _ (by rw [List.length_replicate]; exact Nat.two_pow_pos 32)]
    rw [List.getD_eq_getElem?_getD]
    exact List.getElem?_getD_replicate_default_eq _ _ _
  · rw [List.getD_append_right _ _ _ _ (by rw [List.length_replicate])]
    rw [List.length_replicate, Nat.sub_self]
    rfl

/-- The failing input of C27: for the extents NX = NY = 65536 and NZ = 2 the copy loop of
`read_sinogram` computes the offset of the plane `i = 1` as `65536 * 65536` in `unsigned
int`, which is 0, so `output[1][0][0]` is `aux[0]` and not `aux[1 * NX * NY]`. -/
theorem read_sinogram_copy_wraps :
    (read_sinogram_copy 65536 65536 2 exampleLargeBuffer
      (Array3.empty.resize 2 65536 65536)).elem 1 0 0 = 0 ∧
    exampleLargeBuffer.getD (1 * 65536 * 65536 + 0 * 65536 + 0) 0 = 1 := by
  constructor
  · rw [read_sinogram_copy_elem 65536 65536 2 _ _ 1 0 0 (by norm_num) (by norm_num) (by norm_num)]
    have e : ((1 * 65536 * 65536) % 2 ^ 32 + (0 * 65536) % 2 ^ 32 + 0) % 2 ^ 32 = 0 := by norm_num
    rw [e]
    exact exampleLargeBuffer_getD.1
  · have e : 1 * 65536 * 65536 + 0 * 65536 + 0 = 2 ^ 32 := by norm_num
    rw [e]
    exact exampleLargeBuffer_getD.2

/-- A linear index below `NX * NY * NZ` belongs to exactly one index triple. -/
theorem sinogram_index_unique (NX NY NZ L : Nat) (hL : L < NX * NY * NZ) :
    ∃! p : Nat × Nat × Nat, p.1 < NZ ∧ p.2.1 < NY ∧ p.2.2 < NX ∧
      p.1 * NX * NY + p.2.1 * NX + p.2.2 = L := by
  have hL1 : L < NZ * NY * NX := by
    have e : NX * NY * NZ = NZ * NY * NX := by ring
    rw [← e]; exact hL
  obtain ⟨hq, hk, hqe⟩ := row_index_decompose (NZ * NY) NX L hL1
  obtain ⟨hi, hj, hie⟩ := row_index_decompose NZ NY (L / NX) hq
  refine ⟨(L / NX / NY, L / NX % NY, L % NX), ⟨hi, hj, hk, ?_⟩, ?_⟩
  · show L / NX / NY * NX * NY + L / NX % NY * NX + L % NX = L
    have e : L / NX / NY * NX * NY + L / NX % NY * NX = (L / NX / NY * NY + L / NX % NY) * NX := by
      ring
    rw [e, hie, hqe]
  · rintro ⟨i, j, k⟩ ⟨h1, h2, h3, h4⟩
    simp only at h1 h2 h3 h4
    have e : i * NX * NY + j * NX + k = (i * NY + j) * NX + k := by ring
    rw [e, ← hqe] at h4
    obtain ⟨u1, u2⟩ := row_index_unique NX (i * NY + j) (L / NX) k (L % NX) h3 hk h4
    rw [← hie] at u1
    obtain ⟨u3, u4⟩ := row_index_unique NY i (L / NX / NY) j (L / NX % NY) h2 hj u1
    rw [Prod.mk.injEq, Prod.mk.injEq]
    exact ⟨u3, u4, u2⟩

/-- C27 (what the code does). The copy loop of `read_sinogram` gives the output the extents
(NZ, NY, NX) and sets `output[i][j][k]` to the buffer element at
`(i * NX * NY mod 2^32 + j * NX mod 2^32 + k) mod 2^32`, the offsets being held in
`unsigned int` while the buffer is sized from the full product.  When `NX * NY * NZ` is at most
2^32 this is the identity on the linear buffer, `output[i][j][k] == aux[i*NX*NY + j*NX + k]`:
the index stays below `NX * NY * NZ` and every linear index below `NX * NY * NZ` belongs
to exactly one triple, so every buffer element appears exactly once in the output. -/
theorem read_sinogram_copy_reshape (NX NY NZ : Nat) (aux : List ℚ) (out : Array3) :
    (read_sinogram_copy NX NY NZ aux (out.resize NZ NY NX)).n0 = NZ ∧
    (read_sinogram_copy NX NY NZ aux (out.resize NZ NY NX)).n1 = NY ∧
    (read_sinogram_copy NX NY NZ aux (out.resize NZ NY NX)).n2 = NX ∧
    (∀ i < NZ, ∀ j < NY, ∀ k < NX,
      (read_sinogram_copy NX NY NZ aux (out.resize NZ NY NX)).elem i j k =
        aux.getD (((i * NX * NY) % 2 ^ 32 + (j * NX) % 2 ^ 32 + k) % 2 ^ 32) 0) ∧
    (NX * NY * NZ ≤ 2 ^ 32 →
      (∀ i < NZ, ∀ j < NY, ∀ k < NX,
        (read_sinogram_copy NX NY NZ aux (out.resize NZ NY NX)).elem i j k =
          aux.getD (i * NX * NY + j * NX + k) 0 ∧
        i * NX * NY + j * NX + k < NX * NY * NZ) ∧
      (∀ L < NX * NY * NZ, ∃! p : Nat × Nat × Nat, p.1 < NZ ∧ p.2.1 < NY ∧ p.2.2 < NX ∧
        p.1 * NX * NY + p.2.1 * NX + p.2.2 = L)) := by
  refine ⟨(read_sinogram_copy_extents _ _ _ _ _).1, (read_sinogram_copy_extents _ _ _ _ _).2.1,
    (read_sinogram_copy_extents _ _ _ _ _).2.2, ?_, ?_⟩
  · intro i hi j hj k hk
    exact read_sinogram_copy_elem NX NY NZ aux _ i j k hi hj hk
  · intro hsize
    refine ⟨?_, fun L hL => sinogram_index_unique NX NY NZ L hL⟩
    intro i hi j hj k hk
    exact ⟨read_sinogram_copy_elem_small NX NY NZ aux _ i j k hi hj hk hsize,
      sinogram_index_lt NX NY NZ i j k hi hj hk⟩

/-- C27 on the extents (2, 1, 3) with the data 0 to 5, where the copy is the identity, and
on the extents NX = NY = 65536, NZ = 2, where the offset of the plane `i = 1` is 0 in
`unsigned int`: `output[1][0][0]` is `aux[0]`, which is 0, and not `aux[2^32]`, which
is 1. -/
theorem read_sinogram_copy_reshape_witness :
    (∀ i < 3, ∀ j < 1, ∀ k < 2,
      (read_sinogram_copy 2 1 3 exampleData (Array3.empty.resize 3 1 2)).elem i j k =
        exampleData.getD (i * 2 * 1 + j * 2 + k) 0 ∧
      i * 2 * 1 + j * 2 + k < 2 * 1 * 3) ∧
    (∃! p : Nat × Nat × Nat, p.1 < 3 ∧ p.2.1 < 1 ∧ p.2.2 < 2 ∧ p.1 * 2 * 1 + p.2.1 * 2 + p.2.2 = 5) ∧
    (read_sinogram_copy 2 1 3 exampleData (Array3.empty.resize 3 1 2)).toList =
      [[[0, 1]], [[2, 3]], [[4, 5]]] ∧
    (read_sinogram_copy 65536 65536 2 exampleLargeBuffer
      (Array3.empty.resize 2 65536 65536)).elem 1 0 0 =
        exampleLargeBuffer.getD (((1 * 65536 * 65536) % 2 ^ 32 + (0 * 65536) % 2 ^ 32 + 0) % 2 ^ 32) 0 ∧
    ((1 * 65536 * 65536) % 2 ^ 32 + (0 * 65536) % 2 ^ 32 + 0) % 2 ^ 32 = 0 ∧
    1 * 65536 * 65536 + 0 * 65536 + 0 = 2 ^ 32 ∧
    exampleLargeBuffer.getD 0 0 = 0 ∧ exampleLargeBuffer.getD (2 ^ 32) 0 = 1 :=
  ⟨((read_sinogram_copy_reshape 2 1 3 exampleData Array3.empty).2.2.2.2 (by decide)).1,
   ((read_sinogram_copy_reshape 2 1 3 exampleData Array3.empty).2.2.2.2 (by decide)).2 5 (by decide),
   by decide!,
   (read_sinogram_copy_reshape 65536 65536 2 exampleLargeBuffer Array3.empty).2.2.2.1
      1 (by norm_num) 0 (by norm_num) 0 (by norm_num),
   by norm_num, by norm_num, exampleLargeBuffer_getD.1, exampleLargeBuffer_getD.2⟩

/-! ## Efficiency factors -/

/-- Rows of `N` elements laid out one after the other: length and element at `a * N + i`. -/
theorem flatMap_range_map (R N : Nat) (f : Nat → Nat → Nat) :
    ((List.range R).flatMap fun a => (List.range N).map (f a)).length = R * N ∧
    ∀ a < R, ∀ i < N,
      ((List.range R).flatMap fun a => (List.range N).map (f a))[a * N + i]? = some (f a i) := by
  induction R with
  | zero => simp
  | succ R ih =>
    obtain ⟨hlen, hget⟩ := ih
    rw [List.range_succ, List.flatMap_append]
    simp only [List.flatMap_cons, List.flatMap_nil, List.append_nil]
    constructor
    · rw [List.length_append, hlen, List.length_map, List.length_range]
      ring
    · intro a ha i hi
      rcases Nat.lt_or_ge a R with hlt | hge
      · have hpos : a * N + i < R * N := by
          have h1 : (a + 1) * N ≤ R * N := Nat.mul_le_mul_right N hlt
          rw [Nat.add_mul] at h1
          omega
        rw [List.getElem?_append_left (by rw [hlen]; exact hpos)]
        exact hget a hlt i hi
      · have hRa : a = R := by omega
        subst hRa
        rw [List.getElem?_append_right (by rw [hlen]; omega), hlen]
        have e : a * N + i - a * N = i := by omega
        rw [e, List.getElem?_map, List.getElem?_range hi]
        rfl

/-- The positions of a block of `c0` rows and `c1` columns at the origin of a dataset with
extents `(d0, d1)`. -/
theorem hyperslab_origin_2d (d0 d1 c0 c1 : Nat) (h0 : c0 ≤ d0) (h1 : c1 ≤ d1) :
    hyperslab [d0, d1] [0, 0] [c0, c1] =
      some ((List.range c0).flatMap fun a => (List.range c1).map fun i => a * d1 + i) := by
  simp [hyperslab, h0, h1, List.flatMap_singleton']

/-- On a version 9 normalization file whose efficiency dataset has a rank of at most
`m_max_dataset_dims`, `initialise_efficiency_factors` returns `yes` and records the dataset
and its extents, the second one halved. -/
theorem initialise_efficiency_factors_run (env : Env) (w : Wrapper) (dims : List Nat)
    (data : List ℚ) (hn : w.is_norm = true) (hv : w.rdf_ver = 9)
    (hl : w.file.lookup "/3DCrystalEfficiency/crystalEfficiency" = some (H5Object.array dims data))
    (hr : dims.length ≤ env.m_max_dataset_dims) :
    initialise_efficiency_factors env w =
      (Except.ok Succeeded.yes,
        { w with m_address := "/3DCrystalEfficiency/crystalEfficiency",
                 m_dataset_sptr := some (H5Object.array dims data),
                 m_NX_SUB := dims.getD 0 0,
                 m_NY_SUB := dims.getD 1 0 / 2,
                 m_NZ_SUB := if dims.length == 2 then 1 else dims.getD 2 0,
                 probes := w.probes ++ ["/3DCrystalEfficiency/crystalEfficiency"] }) := by
  have hr1 : ¬ env.m_max_dataset_dims < dims.length := by omega
  simp [initialise_efficiency_factors, is_norm_file, check_rank, set_SUB,
    H5Object.getSimpleExtentDims, Bind.bind, Pure.pure, hn, hv, hl, hr1]

/-- C26. On a version 9 normalization file whose `crystalEfficiency` dataset has a rank of
at most `m_max_dataset_dims`, `initialise_efficiency_factors` returns `yes`; for extents
`(d0, d1)` it records `m_NX_SUB = d0`, `m_NY_SUB = d1 / 2` (integer division) and
`m_NZ_SUB = 1`, and `read_efficiency_factors` then returns `d0 * (d1 / 2)` values, the
element `ax * (d1 / 2) + j` being the dataset element of row `ax` and column
`d1 / 2 - 1 - j`, one of the first `d1 / 2` columns; for extents `(d0, d1, d2)` it records
`m_NX_SUB = d0`, `m_NY_SUB = d1 / 2` and `m_NZ_SUB = d2`. -/
theorem efficiency_factors_halved (env : Env) (w : Wrapper) (dims : List Nat) (data : List ℚ)
    (hn : w.is_norm = true) (hv : w.rdf_ver = 9)
    (hl : w.file.lookup "/3DCrystalEfficiency/crystalEfficiency" = some (H5Object.array dims data))
    (hr : dims.length ≤ env.m_max_dataset_dims) :
    ∃ w1, initialise_efficiency_factors env w = (Except.ok Succeeded.yes, w1) ∧
      (∀ d0 d1, dims = [d0, d1] →
        w1.m_NX_SUB = d0 ∧ w1.m_NY_SUB = d1 / 2 ∧ w1.m_NZ_SUB = 1 ∧
        ∀ out, ∃ o, read_efficiency_factors out (0, 0) (1, 1) w1 = (Except.ok (Succeeded.yes, o), w1) ∧
          o.size = d0 * (d1 / 2) ∧
          ∀ ax < d0, ∀ j < d1 / 2,
            o.elem (ax * (d1 / 2) + j) = data.getD (ax * d1 + (d1 / 2 - 1 - j)) 0) ∧
      (∀ d0 d1 d2, dims = [d0, d1, d2] →
        w1.m_NX_SUB = d0 ∧ w1.m_NY_SUB = d1 / 2 ∧ w1.m_NZ_SUB = d2) := by
  refine ⟨_, initialise_efficiency_factors_run env w dims data hn hv hl hr, ?_, ?_⟩
  · intro d0 d1 hd
    subst hd
    refine ⟨rfl, rfl, rfl, ?_⟩
    intro out
    have hpos := hyperslab_origin_2d d0 d1 d0 (d1 / 2) (le_refl _) (Nat.div_le_self _ _)
    obtain ⟨hlen, hget⟩ := flatMap_range_map d0 (d1 / 2) (fun a i => a * d1 + i)
    have hread : (read_hyperslab [0, 0] [d0, d1 / 2]
        { w with m_address := "/3DCrystalEfficiency/crystalEfficiency",
                 m_dataset_sptr := some (H5Object.array [d0, d1] data),
                 m_NX_SUB := d0,
                 m_NY_SUB := d1 / 2,
                 m_NZ_SUB := 1,
                 probes := w.probes ++ ["/3DCrystalEfficiency/crystalEfficiency"] }).1 =
        Except.ok (((List.range d0).flatMap fun a => (List.range (d1 / 2)).map fun i => a * d1 + i).map
          fun i => data.getD i 0) := by
      simp [read_hyperslab, Bind.bind, Pure.pure, hpos, hlen]
    refine ⟨_, read_efficiency_factors_run _ out _ hn hread, ?_, ?_⟩
    · rw [flip_tangential_size]; rfl
    · intro ax hax j hj
      show (flip_tangential d0 (d1 / 2) _ _).elem (ax * (d1 / 2) + j) = _
      rw [flip_tangential_elem d0 (d1 / 2) _ _ ax j hax hj, List.getD_eq_getElem?_getD,
        List.getElem?_map, hget ax hax (d1 / 2 - 1 - j) (by omega)]
      rfl
  · intro d0 d1 d2 hd
    subst hd
    exact ⟨rfl, rfl, rfl⟩

/-- Witness for C26: the example efficiency dataset has extents (2, 4) and the data 0 to 7;
the recorded extents are (2, 2, 1) and the four values read are 1, 0, 5, 4. -/
theorem efficiency_factors_halved_witness :
    (∃ w1, initialise_efficiency_factors exampleEnv
        (check_file (Wrapper.fresh exampleNormSmallFile false false false false)).2 =
          (Except.ok Succeeded.yes, w1) ∧
      (∀ d0 d1, [2, 4] = [d0, d1] →
        w1.m_NX_SUB = d0 ∧ w1.m_NY_SUB = d1 / 2 ∧ w1.m_NZ_SUB = 1 ∧
        ∀ out, ∃ o, read_efficiency_factors out (0, 0) (1, 1) w1 = (Except.ok (Succeeded.yes, o), w1) ∧
          o.size = d0 * (d1 / 2) ∧
          ∀ ax < d0, ∀ j < d1 / 2,
            o.elem (ax * (d1 / 2) + j) =
              ([0, 1, 2, 3, 4, 5, 6, 7] : List ℚ).getD (ax * d1 + (d1 / 2 - 1 - j)) 0) ∧
      (∀ d0 d1 d2, [2, 4] = [d0, d1, d2] →
        w1.m_NX_SUB = d0 ∧ w1.m_NY_SUB = d1 / 2 ∧ w1.m_NZ_SUB = d2)) ∧
    (exampleNormSmall.m_NX_SUB, exampleNormSmall.m_NY_SUB, exampleNormSmall.m_NZ_SUB) = (2, 2, 1) ∧
    ((read_efficiency_factors Array1.empty (0, 0) (1, 1) exampleNormSmall).1.map
      fun r => (r.1, r.2.toList)) = Except.ok (Succeeded.yes, [1, 0, 5, 4]) :=
  ⟨efficiency_factors_halved exampleEnv
      (check_file (Wrapper.fresh exampleNormSmallFile false false false false)).2 [2, 4]
      [0, 1, 2, 3, 4, 5, 6, 7] (by decide) (by decide) (by decide!) (by decide),
   by decide, by decide!⟩

end STIR.GE.RDF_HDF5
